import Mathlib

/-!
The package `useragent-generator`: a shallow embedding of `pkg/useragent`

The Go package keeps one `uint64` of PRNG state per `Generator` and builds
User-Agent strings by drawing fragments from component pools and appending
them to a `strings.Builder`.

* `uint64` values are natural numbers; the two left shifts of `next` are
  truncated with `% 2 ^ 64`.
* A method that mutates `g.rng` becomes a function returning the result
  together with the successor state.
* Indexing an empty slice panics in Go; a panic is `none`.
* The component pools live in the generated file `data.go`; they are taken
  as a parameter (`Pools`).  The two engine constants are taken from the
  template in `scripts/generate_data.go`.
-/

namespace UA

/-! ## random.go -/

/-- The PRNG object of `random.go`: a single `uint64` field. -/
structure xorshift64 where
  state : Nat
deriving DecidableEq

/-- Constructor `newXorshift64`: a zero seed is replaced by the default seed. -/
def newXorshift64 (seed : Nat) : xorshift64 :=
  if seed = 0 then { state := 0xDEADBEEFCAFEBABE } else { state := seed }

/-- Method `next`: three xor-shift assignments to `x.state`, then the new
state is returned.  The pair is (returned value, object after the call). -/
def xorshift64.next (x : xorshift64) : Nat × xorshift64 :=
  let s1 := x.state ^^^ ((x.state <<< 13) % 2 ^ 64)
  let s2 := s1 ^^^ (s1 >>> 7)
  let s3 := s2 ^^^ ((s2 <<< 17) % 2 ^ 64)
  (s3, { state := s3 })

/-- Method `intn`: `0` without a draw when `n <= 0`, otherwise
`int(x.next() % uint64(n))`.  For a positive Go `int` the conversion
`uint64(n)` is the value `n` itself, and the remainder is below `n`, so the
conversion back to `int` is the identity as well. -/
def xorshift64.intn (x : xorshift64) (n : Int) : Int × xorshift64 :=
  if n ≤ 0 then (0, x)
  else
    let r := x.next
    (Int.ofNat (r.1 % n.toNat), r.2)

/-- Generic function `pick`: `s[x.intn(len(s))]`.  On an empty slice `intn`
returns `0` and the index expression panics. -/
def pick {α : Type} (x : xorshift64) (s : List α) : Option (α × xorshift64) :=
  let r := x.intn (Int.ofNat s.length)
  match s[r.1.toNat]? with
  | some v => some (v, r.2)
  | none => none

/-! ## Component pools (`data.go`) -/

/-- An element of `androidDevices`. -/
structure AndroidDevice where
  model : String
  build : String
deriving DecidableEq

/-- The ten package-level slices declared by the generated `data.go`. -/
structure Pools where
  chromeVersions : List String
  firefoxVersions : List String
  safariVersions : List String
  edgeVersions : List String
  windowsVersions : List String
  macVersions : List String
  linuxDesktops : List String
  iosVersions : List String
  androidVersions : List String
  androidDevices : List AndroidDevice

/-- Every one of the ten pools has at least one element. -/
def Pools.NonEmpty (P : Pools) : Prop :=
  0 < P.chromeVersions.length ∧ 0 < P.firefoxVersions.length ∧
  0 < P.safariVersions.length ∧ 0 < P.edgeVersions.length ∧
  0 < P.windowsVersions.length ∧ 0 < P.macVersions.length ∧
  0 < P.linuxDesktops.length ∧ 0 < P.iosVersions.length ∧
  0 < P.androidVersions.length ∧ 0 < P.androidDevices.length

instance (P : Pools) : Decidable P.NonEmpty := by
  unfold Pools.NonEmpty; infer_instance

/-- Constant `webkitVersion` (used in Safari). -/
def webkitVersion : String := "605.1.15"

/-- Constant `appleWebKitChrome` (AppleWebKit version for Chrome/Edge). -/
def appleWebKitChrome : String := "537.36"

/-! ## ua.go / generators.go: the Generator -/

/-- A `Generator` owns one `xorshift64`. -/
structure Generator where
  rng : xorshift64
deriving DecidableEq

/-- Constructor `WithSeed`. -/
def WithSeed (seed : Nat) : Generator := { rng := newXorshift64 seed }

/-- Method `State`: the internal PRNG state. -/
def Generator.State (g : Generator) : Nat := g.rng.state

/-- Method `Clone`: a new generator around a new `xorshift64` holding the
same state. -/
def Generator.Clone (g : Generator) : Generator := { rng := { state := g.rng.state } }

/-- Method `WriteString` of `strings.Builder`: append to the buffer. -/
def WriteString (b : String) (s : String) : String := b ++ s

/-- Method `Chrome`: Chrome on a random desktop OS. -/
def Generator.Chrome (P : Pools) (g : Generator) : Option (String × Generator) := do
  let (version, x) ← pick g.rng P.chromeVersions
  let b := ""
  let b := WriteString b "Mozilla/5.0 ("
  let (n, x) := x.intn 3
  let (b, x) ←
    if n = 0 then do
      let b := WriteString b "Windows NT "
      let (w, x) ← pick x P.windowsVersions
      let b := WriteString b w
      let b := WriteString b "; Win64; x64"
      pure (b, x)
    else if n = 1 then do
      let b := WriteString b "Macintosh; Intel Mac OS X "
      let (m, x) ← pick x P.macVersions
      let b := WriteString b m
      pure (b, x)
    else if n = 2 then do
      let (l, x) ← pick x P.linuxDesktops
      let b := WriteString b l
      pure (b, x)
    else pure (b, x)
  let b := WriteString b ") AppleWebKit/"
  let b := WriteString b appleWebKitChrome
  let b := WriteString b " (KHTML, like Gecko) Chrome/"
  let b := WriteString b version
  let b := WriteString b " Safari/"
  let b := WriteString b appleWebKitChrome
  pure (b, { rng := x })

/-- Method `ChromeWindows`. -/
def Generator.ChromeWindows (P : Pools) (g : Generator) : Option (String × Generator) := do
  let (version, x) ← pick g.rng P.chromeVersions
  let b := ""
  let b := WriteString b "Mozilla/5.0 (Windows NT "
  let (w, x) ← pick x P.windowsVersions
  let b := WriteString b w
  let b := WriteString b "; Win64; x64) AppleWebKit/"
  let b := WriteString b appleWebKitChrome
  let b := WriteString b " (KHTML, like Gecko) Chrome/"
  let b := WriteString b version
  let b := WriteString b " Safari/"
  let b := WriteString b appleWebKitChrome
  pure (b, { rng := x })

/-- Method `ChromeMac`. -/
def Generator.ChromeMac (P : Pools) (g : Generator) : Option (String × Generator) := do
  let (version, x) ← pick g.rng P.chromeVersions
  let b := ""
  let b := WriteString b "Mozilla/5.0 (Macintosh; Intel Mac OS X "
  let (m, x) ← pick x P.macVersions
  let b := WriteString b m
  let b := WriteString b ") AppleWebKit/"
  let b := WriteString b appleWebKitChrome
  let b := WriteString b " (KHTML, like Gecko) Chrome/"
  let b := WriteString b version
  let b := WriteString b " Safari/"
  let b := WriteString b appleWebKitChrome
  pure (b, { rng := x })

/-- Method `ChromeLinux`. -/
def Generator.ChromeLinux (P : Pools) (g : Generator) : Option (String × Generator) := do
  let (version, x) ← pick g.rng P.chromeVersions
  let b := ""
  let b := WriteString b "Mozilla/5.0 ("
  let (l, x) ← pick x P.linuxDesktops
  let b := WriteString b l
  let b := WriteString b ") AppleWebKit/"
  let b := WriteString b appleWebKitChrome
  let b := WriteString b " (KHTML, like Gecko) Chrome/"
  let b := WriteString b version
  let b := WriteString b " Safari/"
  let b := WriteString b appleWebKitChrome
  pure (b, { rng := x })

/-- Method `Firefox`: Firefox on a random desktop OS. -/
def Generator.Firefox (P : Pools) (g : Generator) : Option (String × Generator) := do
  let (version, x) ← pick g.rng P.firefoxVersions
  let b := ""
  let b := WriteString b "Mozilla/5.0 ("
  let (n, x) := x.intn 3
  let (b, x) ←
    if n = 0 then do
      let b := WriteString b "Windows NT "
      let (w, x) ← pick x P.windowsVersions
      let b := WriteString b w
      let b := WriteString b "; Win64; x64; rv:"
      let b := WriteString b version
      let b := WriteString b ") Gecko/20100101 Firefox/"
      pure (b, x)
    else if n = 1 then do
      let b := WriteString b "Macintosh; Intel Mac OS X "
      let (m, x) ← pick x P.macVersions
      let b := WriteString b m
      let b := WriteString b "; rv:"
      let b := WriteString b version
      let b := WriteString b ") Gecko/20100101 Firefox/"
      pure (b, x)
    else if n = 2 then do
      let (l, x) ← pick x P.linuxDesktops
      let b := WriteString b l
      let b := WriteString b "; rv:"
      let b := WriteString b version
      let b := WriteString b ") Gecko/20100101 Firefox/"
      pure (b, x)
    else pure (b, x)
  let b := WriteString b version
  pure (b, { rng := x })

/-- Method `FirefoxWindows`. -/
def Generator.FirefoxWindows (P : Pools) (g : Generator) : Option (String × Generator) := do
  let (version, x) ← pick g.rng P.firefoxVersions
  let b := ""
  let b := WriteString b "Mozilla/5.0 (Windows NT "
  let (w, x) ← pick x P.windowsVersions
  let b := WriteString b w
  let b := WriteString b "; Win64; x64; rv:"
  let b := WriteString b version
  let b := WriteString b ") Gecko/20100101 Firefox/"
  let b := WriteString b version
  pure (b, { rng := x })

/-- Method `FirefoxMac`. -/
def Generator.FirefoxMac (P : Pools) (g : Generator) : Option (String × Generator) := do
  let (version, x) ← pick g.rng P.firefoxVersions
  let b := ""
  let b := WriteString b "Mozilla/5.0 (Macintosh; Intel Mac OS X "
  let (m, x) ← pick x P.macVersions
  let b := WriteString b m
  let b := WriteString b "; rv:"
  let b := WriteString b version
  let b := WriteString b ") Gecko/20100101 Firefox/"
  let b := WriteString b version
  pure (b, { rng := x })

/-- Method `Safari`: desktop Safari (macOS only). -/
def Generator.Safari (P : Pools) (g : Generator) : Option (String × Generator) := do
  let (version, x) ← pick g.rng P.safariVersions
  let (macVer, x) ← pick x P.macVersions
  let b := ""
  let b := WriteString b "Mozilla/5.0 (Macintosh; Intel Mac OS X "
  let b := WriteString b macVer
  let b := WriteString b ") AppleWebKit/"
  let b := WriteString b webkitVersion
  let b := WriteString b " (KHTML, like Gecko) Version/"
  let b := WriteString b version
  let b := WriteString b " Safari/"
  let b := WriteString b webkitVersion
  pure (b, { rng := x })

/-- Method `Edge`: desktop Edge on Windows or macOS. -/
def Generator.Edge (P : Pools) (g : Generator) : Option (String × Generator) := do
  let (edgeVer, x) ← pick g.rng P.edgeVersions
  let (chromeVer, x) ← pick x P.chromeVersions
  let b := ""
  let b := WriteString b "Mozilla/5.0 ("
  let (n, x) := x.intn 2
  let (b, x) ←
    if n = 0 then do
      let b := WriteString b "Windows NT "
      let (w, x) ← pick x P.windowsVersions
      let b := WriteString b w
      let b := WriteString b "; Win64; x64"
      pure (b, x)
    else if n = 1 then do
      let b := WriteString b "Macintosh; Intel Mac OS X "
      let (m, x) ← pick x P.macVersions
      let b := WriteString b m
      pure (b, x)
    else pure (b, x)
  let b := WriteString b ") AppleWebKit/"
  let b := WriteString b appleWebKitChrome
  let b := WriteString b " (KHTML, like Gecko) Chrome/"
  let b := WriteString b chromeVer
  let b := WriteString b " Safari/"
  let b := WriteString b appleWebKitChrome
  let b := WriteString b " Edg/"
  let b := WriteString b edgeVer
  pure (b, { rng := x })

/-- Method `EdgeWindows`. -/
def Generator.EdgeWindows (P : Pools) (g : Generator) : Option (String × Generator) := do
  let (edgeVer, x) ← pick g.rng P.edgeVersions
  let (chromeVer, x) ← pick x P.chromeVersions
  let b := ""
  let b := WriteString b "Mozilla/5.0 (Windows NT "
  let (w, x) ← pick x P.windowsVersions
  let b := WriteString b w
  let b := WriteString b "; Win64; x64) AppleWebKit/"
  let b := WriteString b appleWebKitChrome
  let b := WriteString b " (KHTML, like Gecko) Chrome/"
  let b := WriteString b chromeVer
  let b := WriteString b " Safari/"
  let b := WriteString b appleWebKitChrome
  let b := WriteString b " Edg/"
  let b := WriteString b edgeVer
  pure (b, { rng := x })

/-- Method `SafariIOS`: Safari on iPhone. -/
def Generator.SafariIOS (P : Pools) (g : Generator) : Option (String × Generator) := do
  let (iosVer, x) ← pick g.rng P.iosVersions
  let (safariVer, x) ← pick x P.safariVersions
  let b := ""
  let b := WriteString b "Mozilla/5.0 (iPhone; CPU iPhone OS "
  let b := WriteString b iosVer
  let b := WriteString b " like Mac OS X) AppleWebKit/"
  let b := WriteString b webkitVersion
  let b := WriteString b " (KHTML, like Gecko) Version/"
  let b := WriteString b safariVer
  let b := WriteString b " Mobile/15E148 Safari/"
  let b := WriteString b webkitVersion
  pure (b, { rng := x })

/-- Method `SafariIPad`: Safari on iPad. -/
def Generator.SafariIPad (P : Pools) (g : Generator) : Option (String × Generator) := do
  let (iosVer, x) ← pick g.rng P.iosVersions
  let (safariVer, x) ← pick x P.safariVersions
  let b := ""
  let b := WriteString b "Mozilla/5.0 (iPad; CPU OS "
  let b := WriteString b iosVer
  let b := WriteString b " like Mac OS X) AppleWebKit/"
  let b := WriteString b webkitVersion
  let b := WriteString b " (KHTML, like Gecko) Version/"
  let b := WriteString b safariVer
  let b := WriteString b " Mobile/15E148 Safari/"
  let b := WriteString b webkitVersion
  pure (b, { rng := x })

/-- Method `ChromeIOS`: Chrome on iPhone. -/
def Generator.ChromeIOS (P : Pools) (g : Generator) : Option (String × Generator) := do
  let (iosVer, x) ← pick g.rng P.iosVersions
  let (chromeVer, x) ← pick x P.chromeVersions
  let b := ""
  let b := WriteString b "Mozilla/5.0 (iPhone; CPU iPhone OS "
  let b := WriteString b iosVer
  let b := WriteString b " like Mac OS X) AppleWebKit/"
  let b := WriteString b appleWebKitChrome
  let b := WriteString b " (KHTML, like Gecko) CriOS/"
  let b := WriteString b chromeVer
  let b := WriteString b " Mobile/15E148 Safari/"
  let b := WriteString b appleWebKitChrome
  pure (b, { rng := x })

/-- Method `ChromeAndroid`. -/
def Generator.ChromeAndroid (P : Pools) (g : Generator) : Option (String × Generator) := do
  let (androidVer, x) ← pick g.rng P.androidVersions
  let (chromeVer, x) ← pick x P.chromeVersions
  let (device, x) ← pick x P.androidDevices
  let b := ""
  let b := WriteString b "Mozilla/5.0 (Linux; Android "
  let b := WriteString b androidVer
  let b := WriteString b "; "
  let b := WriteString b device.model
  let b := WriteString b " Build/"
  let b := WriteString b device.build
  let b := WriteString b ") AppleWebKit/"
  let b := WriteString b appleWebKitChrome
  let b := WriteString b " (KHTML, like Gecko) Chrome/"
  let b := WriteString b chromeVer
  let b := WriteString b " Mobile Safari/"
  let b := WriteString b appleWebKitChrome
  pure (b, { rng := x })

/-- Method `AndroidWebView`. -/
def Generator.AndroidWebView (P : Pools) (g : Generator) : Option (String × Generator) := do
  let (androidVer, x) ← pick g.rng P.androidVersions
  let (chromeVer, x) ← pick x P.chromeVersions
  let (device, x) ← pick x P.androidDevices
  let b := ""
  let b := WriteString b "Mozilla/5.0 (Linux; Android "
  let b := WriteString b androidVer
  let b := WriteString b "; "
  let b := WriteString b device.model
  let b := WriteString b " Build/"
  let b := WriteString b device.build
  let b := WriteString b "; wv) AppleWebKit/"
  let b := WriteString b appleWebKitChrome
  let b := WriteString b " (KHTML, like Gecko) Version/4.0 Chrome/"
  let b := WriteString b chromeVer
  let b := WriteString b " Mobile Safari/"
  let b := WriteString b appleWebKitChrome
  pure (b, { rng := x })

/-- Method `FirefoxAndroid`. -/
def Generator.FirefoxAndroid (P : Pools) (g : Generator) : Option (String × Generator) := do
  let (androidVer, x) ← pick g.rng P.androidVersions
  let (ffVer, x) ← pick x P.firefoxVersions
  let b := ""
  let b := WriteString b "Mozilla/5.0 (Android "
  let b := WriteString b androidVer
  let b := WriteString b "; Mobile; rv:"
  let b := WriteString b ffVer
  let b := WriteString b ") Gecko/"
  let b := WriteString b ffVer
  let b := WriteString b " Firefox/"
  let b := WriteString b ffVer
  pure (b, { rng := x })

/-- Method `SamsungBrowser`. -/
def Generator.SamsungBrowser (P : Pools) (g : Generator) : Option (String × Generator) := do
  let (androidVer, x) ← pick g.rng P.androidVersions
  let (chromeVer, x) ← pick x P.chromeVersions
  let (device, x) ← pick x P.androidDevices
  let b := ""
  let b := WriteString b "Mozilla/5.0 (Linux; Android "
  let b := WriteString b androidVer
  let b := WriteString b "; "
  let b := WriteString b device.model
  let b := WriteString b " Build/"
  let b := WriteString b device.build
  let b := WriteString b ") AppleWebKit/"
  let b := WriteString b appleWebKitChrome
  let b := WriteString b " (KHTML, like Gecko) SamsungBrowser/25.0 Chrome/"
  let b := WriteString b chromeVer
  let b := WriteString b " Mobile Safari/"
  let b := WriteString b appleWebKitChrome
  pure (b, { rng := x })

/-- Method `EdgeAndroid`. -/
def Generator.EdgeAndroid (P : Pools) (g : Generator) : Option (String × Generator) := do
  let (androidVer, x) ← pick g.rng P.androidVersions
  let (chromeVer, x) ← pick x P.chromeVersions
  let (edgeVer, x) ← pick x P.edgeVersions
  let (device, x) ← pick x P.androidDevices
  let b := ""
  let b := WriteString b "Mozilla/5.0 (Linux; Android "
  let b := WriteString b androidVer
  let b := WriteString b "; "
  let b := WriteString b device.model
  let b := WriteString b " Build/"
  let b := WriteString b device.build
  let b := WriteString b ") AppleWebKit/"
  let b := WriteString b appleWebKitChrome
  let b := WriteString b " (KHTML, like Gecko) Chrome/"
  let b := WriteString b chromeVer
  let b := WriteString b " Mobile Safari/"
  let b := WriteString b appleWebKitChrome
  let b := WriteString b " EdgA/"
  let b := WriteString b edgeVer
  pure (b, { rng := x })

/-! ## Bot constants (generators.go) -/

def googlebotUA : String :=
  "Mozilla/5.0 (compatible; Googlebot/2.1; +http://www.google.com/bot.html)"

def googlebotMobileUA : String :=
  "Mozilla/5.0 (Linux; Android 6.0.1; Nexus 5X Build/MMB29P) " ++
  "AppleWebKit/537.36 (KHTML, like Gecko) Chrome/131.0.6778.85 Mobile Safari/537.36 " ++
  "(compatible; Googlebot/2.1; +http://www.google.com/bot.html)"

def bingbotUA : String :=
  "Mozilla/5.0 (compatible; bingbot/2.0; +http://www.bing.com/bingbot.htm)"

def bingbotMobileUA : String :=
  "Mozilla/5.0 (Linux; Android 6.0.1; Nexus 5X Build/MMB29P) " ++
  "AppleWebKit/537.36 (KHTML, like Gecko) Chrome/131.0.6778.85 Mobile Safari/537.36 " ++
  "(compatible; bingbot/2.0; +http://www.bing.com/bingbot.htm)"

def yandexBotUA : String :=
  "Mozilla/5.0 (compatible; YandexBot/3.0; +http://yandex.com/bots)"

def yandexBotMobileUA : String :=
  "Mozilla/5.0 (Linux; Android 6.0.1; Nexus 5X Build/MMB29P) " ++
  "AppleWebKit/537.36 (KHTML, like Gecko) Chrome/131.0.6778.85 Mobile Safari/537.36 " ++
  "(compatible; YandexBot/3.0; +http://yandex.com/bots)"

def baiduspiderUA : String :=
  "Mozilla/5.0 (compatible; Baiduspider/2.0; +http://www.baidu.com/search/spider.html)"

def duckduckbotUA : String :=
  "DuckDuckBot/1.1; (+http://duckduckgo.com/duckduckbot.html)"

def facebookBotUA : String :=
  "facebookexternalhit/1.1 (+http://www.facebook.com/externalhit_uatext.php)"

def twitterBotUA : String := "Twitterbot/1.0"

def linkedinBotUA : String :=
  "LinkedInBot/1.0 (compatible; Mozilla/5.0; Apache-HttpClient +http://www.linkedin.com)"

def slackBotUA : String := "Slackbot-LinkExpanding 1.0 (+https://api.slack.com/robots)"

def telegramBotUA : String := "TelegramBot (like TwitterBot)"

def discordBotUA : String := "Mozilla/5.0 (compatible; Discordbot/2.0; +https://discordapp.com)"

def whatsappBotUA : String := "WhatsApp/2.23.20.0"

def pinterestBotUA : String := "Pinterest/0.2 (+http://www.pinterest.com/bot.html)"

def ahrefsBotUA : String :=
  "Mozilla/5.0 (compatible; AhrefsBot/7.0; +http://ahrefs.com/robot/)"

def semrushBotUA : String :=
  "Mozilla/5.0 (compatible; SemrushBot/7~bl; +http://www.semrush.com/bot.html)"

def mozBotUA : String :=
  "Mozilla/5.0 (compatible; DotBot/1.2; +https://opensiteexplorer.org/dotbot; help@moz.com)"

def majesticBotUA : String :=
  "Mozilla/5.0 (compatible; MJ12bot/v1.4.8; http://mj12bot.com/)"

def screaminFrogBotUA : String := "Screaming Frog SEO Spider/19.0"

def sitebulbBotUA : String :=
  "Mozilla/5.0 (compatible; SitebulbBot/0.11.10; +https://sitebulb.com/crawler/)"

/-! ## ua.go: category dispatch -/

/-- Package-level slice `botUAs`. -/
def botUAs : List String :=
  [ googlebotUA, googlebotMobileUA, bingbotUA, bingbotMobileUA, yandexBotUA, baiduspiderUA,
    facebookBotUA, twitterBotUA, linkedinBotUA, ahrefsBotUA, semrushBotUA ]

/-- Method `RandomBot`: `botUAs[g.rng.intn(len(botUAs))]`. -/
def Generator.RandomBot (g : Generator) : Option (String × Generator) :=
  let r := g.rng.intn (Int.ofNat botUAs.length)
  match botUAs[r.1.toNat]? with
  | some s => some (s, { rng := r.2 })
  | none => none

/-- Method `RandomDesktop`. -/
def Generator.RandomDesktop (P : Pools) (g : Generator) : Option (String × Generator) :=
  let (n, x) := g.rng.intn 4
  if n = 0 then Generator.Chrome P { rng := x }
  else if n = 1 then Generator.Firefox P { rng := x }
  else if n = 2 then Generator.Safari P { rng := x }
  else Generator.Edge P { rng := x }

/-- Method `RandomMobile`. -/
def Generator.RandomMobile (P : Pools) (g : Generator) : Option (String × Generator) :=
  let (n, x) := g.rng.intn 4
  if n = 0 then Generator.SafariIOS P { rng := x }
  else if n = 1 then Generator.ChromeAndroid P { rng := x }
  else if n = 2 then Generator.ChromeIOS P { rng := x }
  else Generator.AndroidWebView P { rng := x }

/-- Method `Random`: a User-Agent from any category. -/
def Generator.Random (P : Pools) (g : Generator) : Option (String × Generator) :=
  let (n, x) := g.rng.intn 3
  if n = 0 then Generator.RandomDesktop P { rng := x }
  else if n = 1 then Generator.RandomMobile P { rng := x }
  else Generator.RandomBot { rng := x }

/-! ## Method calls as data -/

/-- The string-returning methods of `Generator` (each also has a package-level
function of the same name). -/
inductive Method where
  | Chrome | ChromeWindows | ChromeMac | ChromeLinux
  | Firefox | FirefoxWindows | FirefoxMac
  | Safari | Edge | EdgeWindows
  | SafariIOS | SafariIPad | ChromeIOS | ChromeAndroid | AndroidWebView
  | FirefoxAndroid | SamsungBrowser | EdgeAndroid
  | Random | RandomDesktop | RandomMobile | RandomBot
deriving DecidableEq

/-- The call `g.m()`. -/
def Generator.call (P : Pools) (m : Method) (g : Generator) : Option (String × Generator) :=
  match m with
  | .Chrome => g.Chrome P
  | .ChromeWindows => g.ChromeWindows P
  | .ChromeMac => g.ChromeMac P
  | .ChromeLinux => g.ChromeLinux P
  | .Firefox => g.Firefox P
  | .FirefoxWindows => g.FirefoxWindows P
  | .FirefoxMac => g.FirefoxMac P
  | .Safari => g.Safari P
  | .Edge => g.Edge P
  | .EdgeWindows => g.EdgeWindows P
  | .SafariIOS => g.SafariIOS P
  | .SafariIPad => g.SafariIPad P
  | .ChromeIOS => g.ChromeIOS P
  | .ChromeAndroid => g.ChromeAndroid P
  | .AndroidWebView => g.AndroidWebView P
  | .FirefoxAndroid => g.FirefoxAndroid P
  | .SamsungBrowser => g.SamsungBrowser P
  | .EdgeAndroid => g.EdgeAndroid P
  | .Random => g.Random P
  | .RandomDesktop => g.RandomDesktop P
  | .RandomMobile => g.RandomMobile P
  | .RandomBot => g.RandomBot

/-- The calls `g.m1(); g.m2(); ...` in order: the strings returned and the
generator afterwards. -/
def Generator.run (P : Pools) (g : Generator) : List Method → Option (List String × Generator)
  | [] => some ([], g)
  | m :: ms => do
    let (s, g1) ← g.call P m
    let (ss, g2) ← Generator.run P g1 ms
    pure (s :: ss, g2)

/-! ## Objects and pointers

`WithSeed` and `Clone` return `*Generator`, and a `Generator` holds a
`*xorshift64`.  To speak about two generators that live side by side, the
heap is explicit: every allocated `xorshift64` and every allocated
`Generator` has an address (its index), and a method call on a generator
writes the cell its `rng` field points to. -/

/-- The allocated objects: `rngs[a]` is the `xorshift64` at address `a`,
`gens[p]` is the `rng` field (an address into `rngs`) of the `Generator` at
address `p`. -/
structure Heap where
  rngs : List xorshift64
  gens : List Nat
deriving DecidableEq

/-- The generator at address `p`, with its `rng` pointer followed. -/
def Heap.deref (h : Heap) (p : Nat) : Option Generator := do
  let a ← h.gens[p]?
  let x ← h.rngs[a]?
  pure { rng := x }

/-- The expression `WithSeed(seed)`: `newXorshift64` allocates the PRNG, then
the `Generator` literal is allocated around its address. -/
def Heap.WithSeed (h : Heap) (seed : Nat) : Nat × Heap :=
  (h.gens.length,
   { rngs := h.rngs ++ [newXorshift64 seed], gens := h.gens ++ [h.rngs.length] })

/-- The expression `p.State()`. -/
def Heap.State (h : Heap) (p : Nat) : Option Nat :=
  (h.deref p).map Generator.State

/-- The expression `p.Clone()`: a new `xorshift64` with the state read through
`p`, and a new `Generator` around it. -/
def Heap.Clone (h : Heap) (p : Nat) : Option (Nat × Heap) := do
  let g ← h.deref p
  pure (h.gens.length,
    { rngs := h.rngs ++ [{ state := g.rng.state }], gens := h.gens ++ [h.rngs.length] })

/-- The expression `p.m()`: the method body runs on the `xorshift64` that
`p.rng` points to and leaves its new state in that cell. -/
def Heap.call (P : Pools) (h : Heap) (p : Nat) (m : Method) : Option (String × Heap) := do
  let a ← h.gens[p]?
  let x ← h.rngs[a]?
  let (s, g) ← Generator.call P m { rng := x }
  pure (s, { h with rngs := h.rngs.set a g.rng })

/-- A straight-line program of method calls `p.m()` on generators of the heap,
in any interleaving. -/
def Heap.runCalls (P : Pools) (h : Heap) : List (Nat × Method) → Option (List String × Heap)
  | [] => some ([], h)
  | (p, m) :: cs => do
    let (s, h1) ← h.call P p m
    let (ss, h2) ← Heap.runCalls P h1 cs
    pure (s :: ss, h2)

/-- The test loop `ua1 := p.m(); ua2 := q.m()` over a list of methods: the
pairs `(ua1, ua2)` and the heap afterwards. -/
def Heap.lockstep (P : Pools) (h : Heap) (p q : Nat) :
    List Method → Option (List (String × String) × Heap)
  | [] => some ([], h)
  | m :: ms => do
    let (ua1, h1) ← h.call P p m
    let (ua2, h2) ← h1.call P q m
    let (rest, h3) ← Heap.lockstep P h2 p q ms
    pure ((ua1, ua2) :: rest, h3)

/-! ## The package-level generator -/

/-- The program state seen by the package-level functions: the heap and the
variable `globalGen`.  `globalLock` is held for the whole of every
package-level function, so these functions execute one after another. -/
structure World where
  heap : Heap
  globalGen : Nat
deriving DecidableEq

/-- Package function `Seed`: `globalGen = WithSeed(seed)`. -/
def Seed (w : World) (seed : Nat) : World :=
  let r := w.heap.WithSeed seed
  { heap := r.2, globalGen := r.1 }

/-- Package-level function `m()`: `return globalGen.m()`. -/
def World.call (P : Pools) (w : World) (m : Method) : Option (String × World) := do
  let (s, h) ← w.heap.call P w.globalGen m
  pure (s, { w with heap := h })

/-- Package-level calls `m1(); m2(); ...` in order. -/
def World.run (P : Pools) (w : World) : List Method → Option (List String × World)
  | [] => some ([], w)
  | m :: ms => do
    let (s, w1) ← w.call P m
    let (ss, w2) ← World.run P w1 ms
    pure (s :: ss, w2)

/-- Pools used to evaluate the definitions on concrete inputs. -/
def samplePools : Pools where
  chromeVersions := ["131.0.6778.85", "130.0.6723.117"]
  firefoxVersions := ["133.0", "132.0"]
  safariVersions := ["17.4", "17.6"]
  edgeVersions := ["131.0.2903.51", "130.0.2849.80"]
  windowsVersions := ["10.0", "6.1"]
  macVersions := ["10_15_7", "14_4"]
  linuxDesktops := ["X11; Linux x86_64", "X11; Ubuntu; Linux x86_64"]
  iosVersions := ["17_4_1", "18_0"]
  androidVersions := ["13", "14"]
  androidDevices :=
    [{ model := "Pixel 8", build := "UQ1A.231205.015" },
     { model := "SM-S911B", build := "TP1A.220624.014" }]

/-- The heap holding one generator in the state that `WithSeed(12345)` has
after 10 calls of `Chrome()`. -/
def heapAfterTenChrome : Heap :=
  { rngs := [{ state := 13178583963499273219 }], gens := [0] }

/-- The element of a non-empty pool selected by the drawn value `r`. -/
def pickAt {α : Type} (s : List α) (r : Nat) (h : 0 < s.length) : α :=
  s.get ⟨r % s.length, Nat.mod_lt _ h⟩

/-! ## Bot accessors (generators.go)

Each accessor is a function without parameters whose body is `return <constant>`;
it reads and writes no variable, so it is the value it returns. -/

/-- Function `Googlebot`: `return googlebotUA`. -/
def Googlebot : String := googlebotUA

/-- Function `GooglebotMobile`: `return googlebotMobileUA`. -/
def GooglebotMobile : String := googlebotMobileUA

/-- Function `Bingbot`: `return bingbotUA`. -/
def Bingbot : String := bingbotUA

/-- Function `BingbotMobile`: `return bingbotMobileUA`. -/
def BingbotMobile : String := bingbotMobileUA

/-- Function `YandexBot`: `return yandexBotUA`. -/
def YandexBot : String := yandexBotUA

/-- Function `YandexBotMobile`: `return yandexBotMobileUA`. -/
def YandexBotMobile : String := yandexBotMobileUA

/-- Function `Baiduspider`: `return baiduspiderUA`. -/
def Baiduspider : String := baiduspiderUA

/-- Function `DuckDuckBot`: `return duckduckbotUA`. -/
def DuckDuckBot : String := duckduckbotUA

/-- Function `FacebookBot`: `return facebookBotUA`. -/
def FacebookBot : String := facebookBotUA

/-- Function `TwitterBot`: `return twitterBotUA`. -/
def TwitterBot : String := twitterBotUA

/-- Function `LinkedInBot`: `return linkedinBotUA`. -/
def LinkedInBot : String := linkedinBotUA

/-- Function `SlackBot`: `return slackBotUA`. -/
def SlackBot : String := slackBotUA

/-- Function `TelegramBot`: `return telegramBotUA`. -/
def TelegramBot : String := telegramBotUA

/-- Function `DiscordBot`: `return discordBotUA`. -/
def DiscordBot : String := discordBotUA

/-- Function `WhatsAppBot`: `return whatsappBotUA`. -/
def WhatsAppBot : String := whatsappBotUA

/-- Function `PinterestBot`: `return pinterestBotUA`. -/
def PinterestBot : String := pinterestBotUA

/-- Function `AhrefsBot`: `return ahrefsBotUA`. -/
def AhrefsBot : String := ahrefsBotUA

/-- Function `SemrushBot`: `return semrushBotUA`. -/
def SemrushBot : String := semrushBotUA

/-- Function `MozBot`: `return mozBotUA`. -/
def MozBot : String := mozBotUA

/-- Function `MajesticBot`: `return majesticBotUA`. -/
def MajesticBot : String := majesticBotUA

/-- Function `ScreamingFrogBot`: `return screaminFrogBotUA`. -/
def ScreamingFrogBot : String := screaminFrogBotUA

/-- Function `SitebulbBot`: `return sitebulbBotUA`. -/
def SitebulbBot : String := sitebulbBotUA

/-- Function `strings.Contains(s, substr)` of the Go standard library: `substr`
occurs in `s` as a contiguous block. -/
def Contains (s substr : String) : Prop := substr.data <:+: s.data

instance (s substr : String) : Decidable (Contains s substr) := by
  unfold Contains; infer_instance

/-- The generator states in which the calls `g.m1(); g.m2(); ...` are made,
one per call, in order. -/
def Generator.runStates (P : Pools) (g : Generator) : List Method → Option (List Generator)
  | [] => some []
  | m :: ms => do
    let (_, g1) ← g.call P m
    let gs ← Generator.runStates P g1 ms
    pure (g :: gs)

/-- The object after `n` calls of `next`. -/
def xorshift64.nextN : Nat → xorshift64 → xorshift64
  | 0, x => x
  | n + 1, x => xorshift64.nextN n x.next.2

/-- The PRNG after one call of `RandomDesktop` with non-empty pools: the
selecting draw, then three draws for Chrome and Firefox, two for Safari, four
for Edge. -/
def desktopSkip (x : xorshift64) : xorshift64 :=
  if x.next.1 % 4 = 0 then x.next.2.nextN 3
  else if x.next.1 % 4 = 1 then x.next.2.nextN 3
  else if x.next.1 % 4 = 2 then x.next.2.nextN 2
  else x.next.2.nextN 4

/-- The PRNG states in which `n` successive calls of `RandomDesktop` are made. -/
def desktopStates : Nat → xorshift64 → List xorshift64
  | 0, _ => []
  | n + 1, x => x :: desktopStates n (desktopSkip x)

/-- One assignment `s ^= s << k` on a `uint64`. -/
def xorShiftLeft (k s : Nat) : Nat := s ^^^ ((s <<< k) % 2 ^ 64)

/-- One assignment `s ^= s >> k` on a `uint64`. -/
def xorShiftRight (k s : Nat) : Nat := s ^^^ (s >>> k)

/-- The state transition of `next`: the three assignments in order. -/
def xorshift64.step (s : Nat) : Nat :=
  xorShiftLeft 17 (xorShiftRight 7 (xorShiftLeft 13 s))

/-- The transition that undoes `xorshift64.step`: each assignment is undone by
repeating it with doubled shift amounts until the shift leaves the word. -/
def xorshift64.unstep (s : Nat) : Nat :=
  xorShiftLeft 52 (xorShiftLeft 26 (xorShiftLeft 13
    (xorShiftRight 56 (xorShiftRight 28 (xorShiftRight 14 (xorShiftRight 7
      (xorShiftLeft 34 (xorShiftLeft 17 s))))))))

/-- The PRNG objects a program can come to hold: one made by `newXorshift64`
from a `uint64` seed (this is what `WithSeed`, `New` and `Seed` do), and any
object obtained from such a one by `next`, `intn`, `pick`, a `Generator` method
call that returns, or `Clone`. -/
inductive Reachable (P : Pools) : xorshift64 → Prop where
  | seed (seed : Nat) (h : seed < 2 ^ 64) : Reachable P (newXorshift64 seed)
  | next (x : xorshift64) (hx : Reachable P x) : Reachable P x.next.2
  | intn (x : xorshift64) (n : Int) (hx : Reachable P x) : Reachable P (x.intn n).2
  | pick {α : Type} (x x1 : xorshift64) (s : List α) (v : α) (hx : Reachable P x)
      (h : pick x s = some (v, x1)) : Reachable P x1
  | call (g g1 : Generator) (m : Method) (s : String) (hx : Reachable P g.rng)
      (h : g.call P m = some (s, g1)) : Reachable P g1.rng
  | clone (g : Generator) (hx : Reachable P g.rng) : Reachable P g.Clone.rng

/-! ## Polynomials in the state transition

Auxiliary definitions for the period of `next`.  A natural number `a` stands
for the polynomial over GF(2) whose coefficient of `X ^ i` is bit `i` of `a`,
and for the map `a(T)` on 64-bit words, `T` being `xorshift64.step`. -/

/-- Evaluation point: `k` applied to the value of `n`. -/
def force {α : Type} (n : Nat) (k : Nat → α) : α :=
  match n with
  | 0 => k 0
  | m + 1 => k (m + 1)

/-- The word `a(T) v`, for a polynomial `a` with at most `n` coefficients
(Horner's rule from the constant coefficient). -/
def polyEval : Nat → Nat → Nat → Nat
  | 0, _, _ => 0
  | n + 1, a, v => (if a.testBit 0 then v else 0) ^^^ xorshift64.step (polyEval n (a / 2) v)

/-- The polynomial `X^64 + X^60 + ... + 1` that annihilates `xorshift64.step`. -/
def charPoly : Nat := 0x1013ed4a358913201

/-- Multiplication by `X` modulo `charPoly`. -/
def polyTimesX (r : Nat) : Nat :=
  if (2 * r).testBit 64 then (2 * r) ^^^ charPoly else 2 * r

/-- The product `a * b` modulo `charPoly`, for `b` with at most `n` coefficients. -/
def polyMul : Nat → Nat → Nat → Nat
  | 0, _, _ => 0
  | n + 1, a, b =>
    force (polyMul n a (b / 2)) (fun r => (if b.testBit 0 then a else 0) ^^^ polyTimesX r)

/-- Square-and-multiply: `acc * base ^ e` modulo `charPoly`, for `e < 2 ^ n`. -/
def polyPow : Nat → Nat → Nat → Nat → Nat
  | 0, _, _, acc => acc
  | n + 1, e, base, acc =>
    force (if e.testBit 0 then polyMul 64 acc base else acc) (fun acc1 =>
      force (polyMul 64 base base) (fun base1 => polyPow n (e / 2) base1 acc1))

/-- The prime factors of `2 ^ 64 - 1`, each with the inverse modulo `charPoly`
of `X ^ ((2 ^ 64 - 1) / p) + 1`. -/
def periodCertificates : List (Nat × Nat) :=
  [(3, 15511182550047884770), (5, 11814715471047095913), (17, 7202445018898142789),
   (257, 9031751854939573325), (641, 138158124418806406), (65537, 17109817795786126257),
   (6700417, 5204763322158105013)]

/-- The polynomial `a` is a 64-bit word and `a(T)` is `k` applications of
`xorshift64.step` on every 64-bit word. -/
def Represents (a k : Nat) : Prop :=
  a < 2 ^ 64 ∧ ∀ v, v < 2 ^ 64 → polyEval 65 a v = xorshift64.step^[k] v

/-! ## The stream of values and the specification of the mixing function -/

/-- The values returned by `n` successive calls of `next`, first call first,
as the loop of `TestXorshift64` collects them. -/
def xorshift64.nextValues : Nat → xorshift64 → List Nat
  | 0, _ => []
  | n + 1, x => x.next.1 :: xorshift64.nextValues n x.next.2

/-- The mixing function in the words of the specification, on 64-bit words:
shift-left 13, shift-right 7, shift-left 17, applied in sequence, each followed
by a xor with the word that was shifted.  The shifts of `BitVec 64` are the
logical shifts truncated to 64 bits. -/
def specNext (s : BitVec 64) : BitVec 64 :=
  let s1 := s ^^^ (s <<< 13)
  let s2 := s1 ^^^ (s1 >>> 7)
  let s3 := s2 ^^^ (s2 <<< 17)
  s3

/-- The eighteen per-format methods (all string-returning methods but the four
`Random` ones). -/
def perFormatMethods : List Method :=
  [.Chrome, .ChromeWindows, .ChromeMac, .ChromeLinux, .Firefox, .FirefoxWindows, .FirefoxMac,
   .Safari, .Edge, .EdgeWindows, .SafariIOS, .SafariIPad, .ChromeIOS, .ChromeAndroid,
   .AndroidWebView, .FirefoxAndroid, .SamsungBrowser, .EdgeAndroid]

/-- The number of draws that the specification gives for each per-format
method.  The four `Random` methods are not per-format methods; they get 0
here and no statement is made about them. -/
def specDraws : Method → Nat
  | .Safari | .SafariIOS | .SafariIPad | .ChromeIOS | .FirefoxAndroid | .ChromeWindows
  | .ChromeMac | .ChromeLinux | .FirefoxWindows | .FirefoxMac => 2
  | .Chrome | .Firefox | .EdgeWindows | .ChromeAndroid | .AndroidWebView | .SamsungBrowser => 3
  | .Edge | .EdgeAndroid => 4
  | .Random | .RandomDesktop | .RandomMobile | .RandomBot => 0

/-- Go's builtin `len` on a string: the number of bytes of its UTF-8 encoding. -/
def len (s : String) : Nat := s.utf8ByteSize

/-- The eight mobile methods, as listed in `TestMobileGenerators`. -/
def mobileMethods : List Method :=
  [.SafariIOS, .SafariIPad, .ChromeIOS, .ChromeAndroid, .AndroidWebView, .FirefoxAndroid,
   .SamsungBrowser, .EdgeAndroid]

/-- The six desktop methods that fix the platform. -/
def platformDesktopMethods : List Method :=
  [.ChromeWindows, .ChromeMac, .ChromeLinux, .FirefoxWindows, .FirefoxMac, .EdgeWindows]

/-- Pools whose entries are all the empty string: what a method returns on
them is its literal template text alone. -/
def blankPools : Pools where
  chromeVersions := [""]
  firefoxVersions := [""]
  safariVersions := [""]
  edgeVersions := [""]
  windowsVersions := [""]
  macVersions := [""]
  linuxDesktops := [""]
  iosVersions := [""]
  androidVersions := [""]
  androidDevices := [{ model := "", build := "" }]

/-! ## scripts/generate_data.go: merging lists -/

/-- Function `mergeUnique`.  The map `seen` only ever holds the value `true`,
so it is the list of its keys; `seen[v]` is membership. -/
def GenerateData.mergeUnique (a b : List String) : List String :=
  let seen : List String := a.foldl (fun seen v => v :: seen) []
  let result : List String := [] ++ a
  (b.foldl (fun (st : List String × List String) v =>
      if ¬ v ∈ st.1 then (v :: st.1, st.2 ++ [v]) else st) (seen, result)).2

/-- Package variable `fallbackLinuxDesktops`. -/
def GenerateData.fallbackLinuxDesktops : List String :=
  [ "X11; Linux x86_64", "X11; Linux i686", "X11; Linux aarch64", "X11; Ubuntu; Linux x86_64",
    "X11; Fedora; Linux x86_64", "X11; Debian; Linux x86_64", "X11; Arch Linux; Linux x86_64",
    "X11; CentOS; Linux x86_64" ]

/-- Package variable `fallbackMacVersions`. -/
def GenerateData.fallbackMacVersions : List String :=
  ["10_15_7", "11_0", "11_6", "12_0", "12_6", "13_0", "13_6", "14_0", "14_4", "15_0"]

/-- The elements of a list in order of first occurrence, each once. -/
def firstOccurrences : List String → List String
  | [] => []
  | v :: l => v :: (firstOccurrences l).filter (fun u => u ≠ v)

/-- The result of `mergeUnique` in the words of the specification: `a`
unchanged, followed by the elements of `b` that do not occur in `a`, in order
of first occurrence in `b` and each at most once. -/
def specMergeUnique (a b : List String) : List String :=
  a ++ firstOccurrences (b.filter (fun v => v ∉ a))

/-! ## Counting the results of a bounded draw -/

/-- The number of non-zero 64-bit values `v` with `v mod n = r`. -/
def residueCount (n r : Nat) : Nat :=
  ((Finset.range (2 ^ 64)).filter (fun v => v ≠ 0 ∧ v % n = r)).card

/-- The number of non-zero 64-bit states in which `intn(n)` returns `r`. -/
def intnCount (n r : Int) : Nat :=
  ((Finset.range (2 ^ 64)).filter
    (fun s => s ≠ 0 ∧ (xorshift64.intn { state := s } n).1 = r)).card

/-! ## scripts/generate_data.go: library functions

The script calls `strings`, `sort` and `regexp`.  The string and sorting
functions are written out below.  The compiled regexps and the `float64`
operations are fields of `GenerateData.Lib`: a statement proved for every
`Lib` holds for the real library. -/

/-- Function `unicode.IsSpace`, which `strings.TrimSpace` trims by. -/
def unicode.IsSpace (c : Char) : Bool :=
  let n := c.toNat
  (9 ≤ n ∧ n ≤ 13) ∨ n = 0x20 ∨ n = 0x85 ∨ n = 0xA0 ∨ n = 0x1680 ∨
    (0x2000 ≤ n ∧ n ≤ 0x200A) ∨ n = 0x2028 ∨ n = 0x2029 ∨ n = 0x202F ∨ n = 0x205F ∨ n = 0x3000

/-- Function `strings.TrimSpace`. -/
def strings.TrimSpace (s : String) : String :=
  ⟨((s.data.dropWhile unicode.IsSpace).reverse.dropWhile unicode.IsSpace).reverse⟩

/-- Search of `strings.Index`: `off` is the byte offset of the position reached. -/
def strings.IndexFrom (substr : List Char) : List Char → Nat → Int
  | [], off => if substr = [] then Int.ofNat off else -1
  | c :: cs, off =>
    if substr.isPrefixOf (c :: cs) then Int.ofNat off
    else strings.IndexFrom substr cs (off + c.utf8Size)

/-- Function `strings.Index`: the byte offset of the first occurrence of
`substr` in `s`, or `-1`. -/
def strings.Index (s substr : String) : Int := strings.IndexFrom substr.data s.data 0

/-- The characters of a slice expression `s[:hi]`, from byte offset `off` on. -/
def sliceToFrom (hi : Nat) : List Char → Nat → List Char
  | [], _ => []
  | c :: cs, off => if off < hi then c :: sliceToFrom hi cs (off + c.utf8Size) else []

/-- Slice expression `s[:hi]`, for a byte offset `hi` at which a character
starts (as the offsets returned by `strings.Index` are). -/
def sliceTo (s : String) (hi : Nat) : String := ⟨sliceToFrom hi s.data 0⟩

/-- The parts of a string before and after the first occurrence of a non-empty
separator. -/
def splitAtFirst (sep : List Char) : List Char → Option (List Char × List Char)
  | [] => none
  | c :: cs =>
    if sep.isPrefixOf (c :: cs) then some ([], (c :: cs).drop sep.length)
    else (splitAtFirst sep cs).map (fun p => (c :: p.1, p.2))

/-- Function `strings.SplitN` for a non-empty separator and a count `n >= 0`:
at most `n` parts, the last one being the unsplit remainder. -/
def strings.SplitN (s sep : String) : Nat → List String
  | 0 => []
  | 1 => [s]
  | n + 2 =>
    match splitAtFirst sep.data s.data with
    | none => [s]
    | some (a, rest) => ⟨a⟩ :: strings.SplitN ⟨rest⟩ sep (n + 1)

/-- Comparison `<` of two Go strings, on their characters: lexicographic by
bytes, which for UTF-8 text is lexicographic by code points. -/
def lessChars : List Char → List Char → Bool
  | _, [] => false
  | [], _ :: _ => true
  | a :: as, b :: bs =>
    if a.toNat < b.toNat then true
    else if b.toNat < a.toNat then false
    else lessChars as bs

/-- Comparison `s < t` of two Go strings. -/
def stringLess (s t : String) : Bool := lessChars s.data t.data

/-- Insertion of an element before the first element that is not `less` than it. -/
def sort.insert {α : Type} (less : α → α → Bool) (x : α) : List α → List α
  | [] => [x]
  | y :: ys => if less x y then x :: y :: ys else y :: sort.insert less x ys

/-- Function `sort.Slice`: the slice reordered so that no element is `less`
than an earlier one.  Go leaves the order of elements that `less` does not
separate unspecified; this is one such order (insertion sort). -/
def sort.Slice {α : Type} (less : α → α → Bool) : List α → List α
  | [] => []
  | x :: xs => sort.insert less x (sort.Slice less xs)

/-- What `extractVersions` takes from the `regexp` package and from `float64`:
for each compiled regexp the function `FindStringSubmatch`, reduced to the
capture groups that the code reads (`none` for `nil`), and the operations
`0`, `+` and `>` on weights of type `W`. -/
structure GenerateData.Lib (W : Type) where
  zero : W
  add : W → W → W
  gt : W → W → Bool
  chromeVersionRe : String → Option String
  firefoxVersionRe : String → Option String
  safariVersionRe : String → Option String
  edgeVersionRe : String → Option String
  iosVersionRe : String → Option String
  macVersionRe : String → Option String
  androidVersionRe : String → Option String
  windowsVersionRe : String → Option String
  androidDeviceRe : String → Option (String × String)
  linuxDesktopRe : String → Option String

/-! ## scripts/generate_data.go: extraction -/

set_option linter.dupNamespace false in
/-- Type `UserAgent`: one entry of the dataset. -/
structure GenerateData.UserAgent (W : Type) where
  UserAgent : String
  Weight : W

/-- Type `VersionWeight`. -/
structure GenerateData.VersionWeight (W : Type) where
  Version : String
  Weight : W

/-- Type `AndroidDevice` of the script. -/
structure GenerateData.AndroidDevice where
  Model : String
  Build : String
deriving DecidableEq

/-- Type `ExtractedData`. -/
structure GenerateData.ExtractedData where
  ChromeVersions : List String
  FirefoxVersions : List String
  SafariVersions : List String
  EdgeVersions : List String
  IOSVersions : List String
  MacVersions : List String
  AndroidVersions : List String
  AndroidDevices : List GenerateData.AndroidDevice
  WindowsVersions : List String
  LinuxDesktops : List String
deriving DecidableEq

/-- Constant `topN`. -/
def GenerateData.topN : Nat := 20

/-- The statement `weights[k] += w` on a `map[string]float64`, kept as the list
of its entries in order of insertion (a missing key reads as `0`). -/
def GenerateData.mapAdd {W : Type} (L : GenerateData.Lib W) (weights : List (String × W))
    (k : String) (w : W) : List (String × W) :=
  if weights.any (fun p => p.1 = k) then
    weights.map (fun p => if p.1 = k then (p.1, L.add p.2 w) else p)
  else weights ++ [(k, L.add L.zero w)]

/-- The ten weight maps that the loop of `extractVersions` fills. -/
structure GenerateData.Weights (W : Type) where
  chromeWeights : List (String × W)
  firefoxWeights : List (String × W)
  safariWeights : List (String × W)
  edgeWeights : List (String × W)
  iosWeights : List (String × W)
  macWeights : List (String × W)
  androidWeights : List (String × W)
  windowsWeights : List (String × W)
  linuxWeights : List (String × W)
  deviceWeights : List (String × W)

/-- Loop body of `extractVersions`, block `Chrome`. -/
def GenerateData.stepChrome {W : Type} (L : GenerateData.Lib W) (ws : GenerateData.Weights W)
    (s : String) (w : W) : GenerateData.Weights W :=
  if Contains s "Chrome/" ∧ ¬ Contains s "Edg/" ∧ ¬ Contains s "OPR/" ∧
      ¬ Contains s "SamsungBrowser" then
    match L.chromeVersionRe s with
    | some m1 => { ws with chromeWeights := mapAdd L ws.chromeWeights m1 w }
    | none => ws
  else ws

/-- Loop body of `extractVersions`, block `Firefox`. -/
def GenerateData.stepFirefox {W : Type} (L : GenerateData.Lib W) (ws : GenerateData.Weights W)
    (s : String) (w : W) : GenerateData.Weights W :=
  match L.firefoxVersionRe s with
  | some m1 => { ws with firefoxWeights := mapAdd L ws.firefoxWeights m1 w }
  | none => ws

/-- Loop body of `extractVersions`, block `Safari`. -/
def GenerateData.stepSafari {W : Type} (L : GenerateData.Lib W) (ws : GenerateData.Weights W)
    (s : String) (w : W) : GenerateData.Weights W :=
  if Contains s "Safari/" ∧ ¬ Contains s "Chrome/" then
    match L.safariVersionRe s with
    | some m1 => { ws with safariWeights := mapAdd L ws.safariWeights m1 w }
    | none => ws
  else ws

/-- Loop body of `extractVersions`, block `Edge`. -/
def GenerateData.stepEdge {W : Type} (L : GenerateData.Lib W) (ws : GenerateData.Weights W)
    (s : String) (w : W) : GenerateData.Weights W :=
  match L.edgeVersionRe s with
  | some m1 => { ws with edgeWeights := mapAdd L ws.edgeWeights m1 w }
  | none => ws

/-- Loop body of `extractVersions`, block `iOS`. -/
def GenerateData.stepIOS {W : Type} (L : GenerateData.Lib W) (ws : GenerateData.Weights W)
    (s : String) (w : W) : GenerateData.Weights W :=
  match L.iosVersionRe s with
  | some m1 => { ws with iosWeights := mapAdd L ws.iosWeights m1 w }
  | none => ws

/-- Loop body of `extractVersions`, block `macOS`. -/
def GenerateData.stepMac {W : Type} (L : GenerateData.Lib W) (ws : GenerateData.Weights W)
    (s : String) (w : W) : GenerateData.Weights W :=
  match L.macVersionRe s with
  | some m1 => { ws with macWeights := mapAdd L ws.macWeights m1 w }
  | none => ws

/-- Loop body of `extractVersions`, block `Android version`. -/
def GenerateData.stepAndroid {W : Type} (L : GenerateData.Lib W) (ws : GenerateData.Weights W)
    (s : String) (w : W) : GenerateData.Weights W :=
  match L.androidVersionRe s with
  | some m1 => { ws with androidWeights := mapAdd L ws.androidWeights m1 w }
  | none => ws

/-- Loop body of `extractVersions`, block `Windows`. -/
def GenerateData.stepWindows {W : Type} (L : GenerateData.Lib W) (ws : GenerateData.Weights W)
    (s : String) (w : W) : GenerateData.Weights W :=
  match L.windowsVersionRe s with
  | some m1 => { ws with windowsWeights := mapAdd L ws.windowsWeights m1 w }
  | none => ws

/-- Loop body of `extractVersions`, block `Android device`. -/
def GenerateData.stepDevice {W : Type} (L : GenerateData.Lib W) (ws : GenerateData.Weights W)
    (s : String) (w : W) : GenerateData.Weights W :=
  match L.androidDeviceRe s with
  | some (m1, m2) =>
    let model := strings.TrimSpace m1
    let build := m2
    if model ≠ "K" ∧ len model > 2 then
      let key := model ++ "|" ++ build
      { ws with deviceWeights := mapAdd L ws.deviceWeights key w }
    else ws
  | none => ws

/-- Loop body of `extractVersions`, block `Linux desktop`. -/
def GenerateData.stepLinux {W : Type} (L : GenerateData.Lib W) (ws : GenerateData.Weights W)
    (s : String) (w : W) : GenerateData.Weights W :=
  if Contains s "X11;" ∧ Contains s "Linux" ∧ ¬ Contains s "Android" then
    match L.linuxDesktopRe s with
    | some m1 =>
      let platform := m1
      let idx := strings.Index platform "; rv:"
      let platform := if idx ≠ -1 then sliceTo platform idx.toNat else platform
      { ws with linuxWeights := mapAdd L ws.linuxWeights platform w }
    | none => ws
  else ws

/-- Loop body of `extractVersions`: the ten blocks in order. -/
def GenerateData.extractStep {W : Type} (L : GenerateData.Lib W) (ws : GenerateData.Weights W)
    (ua : GenerateData.UserAgent W) : GenerateData.Weights W :=
  let s := ua.UserAgent
  let w := ua.Weight
  let ws := stepChrome L ws s w
  let ws := stepFirefox L ws s w
  let ws := stepSafari L ws s w
  let ws := stepEdge L ws s w
  let ws := stepIOS L ws s w
  let ws := stepMac L ws s w
  let ws := stepAndroid L ws s w
  let ws := stepWindows L ws s w
  let ws := stepDevice L ws s w
  let ws := stepLinux L ws s w
  ws

/-- Function `topVersions`.  The map is ranged over in its order of insertion
(Go leaves the order unspecified); `n` is a positive constant at every call. -/
def GenerateData.topVersions {W : Type} (L : GenerateData.Lib W) (weights : List (String × W))
    (n : Nat) : List String :=
  let vw : List (VersionWeight W) := weights.map (fun p => { Version := p.1, Weight := p.2 })
  let vw := sort.Slice (fun a b => L.gt a.Weight b.Weight) vw
  let vw := if vw.length > n then vw.take n else vw
  let vw := sort.Slice (fun a b => stringLess a.Version b.Version) vw
  vw.map (fun v => v.Version)

/-- Function `topDevices`. -/
def GenerateData.topDevices {W : Type} (L : GenerateData.Lib W) (weights : List (String × W))
    (n : Nat) : List GenerateData.AndroidDevice :=
  let vw : List (VersionWeight W) := weights.map (fun p => { Version := p.1, Weight := p.2 })
  let vw := sort.Slice (fun a b => L.gt a.Weight b.Weight) vw
  let vw := if vw.length > n then vw.take n else vw
  let vw := sort.Slice (fun a b => stringLess a.Version b.Version) vw
  vw.map (fun v =>
    match strings.SplitN v.Version "|" 2 with
    | [p0, p1] => { Model := p0, Build := p1 }
    | _ => { Model := "", Build := "" })

/-- Function `mergeDevices`: as `mergeUnique`, with `seen` keyed by the model. -/
def GenerateData.mergeDevices (a b : List GenerateData.AndroidDevice) :
    List GenerateData.AndroidDevice :=
  let seen : List String := a.foldl (fun seen d => d.Model :: seen) []
  let result : List GenerateData.AndroidDevice := [] ++ a
  (b.foldl (fun (st : List String × List GenerateData.AndroidDevice) d =>
      if ¬ d.Model ∈ st.1 then (d.Model :: st.1, st.2 ++ [d]) else st) (seen, result)).2

/-- Package variable `fallbackAndroidDevices`. -/
def GenerateData.fallbackAndroidDevices : List GenerateData.AndroidDevice :=
  [ ⟨"Pixel 6", "TQ3A.230901.001"⟩, ⟨"Pixel 7", "TQ3A.230901.001"⟩,
    ⟨"Pixel 7 Pro", "TQ3A.230901.001"⟩, ⟨"Pixel 8", "UQ1A.231205.015"⟩,
    ⟨"Pixel 8 Pro", "UQ1A.231205.015"⟩, ⟨"SM-S901B", "TP1A.220624.014"⟩,
    ⟨"SM-S908B", "TP1A.220624.014"⟩, ⟨"SM-S911B", "TP1A.220624.014"⟩,
    ⟨"SM-S918B", "TP1A.220624.014"⟩, ⟨"SM-S921B", "UP1A.231005.007"⟩,
    ⟨"SM-S928B", "UP1A.231005.007"⟩, ⟨"SM-A536B", "TP1A.220624.014"⟩,
    ⟨"SM-A546B", "UP1A.231005.007"⟩, ⟨"SM-G998B", "TP1A.220624.014"⟩,
    ⟨"ONEPLUS A6013", "QKQ1.190716.003"⟩, ⟨"IN2025", "RKQ1.211119.001"⟩,
    ⟨"CPH2451", "TP1A.220905.001"⟩, ⟨"M2101K6G", "TKQ1.221114.001"⟩,
    ⟨"2201116SG", "TKQ1.221114.001"⟩, ⟨"23049PCD8G", "UKQ1.231003.002"⟩,
    ⟨"RMX3363", "TP1A.220905.001"⟩, ⟨"V2111", "TP1A.220624.014"⟩,
    ⟨"LE2125", "RKQ1.211119.001"⟩ ]

/-- Function `extractVersions`. -/
def GenerateData.extractVersions {W : Type} (L : GenerateData.Lib W)
    (agents : List (GenerateData.UserAgent W)) : GenerateData.ExtractedData :=
  let ws : Weights W := agents.foldl (extractStep L)
    { chromeWeights := [], firefoxWeights := [], safariWeights := [], edgeWeights := [],
      iosWeights := [], macWeights := [], androidWeights := [], windowsWeights := [],
      linuxWeights := [], deviceWeights := [] }
  let data : ExtractedData :=
    { ChromeVersions := topVersions L ws.chromeWeights topN
      FirefoxVersions := topVersions L ws.firefoxWeights topN
      SafariVersions := topVersions L ws.safariWeights topN
      EdgeVersions := topVersions L ws.edgeWeights topN
      IOSVersions := topVersions L ws.iosWeights topN
      MacVersions := topVersions L ws.macWeights 30
      AndroidVersions := topVersions L ws.androidWeights 10
      WindowsVersions := topVersions L ws.windowsWeights 10
      LinuxDesktops := topVersions L ws.linuxWeights 20
      AndroidDevices := topDevices L ws.deviceWeights 50 }
  let data := { data with LinuxDesktops := mergeUnique data.LinuxDesktops fallbackLinuxDesktops }
  let data := { data with MacVersions := mergeUnique data.MacVersions fallbackMacVersions }
  let data :=
    { data with AndroidDevices := mergeDevices data.AndroidDevices fallbackAndroidDevices }
  data

/-- A library instance for evaluating the definitions: weights are natural
numbers, and each regexp captures the text after its literal prefix when the
whole string starts with that prefix. -/
def GenerateData.toyLib : GenerateData.Lib Nat where
  zero := 0
  add := fun a b => a + b
  gt := fun a b => decide (a > b)
  chromeVersionRe := fun s =>
    if "Chrome/".data.isPrefixOf s.data then some ⟨s.data.drop 7⟩ else none
  firefoxVersionRe := fun s =>
    if "Firefox/".data.isPrefixOf s.data then some ⟨s.data.drop 8⟩ else none
  safariVersionRe := fun _ => none
  edgeVersionRe := fun _ => none
  iosVersionRe := fun _ => none
  macVersionRe := fun _ => none
  androidVersionRe := fun _ => none
  windowsVersionRe := fun _ => none
  androidDeviceRe := fun _ => none
  linuxDesktopRe := fun _ => none

/-! ## The random source -/

theorem mod_two_cases (n : Nat) : n % 2 = 0 ∨ n % 2 = 1 := by omega

theorem mod_three_cases (n : Nat) : n % 3 = 0 ∨ n % 3 = 1 ∨ n % 3 = 2 := by omega

theorem mod_four_cases (n : Nat) : n % 4 = 0 ∨ n % 4 = 1 ∨ n % 4 = 2 ∨ n % 4 = 3 := by omega

theorem intn_pos (x : xorshift64) (n : Nat) (h : 0 < n) :
    x.intn (Int.ofNat n) = (Int.ofNat (x.next.1 % n), x.next.2) := by
  have hn : ¬ (Int.ofNat n ≤ 0) := by
    simp only [Int.ofNat_eq_coe]; omega
  unfold xorshift64.intn
  rw [if_neg hn]
  simp

theorem intn_two (x : xorshift64) :
    x.intn 2 = (Int.ofNat (x.next.1 % 2), x.next.2) := intn_pos x 2 (by decide)

theorem intn_three (x : xorshift64) :
    x.intn 3 = (Int.ofNat (x.next.1 % 3), x.next.2) := intn_pos x 3 (by decide)

theorem intn_four (x : xorshift64) :
    x.intn 4 = (Int.ofNat (x.next.1 % 4), x.next.2) := intn_pos x 4 (by decide)

theorem getElem?_pickAt {α : Type} (s : List α) (r : Nat) (h : 0 < s.length) :
    s[r % s.length]? = some (pickAt s r h) :=
  List.getElem?_eq_getElem (Nat.mod_lt _ h)

theorem pick_eq {α : Type} (x : xorshift64) (s : List α) (h : 0 < s.length) :
    pick x s = some (pickAt s x.next.1 h, x.next.2) := by
  unfold pick
  rw [intn_pos x s.length h]
  simp only [Int.ofNat_eq_coe, Int.toNat_ofNat]
  rw [getElem?_pickAt s x.next.1 h]

/-! ## Every method returns when the pools are non-empty -/

theorem ChromeWindows_some (P : Pools) (g : Generator) (hP : P.NonEmpty) :
    ∃ s, g.ChromeWindows P = some (s, { rng := g.rng.next.2.next.2 }) := by
  obtain ⟨hc, hf, hs, he, hw, hm, hl, hi, ha, hd⟩ := hP
  unfold Generator.ChromeWindows
  simp only [pick_eq _ _ hc, pick_eq _ _ hw, Option.bind_eq_bind,
    Option.some_bind, Option.pure_def]
  exact ⟨_, rfl⟩

theorem ChromeMac_some (P : Pools) (g : Generator) (hP : P.NonEmpty) :
    ∃ s, g.ChromeMac P = some (s, { rng := g.rng.next.2.next.2 }) := by
  obtain ⟨hc, hf, hs, he, hw, hm, hl, hi, ha, hd⟩ := hP
  unfold Generator.ChromeMac
  simp only [pick_eq _ _ hc, pick_eq _ _ hm, Option.bind_eq_bind,
    Option.some_bind, Option.pure_def]
  exact ⟨_, rfl⟩

theorem ChromeLinux_some (P : Pools) (g : Generator) (hP : P.NonEmpty) :
    ∃ s, g.ChromeLinux P = some (s, { rng := g.rng.next.2.next.2 }) := by
  obtain ⟨hc, hf, hs, he, hw, hm, hl, hi, ha, hd⟩ := hP
  unfold Generator.ChromeLinux
  simp only [pick_eq _ _ hc, pick_eq _ _ hl, Option.bind_eq_bind,
    Option.some_bind, Option.pure_def]
  exact ⟨_, rfl⟩

theorem FirefoxWindows_some (P : Pools) (g : Generator) (hP : P.NonEmpty) :
    ∃ s, g.FirefoxWindows P = some (s, { rng := g.rng.next.2.next.2 }) := by
  obtain ⟨hc, hf, hs, he, hw, hm, hl, hi, ha, hd⟩ := hP
  unfold Generator.FirefoxWindows
  simp only [pick_eq _ _ hf, pick_eq _ _ hw, Option.bind_eq_bind,
    Option.some_bind, Option.pure_def]
  exact ⟨_, rfl⟩

theorem FirefoxMac_some (P : Pools) (g : Generator) (hP : P.NonEmpty) :
    ∃ s, g.FirefoxMac P = some (s, { rng := g.rng.next.2.next.2 }) := by
  obtain ⟨hc, hf, hs, he, hw, hm, hl, hi, ha, hd⟩ := hP
  unfold Generator.FirefoxMac
  simp only [pick_eq _ _ hf, pick_eq _ _ hm, Option.bind_eq_bind,
    Option.some_bind, Option.pure_def]
  exact ⟨_, rfl⟩

theorem Safari_some (P : Pools) (g : Generator) (hP : P.NonEmpty) :
    ∃ s, g.Safari P = some (s, { rng := g.rng.next.2.next.2 }) := by
  obtain ⟨hc, hf, hs, he, hw, hm, hl, hi, ha, hd⟩ := hP
  unfold Generator.Safari
  simp only [pick_eq _ _ hs, pick_eq _ _ hm, Option.bind_eq_bind,
    Option.some_bind, Option.pure_def]
  exact ⟨_, rfl⟩

theorem EdgeWindows_some (P : Pools) (g : Generator) (hP : P.NonEmpty) :
    ∃ s, g.EdgeWindows P = some (s, { rng := g.rng.next.2.next.2.next.2 }) := by
  obtain ⟨hc, hf, hs, he, hw, hm, hl, hi, ha, hd⟩ := hP
  unfold Generator.EdgeWindows
  simp only [pick_eq _ _ he, pick_eq _ _ hc, pick_eq _ _ hw, Option.bind_eq_bind,
    Option.some_bind, Option.pure_def]
  exact ⟨_, rfl⟩

theorem SafariIOS_some (P : Pools) (g : Generator) (hP : P.NonEmpty) :
    ∃ s, g.SafariIOS P = some (s, { rng := g.rng.next.2.next.2 }) := by
  obtain ⟨hc, hf, hs, he, hw, hm, hl, hi, ha, hd⟩ := hP
  unfold Generator.SafariIOS
  simp only [pick_eq _ _ hi, pick_eq _ _ hs, Option.bind_eq_bind,
    Option.some_bind, Option.pure_def]
  exact ⟨_, rfl⟩

theorem SafariIPad_some (P : Pools) (g : Generator) (hP : P.NonEmpty) :
    ∃ s, g.SafariIPad P = some (s, { rng := g.rng.next.2.next.2 }) := by
  obtain ⟨hc, hf, hs, he, hw, hm, hl, hi, ha, hd⟩ := hP
  unfold Generator.SafariIPad
  simp only [pick_eq _ _ hi, pick_eq _ _ hs, Option.bind_eq_bind,
    Option.some_bind, Option.pure_def]
  exact ⟨_, rfl⟩

theorem ChromeIOS_some (P : Pools) (g : Generator) (hP : P.NonEmpty) :
    ∃ s, g.ChromeIOS P = some (s, { rng := g.rng.next.2.next.2 }) := by
  obtain ⟨hc, hf, hs, he, hw, hm, hl, hi, ha, hd⟩ := hP
  unfold Generator.ChromeIOS
  simp only [pick_eq _ _ hi, pick_eq _ _ hc, Option.bind_eq_bind,
    Option.some_bind, Option.pure_def]
  exact ⟨_, rfl⟩

theorem ChromeAndroid_some (P : Pools) (g : Generator) (hP : P.NonEmpty) :
    ∃ s, g.ChromeAndroid P = some (s, { rng := g.rng.next.2.next.2.next.2 }) := by
  obtain ⟨hc, hf, hs, he, hw, hm, hl, hi, ha, hd⟩ := hP
  unfold Generator.ChromeAndroid
  simp only [pick_eq _ _ ha, pick_eq _ _ hc, pick_eq _ _ hd, Option.bind_eq_bind,
    Option.some_bind, Option.pure_def]
  exact ⟨_, rfl⟩

theorem AndroidWebView_some (P : Pools) (g : Generator) (hP : P.NonEmpty) :
    ∃ s, g.AndroidWebView P = some (s, { rng := g.rng.next.2.next.2.next.2 }) := by
  obtain ⟨hc, hf, hs, he, hw, hm, hl, hi, ha, hd⟩ := hP
  unfold Generator.AndroidWebView
  simp only [pick_eq _ _ ha, pick_eq _ _ hc, pick_eq _ _ hd, Option.bind_eq_bind,
    Option.some_bind, Option.pure_def]
  exact ⟨_, rfl⟩

theorem FirefoxAndroid_some (P : Pools) (g : Generator) (hP : P.NonEmpty) :
    ∃ s, g.FirefoxAndroid P = some (s, { rng := g.rng.next.2.next.2 }) := by
  obtain ⟨hc, hf, hs, he, hw, hm, hl, hi, ha, hd⟩ := hP
  unfold Generator.FirefoxAndroid
  simp only [pick_eq _ _ ha, pick_eq _ _ hf, Option.bind_eq_bind,
    Option.some_bind, Option.pure_def]
  exact ⟨_, rfl⟩

theorem SamsungBrowser_some (P : Pools) (g : Generator) (hP : P.NonEmpty) :
    ∃ s, g.SamsungBrowser P = some (s, { rng := g.rng.next.2.next.2.next.2 }) := by
  obtain ⟨hc, hf, hs, he, hw, hm, hl, hi, ha, hd⟩ := hP
  unfold Generator.SamsungBrowser
  simp only [pick_eq _ _ ha, pick_eq _ _ hc, pick_eq _ _ hd, Option.bind_eq_bind,
    Option.some_bind, Option.pure_def]
  exact ⟨_, rfl⟩

theorem EdgeAndroid_some (P : Pools) (g : Generator) (hP : P.NonEmpty) :
    ∃ s, g.EdgeAndroid P = some (s, { rng := g.rng.next.2.next.2.next.2.next.2 }) := by
  obtain ⟨hc, hf, hs, he, hw, hm, hl, hi, ha, hd⟩ := hP
  unfold Generator.EdgeAndroid
  simp only [pick_eq _ _ ha, pick_eq _ _ hc, pick_eq _ _ he, pick_eq _ _ hd, Option.bind_eq_bind,
    Option.some_bind, Option.pure_def]
  exact ⟨_, rfl⟩

theorem Chrome_some (P : Pools) (g : Generator) (hP : P.NonEmpty) :
    ∃ s, g.Chrome P = some (s, { rng := g.rng.next.2.next.2.next.2 }) := by
  obtain ⟨hc, hf, hs, he, hw, hm, hl, hi, ha, hd⟩ := hP
  unfold Generator.Chrome
  simp only [pick_eq _ _ hc, pick_eq _ _ hm, pick_eq _ _ hw, pick_eq _ _ hl, intn_three,
    Option.bind_eq_bind, Option.some_bind, Option.pure_def]
  rcases mod_three_cases g.rng.next.2.next.1 with h | h | h <;> rw [h] <;> exact ⟨_, rfl⟩

theorem Firefox_some (P : Pools) (g : Generator) (hP : P.NonEmpty) :
    ∃ s, g.Firefox P = some (s, { rng := g.rng.next.2.next.2.next.2 }) := by
  obtain ⟨hc, hf, hs, he, hw, hm, hl, hi, ha, hd⟩ := hP
  unfold Generator.Firefox
  simp only [pick_eq _ _ hf, pick_eq _ _ hm, pick_eq _ _ hw, pick_eq _ _ hl, intn_three,
    Option.bind_eq_bind, Option.some_bind, Option.pure_def]
  rcases mod_three_cases g.rng.next.2.next.1 with h | h | h <;> rw [h] <;> exact ⟨_, rfl⟩

theorem Edge_some (P : Pools) (g : Generator) (hP : P.NonEmpty) :
    ∃ s, g.Edge P = some (s, { rng := g.rng.next.2.next.2.next.2.next.2 }) := by
  obtain ⟨hc, hf, hs, he, hw, hm, hl, hi, ha, hd⟩ := hP
  unfold Generator.Edge
  simp only [pick_eq _ _ he, pick_eq _ _ hc, pick_eq _ _ hm, pick_eq _ _ hw, intn_two,
    Option.bind_eq_bind, Option.some_bind, Option.pure_def]
  rcases mod_two_cases g.rng.next.2.next.2.next.1 with h | h <;> rw [h] <;> exact ⟨_, rfl⟩

theorem botUAs_length : botUAs.length = 11 := rfl

theorem RandomBot_some (g : Generator) :
    ∃ s, g.RandomBot = some (s, { rng := g.rng.next.2 }) := by
  unfold Generator.RandomBot
  rw [botUAs_length, intn_pos g.rng 11 (by decide)]
  simp only [Int.ofNat_eq_coe, Int.toNat_ofNat]
  have hlt : g.rng.next.1 % 11 < botUAs.length := by
    rw [botUAs_length]; exact Nat.mod_lt _ (by decide)
  rw [List.getElem?_eq_getElem hlt]
  exact ⟨_, rfl⟩

theorem RandomDesktop_some (P : Pools) (g : Generator) (hP : P.NonEmpty) :
    ∃ r, g.RandomDesktop P = some r := by
  unfold Generator.RandomDesktop
  rw [intn_four]
  obtain ⟨s1, h1⟩ := Chrome_some P { rng := g.rng.next.2 } hP
  obtain ⟨s2, h2⟩ := Firefox_some P { rng := g.rng.next.2 } hP
  obtain ⟨s3, h3⟩ := Safari_some P { rng := g.rng.next.2 } hP
  obtain ⟨s4, h4⟩ := Edge_some P { rng := g.rng.next.2 } hP
  simp only [h1, h2, h3, h4]
  split_ifs <;> exact ⟨_, rfl⟩

theorem RandomMobile_some (P : Pools) (g : Generator) (hP : P.NonEmpty) :
    ∃ r, g.RandomMobile P = some r := by
  unfold Generator.RandomMobile
  rw [intn_four]
  obtain ⟨s1, h1⟩ := SafariIOS_some P { rng := g.rng.next.2 } hP
  obtain ⟨s2, h2⟩ := ChromeAndroid_some P { rng := g.rng.next.2 } hP
  obtain ⟨s3, h3⟩ := ChromeIOS_some P { rng := g.rng.next.2 } hP
  obtain ⟨s4, h4⟩ := AndroidWebView_some P { rng := g.rng.next.2 } hP
  simp only [h1, h2, h3, h4]
  split_ifs <;> exact ⟨_, rfl⟩

theorem Random_some (P : Pools) (g : Generator) (hP : P.NonEmpty) :
    ∃ r, g.Random P = some r := by
  unfold Generator.Random
  rw [intn_three]
  obtain ⟨r1, h1⟩ := RandomDesktop_some P { rng := g.rng.next.2 } hP
  obtain ⟨r2, h2⟩ := RandomMobile_some P { rng := g.rng.next.2 } hP
  obtain ⟨s3, h3⟩ := RandomBot_some { rng := g.rng.next.2 }
  simp only [h1, h2, h3]
  split_ifs <;> exact ⟨_, rfl⟩

theorem call_some (P : Pools) (hP : P.NonEmpty) (m : Method) (g : Generator) :
    ∃ r, g.call P m = some r := by
  cases m
  case Chrome => obtain ⟨s, h⟩ := Chrome_some P g hP; exact ⟨_, h⟩
  case ChromeWindows => obtain ⟨s, h⟩ := ChromeWindows_some P g hP; exact ⟨_, h⟩
  case ChromeMac => obtain ⟨s, h⟩ := ChromeMac_some P g hP; exact ⟨_, h⟩
  case ChromeLinux => obtain ⟨s, h⟩ := ChromeLinux_some P g hP; exact ⟨_, h⟩
  case Firefox => obtain ⟨s, h⟩ := Firefox_some P g hP; exact ⟨_, h⟩
  case FirefoxWindows => obtain ⟨s, h⟩ := FirefoxWindows_some P g hP; exact ⟨_, h⟩
  case FirefoxMac => obtain ⟨s, h⟩ := FirefoxMac_some P g hP; exact ⟨_, h⟩
  case Safari => obtain ⟨s, h⟩ := Safari_some P g hP; exact ⟨_, h⟩
  case Edge => obtain ⟨s, h⟩ := Edge_some P g hP; exact ⟨_, h⟩
  case EdgeWindows => obtain ⟨s, h⟩ := EdgeWindows_some P g hP; exact ⟨_, h⟩
  case SafariIOS => obtain ⟨s, h⟩ := SafariIOS_some P g hP; exact ⟨_, h⟩
  case SafariIPad => obtain ⟨s, h⟩ := SafariIPad_some P g hP; exact ⟨_, h⟩
  case ChromeIOS => obtain ⟨s, h⟩ := ChromeIOS_some P g hP; exact ⟨_, h⟩
  case ChromeAndroid => obtain ⟨s, h⟩ := ChromeAndroid_some P g hP; exact ⟨_, h⟩
  case AndroidWebView => obtain ⟨s, h⟩ := AndroidWebView_some P g hP; exact ⟨_, h⟩
  case FirefoxAndroid => obtain ⟨s, h⟩ := FirefoxAndroid_some P g hP; exact ⟨_, h⟩
  case SamsungBrowser => obtain ⟨s, h⟩ := SamsungBrowser_some P g hP; exact ⟨_, h⟩
  case EdgeAndroid => obtain ⟨s, h⟩ := EdgeAndroid_some P g hP; exact ⟨_, h⟩
  case Random => exact Random_some P g hP
  case RandomDesktop => exact RandomDesktop_some P g hP
  case RandomMobile => exact RandomMobile_some P g hP
  case RandomBot => obtain ⟨s, h⟩ := RandomBot_some g; exact ⟨_, h⟩

theorem run_some (P : Pools) (hP : P.NonEmpty) (ms : List Method) (g : Generator) :
    ∃ ss g1, g.run P ms = some (ss, g1) ∧ ss.length = ms.length := by
  induction ms generalizing g with
  | nil => exact ⟨[], g, rfl, rfl⟩
  | cons m ms ih =>
    obtain ⟨⟨s, g1⟩, h1⟩ := call_some P hP m g
    obtain ⟨ss, g2, h2, hlen⟩ := ih g1
    refine ⟨s :: ss, g2, ?_, by simp [hlen]⟩
    simp only [Generator.run, h1, h2, Option.bind_eq_bind, Option.some_bind, Option.pure_def]

/-! ## Method calls through pointers -/

theorem Heap.call_eq (P : Pools) (h : Heap) (p a : Nat) (m : Method) (g g1 : Generator)
    (s : String) (hp : h.gens[p]? = some a) (hx : h.rngs[a]? = some g.rng)
    (hc : g.call P m = some (s, g1)) :
    h.call P p m = some (s, { h with rngs := h.rngs.set a g1.rng }) := by
  cases g with
  | mk x =>
    simp only [Heap.call, hp, hx, hc, Option.bind_eq_bind, Option.some_bind, Option.pure_def]

theorem Heap.call_inv (P : Pools) (h h1 : Heap) (p : Nat) (m : Method) (s : String)
    (hc : h.call P p m = some (s, h1)) :
    ∃ a x g1, h.gens[p]? = some a ∧ h.rngs[a]? = some x ∧
      Generator.call P m { rng := x } = some (s, g1) ∧
      h1 = { h with rngs := h.rngs.set a g1.rng } := by
  unfold Heap.call at hc
  cases hp : h.gens[p]? with
  | none => simp [hp] at hc
  | some a =>
    cases hx : h.rngs[a]? with
    | none => simp [hp, hx] at hc
    | some x =>
      cases hg : Generator.call P m { rng := x } with
      | none => simp [hp, hx, hg] at hc
      | some r =>
        obtain ⟨s1, g1⟩ := r
        simp only [hp, hx, hg, Option.bind_eq_bind, Option.some_bind, Option.pure_def,
          Option.some.injEq, Prod.mk.injEq] at hc
        obtain ⟨rfl, rfl⟩ := hc
        exact ⟨a, x, g1, rfl, hx, hg, rfl⟩

theorem Heap.call_gens (P : Pools) (h h1 : Heap) (p : Nat) (m : Method) (s : String)
    (hc : h.call P p m = some (s, h1)) : h1.gens = h.gens := by
  obtain ⟨a, x, g1, -, -, -, rfl⟩ := Heap.call_inv P h h1 p m s hc
  rfl

theorem Heap.runCalls_gens (P : Pools) (cs : List (Nat × Method)) (h h1 : Heap)
    (ss : List String) (hr : h.runCalls P cs = some (ss, h1)) : h1.gens = h.gens := by
  induction cs generalizing h ss with
  | nil =>
    simp only [Heap.runCalls, Option.some.injEq, Prod.mk.injEq] at hr
    rw [hr.2]
  | cons c cs ih =>
    obtain ⟨p, m⟩ := c
    unfold Heap.runCalls at hr
    cases hc : h.call P p m with
    | none => simp [hc] at hr
    | some r =>
      obtain ⟨s, h2⟩ := r
      cases hrest : Heap.runCalls P h2 cs with
      | none => simp [hc, hrest] at hr
      | some r2 =>
        obtain ⟨ss2, h3⟩ := r2
        simp only [hc, hrest, Option.bind_eq_bind, Option.some_bind, Option.pure_def,
          Option.some.injEq, Prod.mk.injEq] at hr
        obtain ⟨-, rfl⟩ := hr
        rw [ih h2 ss2 hrest, Heap.call_gens P h h2 p m s hc]

/-- A call through `p` leaves every generator whose `rng` is another cell as
it was. -/
theorem Heap.call_frame (P : Pools) (h h1 : Heap) (p q a b : Nat) (m : Method) (s : String)
    (hp : h.gens[p]? = some a) (hq : h.gens[q]? = some b) (hab : a ≠ b)
    (hc : h.call P p m = some (s, h1)) : h1.State q = h.State q := by
  obtain ⟨a1, x, g1, hp1, -, -, rfl⟩ := Heap.call_inv P h h1 p m s hc
  rw [hp] at hp1
  cases hp1
  simp only [Heap.State, Heap.deref, hq, Option.bind_eq_bind, Option.some_bind,
    List.getElem?_set_ne hab]

/-- Two generators with separate `xorshift64` cells holding the same state,
driven in lockstep, return what one generator with that state returns. -/
theorem Heap.lockstep_eq_run (P : Pools) (ms : List Method) (h : Heap) (p q a b : Nat)
    (g g1 : Generator) (ss : List String) (hab : a ≠ b)
    (hp : h.gens[p]? = some a) (hq : h.gens[q]? = some b)
    (ha : h.rngs[a]? = some g.rng) (hb : h.rngs[b]? = some g.rng)
    (hr : g.run P ms = some (ss, g1)) :
    ∃ h1, h.lockstep P p q ms = some (ss.zip ss, h1) ∧ h1.gens = h.gens ∧
      h1.rngs[a]? = some g1.rng ∧ h1.rngs[b]? = some g1.rng := by
  induction ms generalizing h g ss with
  | nil =>
    simp only [Generator.run, Option.some.injEq, Prod.mk.injEq] at hr
    obtain ⟨rfl, rfl⟩ := hr
    exact ⟨h, rfl, rfl, ha, hb⟩
  | cons m ms ih =>
    unfold Generator.run at hr
    cases hc : g.call P m with
    | none => simp [hc] at hr
    | some r =>
      obtain ⟨s, g2⟩ := r
      cases hrest : g2.run P ms with
      | none => simp [hc, hrest] at hr
      | some r2 =>
        obtain ⟨ss2, g3⟩ := r2
        simp only [hc, hrest, Option.bind_eq_bind, Option.some_bind, Option.pure_def,
          Option.some.injEq, Prod.mk.injEq] at hr
        obtain ⟨rfl, rfl⟩ := hr
        have halt : a < h.rngs.length := by
          rcases List.getElem?_eq_some.1 ha with ⟨hlt, -⟩
          exact hlt
        have hblt : b < h.rngs.length := by
          rcases List.getElem?_eq_some.1 hb with ⟨hlt, -⟩
          exact hlt
        have e1 := Heap.call_eq P h p a m g g2 s hp ha hc
        have hb1 : (h.rngs.set a g2.rng)[b]? = some g.rng := by
          rw [List.getElem?_set_ne hab]; exact hb
        have e2 := Heap.call_eq P { h with rngs := h.rngs.set a g2.rng } q b m g g2 s hq hb1 hc
        have ha2 : ((h.rngs.set a g2.rng).set b g2.rng)[a]? = some g2.rng := by
          rw [List.getElem?_set_ne (Ne.symm hab)]
          exact List.getElem?_set_self halt
        have hb2 : ((h.rngs.set a g2.rng).set b g2.rng)[b]? = some g2.rng :=
          List.getElem?_set_self (by rw [List.length_set]; exact hblt)
        obtain ⟨h3, e3, hg3, ha3, hb3⟩ :=
          ih { h with rngs := (h.rngs.set a g2.rng).set b g2.rng } g2 ss2 hp hq ha2 hb2 hrest
        refine ⟨h3, ?_, hg3, ha3, hb3⟩
        unfold Heap.lockstep
        simp only [e1, e2, e3, Option.bind_eq_bind, Option.some_bind, Option.pure_def,
          List.zip_cons_cons]

theorem zip_self_fst {α : Type} (l : List α) : (l.zip l).map Prod.fst = l := by
  induction l with
  | nil => rfl
  | cons a l ih => simp only [List.zip_cons_cons, List.map_cons, ih]

theorem zip_self_eq {α : Type} (l : List α) : ∀ o ∈ l.zip l, o.1 = o.2 := by
  induction l with
  | nil => intro o ho; simp at ho
  | cons a l ih =>
    intro o ho
    simp only [List.zip_cons_cons, List.mem_cons] at ho
    rcases ho with rfl | ho
    · rfl
    · exact ih o ho

theorem zip_self_length {α : Type} (l : List α) : (l.zip l).length = l.length := by
  simp

/-- Package-level calls return what the generator `globalGen` points to
returns. -/
theorem World.run_eq_run (P : Pools) (ms : List Method) (w : World) (a : Nat)
    (g g1 : Generator) (ss : List String)
    (hp : w.heap.gens[w.globalGen]? = some a) (ha : w.heap.rngs[a]? = some g.rng)
    (hr : g.run P ms = some (ss, g1)) :
    ∃ w1, w.run P ms = some (ss, w1) := by
  induction ms generalizing w g ss with
  | nil =>
    simp only [Generator.run, Option.some.injEq, Prod.mk.injEq] at hr
    obtain ⟨rfl, rfl⟩ := hr
    exact ⟨w, rfl⟩
  | cons m ms ih =>
    unfold Generator.run at hr
    cases hc : g.call P m with
    | none => simp [hc] at hr
    | some r =>
      obtain ⟨s, g2⟩ := r
      cases hrest : g2.run P ms with
      | none => simp [hc, hrest] at hr
      | some r2 =>
        obtain ⟨ss2, g3⟩ := r2
        simp only [hc, hrest, Option.bind_eq_bind, Option.some_bind, Option.pure_def,
          Option.some.injEq, Prod.mk.injEq] at hr
        obtain ⟨rfl, rfl⟩ := hr
        have halt : a < w.heap.rngs.length := by
          rcases List.getElem?_eq_some.1 ha with ⟨hlt, -⟩
          exact hlt
        have e1 := Heap.call_eq P w.heap w.globalGen a m g g2 s hp ha hc
        obtain ⟨w3, e3⟩ :=
          ih { w with heap := { w.heap with rngs := w.heap.rngs.set a g2.rng } } g2 ss2 hp
            (List.getElem?_set_self halt) hrest
        refine ⟨w3, ?_⟩
        unfold World.run World.call
        simp only [e1, e3, Option.bind_eq_bind, Option.some_bind, Option.pure_def]

theorem Seed_run (P : Pools) (ms : List Method) (w : World) (seed : Nat)
    (g1 : Generator) (ss : List String) (hr : (WithSeed seed).run P ms = some (ss, g1)) :
    ∃ w1, (Seed w seed).run P ms = some (ss, w1) := by
  refine World.run_eq_run P ms (Seed w seed) w.heap.rngs.length (WithSeed seed) g1 ss ?_ ?_ hr
  · simp only [Seed, Heap.WithSeed]
    exact List.getElem?_concat_length _ _
  · simp only [Seed, Heap.WithSeed, WithSeed]
    exact List.getElem?_concat_length _ _

/-! ## Closed forms of the composition methods -/

theorem Chrome_windows (P : Pools) (g : Generator) (hc : 0 < P.chromeVersions.length)
    (hw : 0 < P.windowsVersions.length) (h : g.rng.next.2.next.1 % 3 = 0) :
    g.Chrome P = some
      ("Mozilla/5.0 (" ++ ("Windows NT " ++ pickAt P.windowsVersions (g.rng.next.2.next.2.next.1) hw ++ "; Win64; x64") ++
        ") AppleWebKit/537.36 (KHTML, like Gecko) Chrome/" ++
        pickAt P.chromeVersions (g.rng.next.1) hc ++ " Safari/537.36",
       { rng := g.rng.next.2.next.2.next.2 }) := by
  unfold Generator.Chrome
  simp only [pick_eq _ _ hc, pick_eq _ _ hw, intn_three, h, Int.ofNat_eq_coe, Nat.cast_zero, if_true,
    Option.bind_eq_bind, Option.some_bind, Option.pure_def, WriteString, webkitVersion,
    appleWebKitChrome, Option.some.injEq, Prod.mk.injEq, and_true]
  apply String.ext
  simp only [String.data_append, List.append_assoc]
  rfl

theorem Firefox_windows (P : Pools) (g : Generator) (hf : 0 < P.firefoxVersions.length)
    (hw : 0 < P.windowsVersions.length) (h : g.rng.next.2.next.1 % 3 = 0) :
    g.Firefox P = some
      ("Mozilla/5.0 (" ++ ("Windows NT " ++ pickAt P.windowsVersions (g.rng.next.2.next.2.next.1) hw ++ "; Win64; x64") ++ "; rv:" ++
        pickAt P.firefoxVersions (g.rng.next.1) hf ++ ") Gecko/20100101 Firefox/" ++
        pickAt P.firefoxVersions (g.rng.next.1) hf,
       { rng := g.rng.next.2.next.2.next.2 }) := by
  unfold Generator.Firefox
  simp only [pick_eq _ _ hf, pick_eq _ _ hw, intn_three, h, Int.ofNat_eq_coe, Nat.cast_zero, if_true,
    Option.bind_eq_bind, Option.some_bind, Option.pure_def, WriteString, webkitVersion,
    appleWebKitChrome, Option.some.injEq, Prod.mk.injEq, and_true]
  apply String.ext
  simp only [String.data_append, List.append_assoc]
  rfl

theorem Chrome_mac (P : Pools) (g : Generator) (hc : 0 < P.chromeVersions.length)
    (hm : 0 < P.macVersions.length) (h : g.rng.next.2.next.1 % 3 = 1) :
    g.Chrome P = some
      ("Mozilla/5.0 (" ++ ("Macintosh; Intel Mac OS X " ++ pickAt P.macVersions (g.rng.next.2.next.2.next.1) hm) ++
        ") AppleWebKit/537.36 (KHTML, like Gecko) Chrome/" ++
        pickAt P.chromeVersions (g.rng.next.1) hc ++ " Safari/537.36",
       { rng := g.rng.next.2.next.2.next.2 }) := by
  unfold Generator.Chrome
  simp only [pick_eq _ _ hc, pick_eq _ _ hm, intn_three, h, Int.ofNat_eq_coe, Nat.cast_one, one_ne_zero, if_false, if_true,
    Option.bind_eq_bind, Option.some_bind, Option.pure_def, WriteString, webkitVersion,
    appleWebKitChrome, Option.some.injEq, Prod.mk.injEq, and_true]
  apply String.ext
  simp only [String.data_append, List.append_assoc]
  rfl

theorem Firefox_mac (P : Pools) (g : Generator) (hf : 0 < P.firefoxVersions.length)
    (hm : 0 < P.macVersions.length) (h : g.rng.next.2.next.1 % 3 = 1) :
    g.Firefox P = some
      ("Mozilla/5.0 (" ++ ("Macintosh; Intel Mac OS X " ++ pickAt P.macVersions (g.rng.next.2.next.2.next.1) hm) ++ "; rv:" ++
        pickAt P.firefoxVersions (g.rng.next.1) hf ++ ") Gecko/20100101 Firefox/" ++
        pickAt P.firefoxVersions (g.rng.next.1) hf,
       { rng := g.rng.next.2.next.2.next.2 }) := by
  unfold Generator.Firefox
  simp only [pick_eq _ _ hf, pick_eq _ _ hm, intn_three, h, Int.ofNat_eq_coe, Nat.cast_one, one_ne_zero, if_false, if_true,
    Option.bind_eq_bind, Option.some_bind, Option.pure_def, WriteString, webkitVersion,
    appleWebKitChrome, Option.some.injEq, Prod.mk.injEq, and_true]
  apply String.ext
  simp only [String.data_append, List.append_assoc]
  rfl

theorem Chrome_linux (P : Pools) (g : Generator) (hc : 0 < P.chromeVersions.length)
    (hl : 0 < P.linuxDesktops.length) (h : g.rng.next.2.next.1 % 3 = 2) :
    g.Chrome P = some
      ("Mozilla/5.0 (" ++ (pickAt P.linuxDesktops (g.rng.next.2.next.2.next.1) hl) ++
        ") AppleWebKit/537.36 (KHTML, like Gecko) Chrome/" ++
        pickAt P.chromeVersions (g.rng.next.1) hc ++ " Safari/537.36",
       { rng := g.rng.next.2.next.2.next.2 }) := by
  unfold Generator.Chrome
  simp only [pick_eq _ _ hc, pick_eq _ _ hl, intn_three, h, Int.ofNat_eq_coe, Nat.cast_ofNat, OfNat.ofNat_ne_zero, OfNat.ofNat_ne_one, if_false, if_true,
    Option.bind_eq_bind, Option.some_bind, Option.pure_def, WriteString, webkitVersion,
    appleWebKitChrome, Option.some.injEq, Prod.mk.injEq, and_true]
  apply String.ext
  simp only [String.data_append, List.append_assoc]
  rfl

theorem Firefox_linux (P : Pools) (g : Generator) (hf : 0 < P.firefoxVersions.length)
    (hl : 0 < P.linuxDesktops.length) (h : g.rng.next.2.next.1 % 3 = 2) :
    g.Firefox P = some
      ("Mozilla/5.0 (" ++ (pickAt P.linuxDesktops (g.rng.next.2.next.2.next.1) hl) ++ "; rv:" ++
        pickAt P.firefoxVersions (g.rng.next.1) hf ++ ") Gecko/20100101 Firefox/" ++
        pickAt P.firefoxVersions (g.rng.next.1) hf,
       { rng := g.rng.next.2.next.2.next.2 }) := by
  unfold Generator.Firefox
  simp only [pick_eq _ _ hf, pick_eq _ _ hl, intn_three, h, Int.ofNat_eq_coe, Nat.cast_ofNat, OfNat.ofNat_ne_zero, OfNat.ofNat_ne_one, if_false, if_true,
    Option.bind_eq_bind, Option.some_bind, Option.pure_def, WriteString, webkitVersion,
    appleWebKitChrome, Option.some.injEq, Prod.mk.injEq, and_true]
  apply String.ext
  simp only [String.data_append, List.append_assoc]
  rfl

theorem Edge_windows (P : Pools) (g : Generator) (he : 0 < P.edgeVersions.length)
    (hc : 0 < P.chromeVersions.length) (hw : 0 < P.windowsVersions.length)
    (h : g.rng.next.2.next.2.next.1 % 2 = 0) :
    g.Edge P = some
      ("Mozilla/5.0 (" ++ ("Windows NT " ++ pickAt P.windowsVersions (g.rng.next.2.next.2.next.2.next.1) hw ++ "; Win64; x64") ++
        ") AppleWebKit/537.36 (KHTML, like Gecko) Chrome/" ++
        pickAt P.chromeVersions (g.rng.next.2.next.1) hc ++ " Safari/537.36 Edg/" ++
        pickAt P.edgeVersions (g.rng.next.1) he,
       { rng := g.rng.next.2.next.2.next.2.next.2 }) := by
  unfold Generator.Edge
  simp only [pick_eq _ _ he, pick_eq _ _ hc, pick_eq _ _ hw, intn_two, h, Int.ofNat_eq_coe, Nat.cast_zero, if_true,
    Option.bind_eq_bind, Option.some_bind, Option.pure_def, WriteString, webkitVersion,
    appleWebKitChrome, Option.some.injEq, Prod.mk.injEq, and_true]
  apply String.ext
  simp only [String.data_append, List.append_assoc]
  rfl

theorem Edge_mac (P : Pools) (g : Generator) (he : 0 < P.edgeVersions.length)
    (hc : 0 < P.chromeVersions.length) (hm : 0 < P.macVersions.length)
    (h : g.rng.next.2.next.2.next.1 % 2 = 1) :
    g.Edge P = some
      ("Mozilla/5.0 (" ++ ("Macintosh; Intel Mac OS X " ++ pickAt P.macVersions (g.rng.next.2.next.2.next.2.next.1) hm) ++
        ") AppleWebKit/537.36 (KHTML, like Gecko) Chrome/" ++
        pickAt P.chromeVersions (g.rng.next.2.next.1) hc ++ " Safari/537.36 Edg/" ++
        pickAt P.edgeVersions (g.rng.next.1) he,
       { rng := g.rng.next.2.next.2.next.2.next.2 }) := by
  unfold Generator.Edge
  simp only [pick_eq _ _ he, pick_eq _ _ hc, pick_eq _ _ hm, intn_two, h, Int.ofNat_eq_coe, Nat.cast_one, one_ne_zero, if_false, if_true,
    Option.bind_eq_bind, Option.some_bind, Option.pure_def, WriteString, webkitVersion,
    appleWebKitChrome, Option.some.injEq, Prod.mk.injEq, and_true]
  apply String.ext
  simp only [String.data_append, List.append_assoc]
  rfl

theorem Safari_eq (P : Pools) (g : Generator)
    (hs : 0 < P.safariVersions.length) (hm : 0 < P.macVersions.length) :
    g.Safari P = some
      ("Mozilla/5.0 (Macintosh; Intel Mac OS X " ++ pickAt P.macVersions (g.rng.next.2.next.1) hm ++
        ") AppleWebKit/605.1.15 (KHTML, like Gecko) Version/" ++
        pickAt P.safariVersions (g.rng.next.1) hs ++ " Safari/605.1.15",
       { rng := g.rng.next.2.next.2 }) := by
  unfold Generator.Safari
  simp only [pick_eq _ _ hs, pick_eq _ _ hm,
    Option.bind_eq_bind, Option.some_bind, Option.pure_def, WriteString, webkitVersion,
    appleWebKitChrome, Option.some.injEq, Prod.mk.injEq, and_true]
  apply String.ext
  simp only [String.data_append, List.append_assoc]
  rfl

theorem SafariIOS_eq (P : Pools) (g : Generator)
    (hi : 0 < P.iosVersions.length) (hs : 0 < P.safariVersions.length) :
    g.SafariIOS P = some
      ("Mozilla/5.0 (" ++ "iPhone; CPU iPhone OS " ++ pickAt P.iosVersions (g.rng.next.1) hi ++
        " like Mac OS X) AppleWebKit/605.1.15 (KHTML, like Gecko) Version/" ++
        pickAt P.safariVersions (g.rng.next.2.next.1) hs ++ " Mobile/15E148 Safari/605.1.15",
       { rng := g.rng.next.2.next.2 }) := by
  unfold Generator.SafariIOS
  simp only [pick_eq _ _ hi, pick_eq _ _ hs,
    Option.bind_eq_bind, Option.some_bind, Option.pure_def, WriteString, webkitVersion,
    appleWebKitChrome, Option.some.injEq, Prod.mk.injEq, and_true]
  apply String.ext
  simp only [String.data_append, List.append_assoc]
  rfl

theorem SafariIPad_eq (P : Pools) (g : Generator)
    (hi : 0 < P.iosVersions.length) (hs : 0 < P.safariVersions.length) :
    g.SafariIPad P = some
      ("Mozilla/5.0 (" ++ "iPad; CPU OS " ++ pickAt P.iosVersions (g.rng.next.1) hi ++
        " like Mac OS X) AppleWebKit/605.1.15 (KHTML, like Gecko) Version/" ++
        pickAt P.safariVersions (g.rng.next.2.next.1) hs ++ " Mobile/15E148 Safari/605.1.15",
       { rng := g.rng.next.2.next.2 }) := by
  unfold Generator.SafariIPad
  simp only [pick_eq _ _ hi, pick_eq _ _ hs,
    Option.bind_eq_bind, Option.some_bind, Option.pure_def, WriteString, webkitVersion,
    appleWebKitChrome, Option.some.injEq, Prod.mk.injEq, and_true]
  apply String.ext
  simp only [String.data_append, List.append_assoc]
  rfl

theorem ChromeAndroid_eq (P : Pools) (g : Generator) (ha : 0 < P.androidVersions.length)
    (hc : 0 < P.chromeVersions.length) (hd : 0 < P.androidDevices.length) :
    g.ChromeAndroid P = some
      ("Mozilla/5.0 (Linux; Android " ++ pickAt P.androidVersions (g.rng.next.1) ha ++ "; " ++
        (pickAt P.androidDevices (g.rng.next.2.next.2.next.1) hd).model ++ " Build/" ++
        (pickAt P.androidDevices (g.rng.next.2.next.2.next.1) hd).build ++ 
        ") AppleWebKit/537.36 (KHTML, like Gecko) " ++ "Chrome/" ++
        pickAt P.chromeVersions (g.rng.next.2.next.1) hc ++ " Mobile Safari/537.36",
       { rng := g.rng.next.2.next.2.next.2 }) := by
  unfold Generator.ChromeAndroid
  simp only [pick_eq _ _ ha, pick_eq _ _ hc, pick_eq _ _ hd,
    Option.bind_eq_bind, Option.some_bind, Option.pure_def, WriteString, webkitVersion,
    appleWebKitChrome, Option.some.injEq, Prod.mk.injEq, and_true]
  apply String.ext
  simp only [String.data_append, List.append_assoc]
  rfl

theorem AndroidWebView_eq (P : Pools) (g : Generator) (ha : 0 < P.androidVersions.length)
    (hc : 0 < P.chromeVersions.length) (hd : 0 < P.androidDevices.length) :
    g.AndroidWebView P = some
      ("Mozilla/5.0 (Linux; Android " ++ pickAt P.androidVersions (g.rng.next.1) ha ++ "; " ++
        (pickAt P.androidDevices (g.rng.next.2.next.2.next.1) hd).model ++ " Build/" ++
        (pickAt P.androidDevices (g.rng.next.2.next.2.next.1) hd).build ++ "; wv" ++ 
        ") AppleWebKit/537.36 (KHTML, like Gecko) " ++ "Version/4.0 " ++ "Chrome/" ++
        pickAt P.chromeVersions (g.rng.next.2.next.1) hc ++ " Mobile Safari/537.36",
       { rng := g.rng.next.2.next.2.next.2 }) := by
  unfold Generator.AndroidWebView
  simp only [pick_eq _ _ ha, pick_eq _ _ hc, pick_eq _ _ hd,
    Option.bind_eq_bind, Option.some_bind, Option.pure_def, WriteString, webkitVersion,
    appleWebKitChrome, Option.some.injEq, Prod.mk.injEq, and_true]
  apply String.ext
  simp only [String.data_append, List.append_assoc]
  rfl

theorem SamsungBrowser_eq (P : Pools) (g : Generator) (ha : 0 < P.androidVersions.length)
    (hc : 0 < P.chromeVersions.length) (hd : 0 < P.androidDevices.length) :
    g.SamsungBrowser P = some
      ("Mozilla/5.0 (Linux; Android " ++ pickAt P.androidVersions (g.rng.next.1) ha ++ "; " ++
        (pickAt P.androidDevices (g.rng.next.2.next.2.next.1) hd).model ++ " Build/" ++
        (pickAt P.androidDevices (g.rng.next.2.next.2.next.1) hd).build ++ 
        ") AppleWebKit/537.36 (KHTML, like Gecko) " ++ "SamsungBrowser/25.0 " ++ "Chrome/" ++
        pickAt P.chromeVersions (g.rng.next.2.next.1) hc ++ " Mobile Safari/537.36",
       { rng := g.rng.next.2.next.2.next.2 }) := by
  unfold Generator.SamsungBrowser
  simp only [pick_eq _ _ ha, pick_eq _ _ hc, pick_eq _ _ hd,
    Option.bind_eq_bind, Option.some_bind, Option.pure_def, WriteString, webkitVersion,
    appleWebKitChrome, Option.some.injEq, Prod.mk.injEq, and_true]
  apply String.ext
  simp only [String.data_append, List.append_assoc]
  rfl

/-! ## Concrete evaluations -/

theorem Chrome_at_seed_12345 :
    (WithSeed 12345).Chrome samplePools = some
      ("Mozilla/5.0 (Windows NT 6.1; Win64; x64) AppleWebKit/537.36 (KHTML, like Gecko) " ++
        "Chrome/130.0.6723.117 Safari/537.36", { rng := { state := 11684599175382693041 } }) := by
  decide

theorem Firefox_at_seed_42 :
    (WithSeed 42).Firefox samplePools = some
      ("Mozilla/5.0 (Macintosh; Intel Mac OS X 10_15_7; rv:133.0) Gecko/20100101 Firefox/133.0",
        { rng := { state := 10021416941527320954 } }) := by
  decide

theorem ChromeAndroid_at_seed_42 :
    (WithSeed 42).ChromeAndroid samplePools = some
      ("Mozilla/5.0 (Linux; Android 13; Pixel 8 Build/UQ1A.231205.015) AppleWebKit/537.36 " ++
        "(KHTML, like Gecko) Chrome/130.0.6723.117 Mobile Safari/537.36",
        { rng := { state := 10021416941527320954 } }) := by
  decide

/-! ## Reproducibility, duplication, reseeding -/

theorem Heap.State_of (h : Heap) (p a : Nat) (x : xorshift64)
    (hp : h.gens[p]? = some a) (ha : h.rngs[a]? = some x) : h.State p = some x.state := by
  simp only [Heap.State, Heap.deref, hp, ha, Option.bind_eq_bind, Option.some_bind,
    Option.pure_def, Option.map_some', Generator.State]

/-- Two generators allocated one after the other from seeds that
`newXorshift64` maps to the same state, driven in lockstep. -/
theorem lockstep_two_seeds (P : Pools) (hP : P.NonEmpty) (h : Heap) (s1 s2 : Nat)
    (hs : newXorshift64 s2 = newXorshift64 s1) (ms : List Method) :
    ∃ outs h1 g1,
      Heap.lockstep P ((h.WithSeed s1).2.WithSeed s2).2 (h.WithSeed s1).1
        ((h.WithSeed s1).2.WithSeed s2).1 ms = some (outs, h1) ∧
      outs.length = ms.length ∧ (∀ o ∈ outs, o.1 = o.2) ∧
      (WithSeed s1).run P ms = some (outs.map Prod.fst, g1) ∧
      h1.State (h.WithSeed s1).1 = some g1.State ∧
      h1.State ((h.WithSeed s1).2.WithSeed s2).1 = some g1.State := by
  obtain ⟨ss, g1, hr, hlen⟩ := run_some P hP ms (WithSeed s1)
  have hp : ((h.WithSeed s1).2.WithSeed s2).2.gens[(h.WithSeed s1).1]? =
      some h.rngs.length := by
    simp only [Heap.WithSeed]
    rw [List.getElem?_append_left (by simp)]
    exact List.getElem?_concat_length _ _
  have hq : ((h.WithSeed s1).2.WithSeed s2).2.gens[((h.WithSeed s1).2.WithSeed s2).1]? =
      some (h.rngs.length + 1) := by
    simp only [Heap.WithSeed]
    rw [List.getElem?_concat_length]
    simp
  have ha : ((h.WithSeed s1).2.WithSeed s2).2.rngs[h.rngs.length]? =
      some (WithSeed s1).rng := by
    simp only [Heap.WithSeed, WithSeed]
    rw [List.getElem?_append_left (by simp)]
    exact List.getElem?_concat_length _ _
  have hb : ((h.WithSeed s1).2.WithSeed s2).2.rngs[h.rngs.length + 1]? =
      some (WithSeed s1).rng := by
    simp only [Heap.WithSeed, WithSeed, hs]
    have e : h.rngs.length + 1 = (h.rngs ++ [newXorshift64 s1]).length := by simp
    rw [e]
    exact List.getElem?_concat_length _ _
  obtain ⟨h1, hl, hg, ha1, hb1⟩ :=
    Heap.lockstep_eq_run P ms _ _ _ _ _ (WithSeed s1) g1 ss (Nat.ne_of_lt (Nat.lt_succ_self _))
      hp hq ha hb hr
  refine ⟨ss.zip ss, h1, g1, hl, ?_, zip_self_eq ss, ?_, ?_, ?_⟩
  · rw [zip_self_length, hlen]
  · rw [zip_self_fst]; exact hr
  · exact Heap.State_of h1 _ _ _ (by rw [hg]; exact hp) ha1
  · exact Heap.State_of h1 _ _ _ (by rw [hg]; exact hq) hb1

/-- C1 (reproducibility): two generators built with `WithSeed(s)`, in any heap,
and given the same method calls in the same order return the same string at
every step and end with equal `State()`; the strings are those determined by
the seed and the calls alone. -/
theorem seed_reproducibility (P : Pools) (hP : P.NonEmpty) (h : Heap) (seed : Nat)
    (ms : List Method) :
    ∃ outs h1 g1,
      Heap.lockstep P ((h.WithSeed seed).2.WithSeed seed).2 (h.WithSeed seed).1
        ((h.WithSeed seed).2.WithSeed seed).1 ms = some (outs, h1) ∧
      outs.length = ms.length ∧ (∀ o ∈ outs, o.1 = o.2) ∧
      (WithSeed seed).run P ms = some (outs.map Prod.fst, g1) ∧
      h1.State (h.WithSeed seed).1 = some g1.State ∧
      h1.State ((h.WithSeed seed).2.WithSeed seed).1 = some g1.State :=
  lockstep_two_seeds P hP h seed seed rfl ms

/-- Witness for C1: seed 12345, 100 calls of `Chrome()`. -/
theorem seed_reproducibility_witness :
    samplePools.NonEmpty ∧
    ∃ outs h1 g1,
      Heap.lockstep samplePools
        (((Heap.mk [] []).WithSeed 12345).2.WithSeed 12345).2 ((Heap.mk [] []).WithSeed 12345).1
        (((Heap.mk [] []).WithSeed 12345).2.WithSeed 12345).1 (List.replicate 100 Method.Chrome)
          = some (outs, h1) ∧
      outs.length = (List.replicate 100 Method.Chrome).length ∧ (∀ o ∈ outs, o.1 = o.2) ∧
      (WithSeed 12345).run samplePools (List.replicate 100 Method.Chrome)
        = some (outs.map Prod.fst, g1) ∧
      h1.State ((Heap.mk [] []).WithSeed 12345).1 = some g1.State ∧
      h1.State (((Heap.mk [] []).WithSeed 12345).2.WithSeed 12345).1 = some g1.State :=
  ⟨by decide, seed_reproducibility samplePools (by decide) (Heap.mk [] []) 12345
    (List.replicate 100 Method.Chrome)⟩

/-- C2 (duplication): for a generator `p` of any heap, `p.Clone()` returns a
new generator `q`, leaves the state of `p` as it was, and gives `q` the same
state; driven in lockstep the two return pairwise identical strings (those the
original alone would have returned); and in every heap reached afterwards a
call on one of the two does not change the state of the other. -/
theorem clone_fidelity (P : Pools) (hP : P.NonEmpty) (h : Heap) (p : Nat) (g : Generator)
    (hg : h.deref p = some g) :
    ∃ q h1, h.Clone p = some (q, h1) ∧ q ≠ p ∧
      h1.State p = h.State p ∧ h1.State q = h1.State p ∧
      (∀ ms : List Method, ∃ outs h2 g1,
        h1.lockstep P p q ms = some (outs, h2) ∧ outs.length = ms.length ∧
        (∀ o ∈ outs, o.1 = o.2) ∧ g.run P ms = some (outs.map Prod.fst, g1) ∧
        h2.State p = some g1.State ∧ h2.State q = some g1.State) ∧
      (∀ (cs : List (Nat × Method)) (outs : List String) (h2 : Heap),
        h1.runCalls P cs = some (outs, h2) →
        ∀ (m : Method) (s : String) (h3 : Heap),
          (h2.call P p m = some (s, h3) → h3.State q = h2.State q) ∧
          (h2.call P q m = some (s, h3) → h3.State p = h2.State p)) := by
  -- the cell behind `p`
  have hd := hg
  unfold Heap.deref at hd
  cases hp : h.gens[p]? with
  | none => simp [hp] at hd
  | some a =>
    cases ha : h.rngs[a]? with
    | none => simp [hp, ha] at hd
    | some x =>
      simp only [hp, ha, Option.bind_eq_bind, Option.some_bind, Option.pure_def,
        Option.some.injEq] at hd
      subst hd
      have hplt : p < h.gens.length := by
        rcases List.getElem?_eq_some.1 hp with ⟨hlt, -⟩
        exact hlt
      have halt : a < h.rngs.length := by
        rcases List.getElem?_eq_some.1 ha with ⟨hlt, -⟩
        exact hlt
      have hab : a ≠ h.rngs.length := Nat.ne_of_lt halt
      -- the heap after the clone
      have hc : h.Clone p = some (h.gens.length,
          { rngs := h.rngs ++ [{ state := x.state }], gens := h.gens ++ [h.rngs.length] }) := by
        simp only [Heap.Clone, hg, Option.bind_eq_bind, Option.some_bind, Option.pure_def]
      have hp1 : (h.gens ++ [h.rngs.length])[p]? = some a := by
        rw [List.getElem?_append_left hplt]; exact hp
      have hq1 : (h.gens ++ [h.rngs.length])[h.gens.length]? = some h.rngs.length :=
        List.getElem?_concat_length _ _
      have ha1 : (h.rngs ++ [({ state := x.state } : xorshift64)])[a]? = some x := by
        rw [List.getElem?_append_left halt]; exact ha
      have hb1 : (h.rngs ++ [({ state := x.state } : xorshift64)])[h.rngs.length]? = some x :=
        List.getElem?_concat_length _ _
      refine ⟨_, _, hc, Nat.ne_of_gt hplt, ?_, ?_, ?_, ?_⟩
      · rw [Heap.State_of _ p a x hp1 ha1, Heap.State_of h p a x hp ha]
      · rw [Heap.State_of _ p a x hp1 ha1, Heap.State_of _ _ _ x hq1 hb1]
      · intro ms
        obtain ⟨ss, g1, hr, hlen⟩ := run_some P hP ms { rng := x }
        obtain ⟨h2, hl, hg2, ha2, hb2⟩ :=
          Heap.lockstep_eq_run P ms
            { rngs := h.rngs ++ [{ state := x.state }], gens := h.gens ++ [h.rngs.length] }
            p h.gens.length a h.rngs.length { rng := x } g1 ss hab hp1 hq1 ha1 hb1 hr
        refine ⟨ss.zip ss, h2, g1, hl, ?_, zip_self_eq ss, ?_, ?_, ?_⟩
        · rw [zip_self_length, hlen]
        · rw [zip_self_fst]; exact hr
        · exact Heap.State_of h2 _ _ _ (by rw [hg2]; exact hp1) ha2
        · exact Heap.State_of h2 _ _ _ (by rw [hg2]; exact hq1) hb2
      · intro cs outs h2 hrun m s h3
        have hg2 := Heap.runCalls_gens P cs _ h2 outs hrun
        have hp2 : h2.gens[p]? = some a := by rw [hg2]; exact hp1
        have hq2 : h2.gens[h.gens.length]? = some h.rngs.length := by rw [hg2]; exact hq1
        exact ⟨Heap.call_frame P h2 h3 _ _ _ _ m s hp2 hq2 hab,
          Heap.call_frame P h2 h3 _ _ _ _ m s hq2 hp2 (Ne.symm hab)⟩

theorem heapAfterTenChrome_spec :
    (Heap.runCalls samplePools ((Heap.mk [] []).WithSeed 12345).2
        (List.replicate 10 (0, Method.Chrome))).map Prod.snd
      = some heapAfterTenChrome := by
  decide

/-- Witness for C2: seed 12345, 10 calls of `Chrome()`, then `Clone`. -/
theorem clone_fidelity_witness :
    samplePools.NonEmpty ∧
    heapAfterTenChrome.deref 0 = some { rng := { state := 13178583963499273219 } } ∧
    ∃ q h1, heapAfterTenChrome.Clone 0 = some (q, h1) ∧ q ≠ 0 ∧
      h1.State 0 = heapAfterTenChrome.State 0 ∧ h1.State q = h1.State 0 ∧
      (∀ ms : List Method, ∃ outs h2 g1,
        h1.lockstep samplePools 0 q ms = some (outs, h2) ∧ outs.length = ms.length ∧
        (∀ o ∈ outs, o.1 = o.2) ∧
        Generator.run samplePools { rng := { state := 13178583963499273219 } } ms
          = some (outs.map Prod.fst, g1) ∧
        h2.State 0 = some g1.State ∧ h2.State q = some g1.State) ∧
      (∀ (cs : List (Nat × Method)) (outs : List String) (h2 : Heap),
        h1.runCalls samplePools cs = some (outs, h2) →
        ∀ (m : Method) (s : String) (h3 : Heap),
          (h2.call samplePools 0 m = some (s, h3) → h3.State q = h2.State q) ∧
          (h2.call samplePools q m = some (s, h3) → h3.State 0 = h2.State 0)) :=
  ⟨by decide, by decide,
    clone_fidelity samplePools (by decide) heapAfterTenChrome 0
      { rng := { state := 13178583963499273219 } } (by decide)⟩

/-- C3 (zero seed): `WithSeed(0)` is the generator `WithSeed(0xDEADBEEFCAFEBABE)`:
same initial `State()`, same strings for every method sequence (as values, and
as two generators of one heap driven in lockstep); a non-zero seed is the
initial `State()` itself. -/
theorem zero_seed_remap :
    WithSeed 0 = WithSeed 0xDEADBEEFCAFEBABE ∧
    (WithSeed 0).State = (WithSeed 0xDEADBEEFCAFEBABE).State ∧
    (WithSeed 0).State = 0xDEADBEEFCAFEBABE ∧
    (∀ (P : Pools) (ms : List Method),
      (WithSeed 0).run P ms = (WithSeed 0xDEADBEEFCAFEBABE).run P ms) ∧
    (∀ (P : Pools), P.NonEmpty → ∀ (h : Heap) (ms : List Method), ∃ outs h1,
      Heap.lockstep P ((h.WithSeed 0).2.WithSeed 0xDEADBEEFCAFEBABE).2 (h.WithSeed 0).1
          ((h.WithSeed 0).2.WithSeed 0xDEADBEEFCAFEBABE).1 ms = some (outs, h1) ∧
        outs.length = ms.length ∧ (∀ o ∈ outs, o.1 = o.2) ∧
        h1.State (h.WithSeed 0).1 = h1.State ((h.WithSeed 0).2.WithSeed 0xDEADBEEFCAFEBABE).1) ∧
    (∀ s : Nat, s ≠ 0 → (WithSeed s).State = s) := by
  have e : WithSeed 0 = WithSeed 0xDEADBEEFCAFEBABE := by
    simp [WithSeed, newXorshift64]
  refine ⟨e, by rw [e], by simp [WithSeed, newXorshift64, Generator.State], ?_, ?_, ?_⟩
  · intro P ms; rw [e]
  · intro P hP h ms
    have e2 : newXorshift64 0xDEADBEEFCAFEBABE = newXorshift64 0 := by
      simp [newXorshift64]
    obtain ⟨outs, h1, g1, hl, hlen, heq, -, hs1, hs2⟩ :=
      lockstep_two_seeds P hP h 0 0xDEADBEEFCAFEBABE e2 ms
    exact ⟨outs, h1, hl, hlen, heq, by rw [hs1, hs2]⟩
  · intro s hs
    simp [WithSeed, newXorshift64, Generator.State, hs]

/-- Witness for C3: the pools `samplePools` and the seed 12345. -/
theorem zero_seed_remap_witness :
    (samplePools.NonEmpty ∧ ∃ outs h1,
      Heap.lockstep samplePools (((Heap.mk [] []).WithSeed 0).2.WithSeed 0xDEADBEEFCAFEBABE).2
          ((Heap.mk [] []).WithSeed 0).1
          (((Heap.mk [] []).WithSeed 0).2.WithSeed 0xDEADBEEFCAFEBABE).1 [Method.Random]
          = some (outs, h1) ∧
        outs.length = [Method.Random].length ∧ (∀ o ∈ outs, o.1 = o.2) ∧
        h1.State ((Heap.mk [] []).WithSeed 0).1 =
          h1.State (((Heap.mk [] []).WithSeed 0).2.WithSeed 0xDEADBEEFCAFEBABE).1) ∧
    ((12345 : Nat) ≠ 0 ∧ (WithSeed 12345).State = 12345) :=
  ⟨⟨by decide, zero_seed_remap.2.2.2.2.1 samplePools (by decide) (Heap.mk [] []) [Method.Random]⟩,
   ⟨by decide, zero_seed_remap.2.2.2.2.2 12345 (by decide)⟩⟩

/-- C4 (reseeding the package-level generator): after `Seed(s)`, whatever the
program state was before, a sequence of package-level calls returns the strings
that the same method calls return on a fresh `WithSeed(s)`; calling `Seed(s)`
again afterwards restarts the same sequence. -/
theorem global_seed_restarts (P : Pools) (hP : P.NonEmpty) (seed : Nat) (ms : List Method) :
    ∃ outs g1, (WithSeed seed).run P ms = some (outs, g1) ∧ outs.length = ms.length ∧
      ∀ w : World, ∃ w1, (Seed w seed).run P ms = some (outs, w1) ∧
        ∃ w2, (Seed w1 seed).run P ms = some (outs, w2) := by
  obtain ⟨ss, g1, hr, hlen⟩ := run_some P hP ms (WithSeed seed)
  refine ⟨ss, g1, hr, hlen, ?_⟩
  intro w
  obtain ⟨w1, hw1⟩ := Seed_run P ms w seed g1 ss hr
  obtain ⟨w2, hw2⟩ := Seed_run P ms w1 seed g1 ss hr
  exact ⟨w1, hw1, w2, hw2⟩

/-- Witness for C4: `Seed(99999)` then two calls of `Chrome()`, twice. -/
theorem global_seed_restarts_witness :
    samplePools.NonEmpty ∧
    ∃ outs g1, (WithSeed 99999).run samplePools [Method.Chrome, Method.Chrome] = some (outs, g1) ∧
      outs.length = [Method.Chrome, Method.Chrome].length ∧
      ∀ w : World, ∃ w1,
        (Seed w 99999).run samplePools [Method.Chrome, Method.Chrome] = some (outs, w1) ∧
        ∃ w2, (Seed w1 99999).run samplePools [Method.Chrome, Method.Chrome] = some (outs, w2) :=
  ⟨by decide, global_seed_restarts samplePools (by decide) 99999 [Method.Chrome, Method.Chrome]⟩

/-! ## Output formats -/

/-- C5 (Chrome): with non-empty pools and `r1`, `r2`, `r3` the three successive
values of `next()`, `Chrome()` returns
`Mozilla/5.0 (<plat>) AppleWebKit/537.36 (KHTML, like Gecko) Chrome/<v> Safari/537.36`
with `v = chromeVersions[r1 mod len]`, the platform branch `r2 mod 3`, and the
platform fragment selected by `r3`: Windows NT for branch 0, Macintosh for
branch 1, an element of `linuxDesktops` for branch 2. -/
theorem Chrome_format (P : Pools) (g : Generator) (hP : P.NonEmpty)
    (r1 r2 r3 : Nat) (x1 x2 x3 : xorshift64)
    (h1 : g.rng.next = (r1, x1)) (h2 : x1.next = (r2, x2)) (h3 : x2.next = (r3, x3)) :
    ∃ v plat,
      P.chromeVersions[r1 % P.chromeVersions.length]? = some v ∧
      ((r2 % 3 = 0 ∧ ∃ w, P.windowsVersions[r3 % P.windowsVersions.length]? = some w ∧
          plat = "Windows NT " ++ w ++ "; Win64; x64") ∨
       (r2 % 3 = 1 ∧ ∃ m, P.macVersions[r3 % P.macVersions.length]? = some m ∧
          plat = "Macintosh; Intel Mac OS X " ++ m) ∨
       (r2 % 3 = 2 ∧ ∃ l, P.linuxDesktops[r3 % P.linuxDesktops.length]? = some l ∧
          plat = l)) ∧
      Generator.Chrome P g = some
        ("Mozilla/5.0 (" ++ plat ++ ") AppleWebKit/537.36 (KHTML, like Gecko) Chrome/" ++ v ++
          " Safari/537.36", { rng := x3 }) := by
  obtain ⟨hc, -, -, -, hw, hm, hl, -, -, -⟩ := hP
  have a3 : r3 = x2.next.1 := (congrArg Prod.fst h3).symm
  have b3 : x3 = x2.next.2 := (congrArg Prod.snd h3).symm
  subst a3 b3
  have a2 : r2 = x1.next.1 := (congrArg Prod.fst h2).symm
  have b2 : x2 = x1.next.2 := (congrArg Prod.snd h2).symm
  subst a2 b2
  have a1 : r1 = g.rng.next.1 := (congrArg Prod.fst h1).symm
  have b1 : x1 = g.rng.next.2 := (congrArg Prod.snd h1).symm
  subst a1 b1
  rcases mod_three_cases g.rng.next.2.next.1 with h | h | h
  · exact ⟨_, _, getElem?_pickAt _ _ hc, Or.inl ⟨h, _, getElem?_pickAt _ _ hw, rfl⟩,
      Chrome_windows P g hc hw h⟩
  · exact ⟨_, _, getElem?_pickAt _ _ hc, Or.inr (Or.inl ⟨h, _, getElem?_pickAt _ _ hm, rfl⟩),
      Chrome_mac P g hc hm h⟩
  · exact ⟨_, _, getElem?_pickAt _ _ hc, Or.inr (Or.inr ⟨h, _, getElem?_pickAt _ _ hl, rfl⟩),
      Chrome_linux P g hc hl h⟩

/-- Witness for C5: seed 12345. -/
theorem Chrome_format_witness :
    samplePools.NonEmpty ∧
    (WithSeed 12345).rng.next = (13289605635609, { state := 13289605635609 }) ∧
    xorshift64.next { state := 13289605635609 } = (11245129090807876197, { state := 11245129090807876197 }) ∧
    xorshift64.next { state := 11245129090807876197 } = (11684599175382693041, { state := 11684599175382693041 }) ∧
    (∃ v plat,
      samplePools.chromeVersions[13289605635609 % samplePools.chromeVersions.length]? = some v ∧
      ((11245129090807876197 % 3 = 0 ∧ ∃ w, samplePools.windowsVersions[11684599175382693041 % samplePools.windowsVersions.length]? = some w ∧
          plat = "Windows NT " ++ w ++ "; Win64; x64") ∨
       (11245129090807876197 % 3 = 1 ∧ ∃ m, samplePools.macVersions[11684599175382693041 % samplePools.macVersions.length]? = some m ∧
          plat = "Macintosh; Intel Mac OS X " ++ m) ∨
       (11245129090807876197 % 3 = 2 ∧ ∃ l, samplePools.linuxDesktops[11684599175382693041 % samplePools.linuxDesktops.length]? = some l ∧
          plat = l)) ∧
      Generator.Chrome samplePools (WithSeed 12345) = some
        ("Mozilla/5.0 (" ++ plat ++ ") AppleWebKit/537.36 (KHTML, like Gecko) Chrome/" ++ v ++
          " Safari/537.36", { rng := { state := 11684599175382693041 } })) :=
  ⟨by decide, rfl, rfl, rfl,
    Chrome_format samplePools (WithSeed 12345) (by decide) _ _ _ _ _ _ rfl rfl rfl⟩

/-- C6 (Firefox): with non-empty pools and `r1`, `r2`, `r3` the three successive
values of `next()`, `Firefox()` returns
`Mozilla/5.0 (<plat>; rv:<v>) Gecko/20100101 Firefox/<v>` where both version
tokens are the one element `v = firefoxVersions[r1 mod len]` drawn first, and
`<plat>` is one of the three platform clauses, chosen by `r2 mod 3`. -/
theorem Firefox_format (P : Pools) (g : Generator) (hP : P.NonEmpty)
    (r1 r2 r3 : Nat) (x1 x2 x3 : xorshift64)
    (h1 : g.rng.next = (r1, x1)) (h2 : x1.next = (r2, x2)) (h3 : x2.next = (r3, x3)) :
    ∃ v plat,
      P.firefoxVersions[r1 % P.firefoxVersions.length]? = some v ∧
      ((r2 % 3 = 0 ∧ ∃ w, P.windowsVersions[r3 % P.windowsVersions.length]? = some w ∧
          plat = "Windows NT " ++ w ++ "; Win64; x64") ∨
       (r2 % 3 = 1 ∧ ∃ m, P.macVersions[r3 % P.macVersions.length]? = some m ∧
          plat = "Macintosh; Intel Mac OS X " ++ m) ∨
       (r2 % 3 = 2 ∧ ∃ l, P.linuxDesktops[r3 % P.linuxDesktops.length]? = some l ∧
          plat = l)) ∧
      Generator.Firefox P g = some
        ("Mozilla/5.0 (" ++ plat ++ "; rv:" ++ v ++ ") Gecko/20100101 Firefox/" ++ v,
          { rng := x3 }) := by
  obtain ⟨-, hf, -, -, hw, hm, hl, -, -, -⟩ := hP
  have a3 : r3 = x2.next.1 := (congrArg Prod.fst h3).symm
  have b3 : x3 = x2.next.2 := (congrArg Prod.snd h3).symm
  subst a3 b3
  have a2 : r2 = x1.next.1 := (congrArg Prod.fst h2).symm
  have b2 : x2 = x1.next.2 := (congrArg Prod.snd h2).symm
  subst a2 b2
  have a1 : r1 = g.rng.next.1 := (congrArg Prod.fst h1).symm
  have b1 : x1 = g.rng.next.2 := (congrArg Prod.snd h1).symm
  subst a1 b1
  rcases mod_three_cases g.rng.next.2.next.1 with h | h | h
  · exact ⟨_, _, getElem?_pickAt _ _ hf, Or.inl ⟨h, _, getElem?_pickAt _ _ hw, rfl⟩,
      Firefox_windows P g hf hw h⟩
  · exact ⟨_, _, getElem?_pickAt _ _ hf, Or.inr (Or.inl ⟨h, _, getElem?_pickAt _ _ hm, rfl⟩),
      Firefox_mac P g hf hm h⟩
  · exact ⟨_, _, getElem?_pickAt _ _ hf, Or.inr (Or.inr ⟨h, _, getElem?_pickAt _ _ hl, rfl⟩),
      Firefox_linux P g hf hl h⟩

/-- Witness for C6: seed 42. -/
theorem Firefox_format_witness :
    samplePools.NonEmpty ∧
    (WithSeed 42).rng.next = (45454805674, { state := 45454805674 }) ∧
    xorshift64.next { state := 45454805674 } = (11532217803599905471, { state := 11532217803599905471 }) ∧
    xorshift64.next { state := 11532217803599905471 } = (10021416941527320954, { state := 10021416941527320954 }) ∧
    (∃ v plat,
      samplePools.firefoxVersions[45454805674 % samplePools.firefoxVersions.length]? = some v ∧
      ((11532217803599905471 % 3 = 0 ∧ ∃ w, samplePools.windowsVersions[10021416941527320954 % samplePools.windowsVersions.length]? = some w ∧
          plat = "Windows NT " ++ w ++ "; Win64; x64") ∨
       (11532217803599905471 % 3 = 1 ∧ ∃ m, samplePools.macVersions[10021416941527320954 % samplePools.macVersions.length]? = some m ∧
          plat = "Macintosh; Intel Mac OS X " ++ m) ∨
       (11532217803599905471 % 3 = 2 ∧ ∃ l, samplePools.linuxDesktops[10021416941527320954 % samplePools.linuxDesktops.length]? = some l ∧
          plat = l)) ∧
      Generator.Firefox samplePools (WithSeed 42) = some
        ("Mozilla/5.0 (" ++ plat ++ "; rv:" ++ v ++ ") Gecko/20100101 Firefox/" ++ v,
          { rng := { state := 10021416941527320954 } })) :=
  ⟨by decide, rfl, rfl, rfl,
    Firefox_format samplePools (WithSeed 42) (by decide) _ _ _ _ _ _ rfl rfl rfl⟩

/-- C7 (Edge): with non-empty pools and `r1`..`r4` the four successive values of
`next()`, `Edge()` returns
`Mozilla/5.0 (<plat>) AppleWebKit/537.36 (KHTML, like Gecko) Chrome/<c> Safari/537.36 Edg/<e>`
with `e = edgeVersions[r1 mod len]` drawn first, `c = chromeVersions[r2 mod len]`
second, the platform chosen third by `r3 mod 2`, and `<plat>` a Windows NT or a
Macintosh clause; the result does not depend on `linuxDesktops`. -/
theorem Edge_format (P : Pools) (g : Generator) (hP : P.NonEmpty)
    (r1 r2 r3 r4 : Nat) (x1 x2 x3 x4 : xorshift64)
    (h1 : g.rng.next = (r1, x1)) (h2 : x1.next = (r2, x2)) (h3 : x2.next = (r3, x3)) (h4 : x3.next = (r4, x4)) :
    (∃ e c plat,
      P.edgeVersions[r1 % P.edgeVersions.length]? = some e ∧
      P.chromeVersions[r2 % P.chromeVersions.length]? = some c ∧
      ((r3 % 2 = 0 ∧ ∃ w, P.windowsVersions[r4 % P.windowsVersions.length]? = some w ∧
          plat = "Windows NT " ++ w ++ "; Win64; x64") ∨
       (r3 % 2 = 1 ∧ ∃ m, P.macVersions[r4 % P.macVersions.length]? = some m ∧
          plat = "Macintosh; Intel Mac OS X " ++ m)) ∧
      Generator.Edge P g = some
        ("Mozilla/5.0 (" ++ plat ++ ") AppleWebKit/537.36 (KHTML, like Gecko) Chrome/" ++ c ++
          " Safari/537.36 Edg/" ++ e, { rng := x4 })) ∧
    (∀ L : List String,
      Generator.Edge { P with linuxDesktops := L } g = Generator.Edge P g) := by
  obtain ⟨hc, -, -, he, hw, hm, -, -, -, -⟩ := hP
  have a4 : r4 = x3.next.1 := (congrArg Prod.fst h4).symm
  have b4 : x4 = x3.next.2 := (congrArg Prod.snd h4).symm
  subst a4 b4
  have a3 : r3 = x2.next.1 := (congrArg Prod.fst h3).symm
  have b3 : x3 = x2.next.2 := (congrArg Prod.snd h3).symm
  subst a3 b3
  have a2 : r2 = x1.next.1 := (congrArg Prod.fst h2).symm
  have b2 : x2 = x1.next.2 := (congrArg Prod.snd h2).symm
  subst a2 b2
  have a1 : r1 = g.rng.next.1 := (congrArg Prod.fst h1).symm
  have b1 : x1 = g.rng.next.2 := (congrArg Prod.snd h1).symm
  subst a1 b1
  refine ⟨?_, fun L => rfl⟩
  rcases mod_two_cases g.rng.next.2.next.2.next.1 with h | h
  · exact ⟨_, _, _, getElem?_pickAt _ _ he, getElem?_pickAt _ _ hc,
      Or.inl ⟨h, _, getElem?_pickAt _ _ hw, rfl⟩, Edge_windows P g he hc hw h⟩
  · exact ⟨_, _, _, getElem?_pickAt _ _ he, getElem?_pickAt _ _ hc,
      Or.inr ⟨h, _, getElem?_pickAt _ _ hm, rfl⟩, Edge_mac P g he hc hm h⟩

/-- Witness for C7: seed 42. -/
theorem Edge_format_witness :
    samplePools.NonEmpty ∧
    (WithSeed 42).rng.next = (45454805674, { state := 45454805674 }) ∧
    xorshift64.next { state := 45454805674 } = (11532217803599905471, { state := 11532217803599905471 }) ∧
    xorshift64.next { state := 11532217803599905471 } = (10021416941527320954, { state := 10021416941527320954 }) ∧
    xorshift64.next { state := 10021416941527320954 } = (2899061411254629736, { state := 2899061411254629736 }) ∧
    ((∃ e c plat,
      samplePools.edgeVersions[45454805674 % samplePools.edgeVersions.length]? = some e ∧
      samplePools.chromeVersions[11532217803599905471 % samplePools.chromeVersions.length]? = some c ∧
      ((10021416941527320954 % 2 = 0 ∧ ∃ w, samplePools.windowsVersions[2899061411254629736 % samplePools.windowsVersions.length]? = some w ∧
          plat = "Windows NT " ++ w ++ "; Win64; x64") ∨
       (10021416941527320954 % 2 = 1 ∧ ∃ m, samplePools.macVersions[2899061411254629736 % samplePools.macVersions.length]? = some m ∧
          plat = "Macintosh; Intel Mac OS X " ++ m)) ∧
      Generator.Edge samplePools (WithSeed 42) = some
        ("Mozilla/5.0 (" ++ plat ++ ") AppleWebKit/537.36 (KHTML, like Gecko) Chrome/" ++ c ++
          " Safari/537.36 Edg/" ++ e, { rng := { state := 2899061411254629736 } })) ∧
    (∀ L : List String,
      Generator.Edge { samplePools with linuxDesktops := L } (WithSeed 42) = Generator.Edge samplePools (WithSeed 42))) :=
  ⟨by decide, rfl, rfl, rfl, rfl,
    Edge_format samplePools (WithSeed 42) (by decide) _ _ _ _ _ _ _ _ rfl rfl rfl rfl⟩

/-- C8 (Safari): with non-empty pools and `r1`, `r2` the two successive values of
`next()`, `Safari()` returns
`Mozilla/5.0 (Macintosh; Intel Mac OS X <m>) AppleWebKit/605.1.15 (KHTML, like Gecko) Version/<v> Safari/605.1.15`
with `v = safariVersions[r1 mod len]` drawn first and `m = macVersions[r2 mod len]`
second; both engine tokens are the constant `webkitVersion`. -/
theorem Safari_format (P : Pools) (g : Generator) (hP : P.NonEmpty)
    (r1 r2 : Nat) (x1 x2 : xorshift64)
    (h1 : g.rng.next = (r1, x1)) (h2 : x1.next = (r2, x2)) :
    webkitVersion = "605.1.15" ∧
    ∃ v m,
      P.safariVersions[r1 % P.safariVersions.length]? = some v ∧
      P.macVersions[r2 % P.macVersions.length]? = some m ∧
      Generator.Safari P g = some
        ("Mozilla/5.0 (Macintosh; Intel Mac OS X " ++ m ++
          ") AppleWebKit/605.1.15 (KHTML, like Gecko) Version/" ++ v ++ " Safari/605.1.15",
          { rng := x2 }) ∧
      Generator.Safari P g = some
        ("Mozilla/5.0 (Macintosh; Intel Mac OS X " ++ m ++ ") AppleWebKit/" ++ webkitVersion ++
          " (KHTML, like Gecko) Version/" ++ v ++ " Safari/" ++ webkitVersion, { rng := x2 }) := by
  obtain ⟨-, -, hs, -, -, hm, -, -, -, -⟩ := hP
  have a2 : r2 = x1.next.1 := (congrArg Prod.fst h2).symm
  have b2 : x2 = x1.next.2 := (congrArg Prod.snd h2).symm
  subst a2 b2
  have a1 : r1 = g.rng.next.1 := (congrArg Prod.fst h1).symm
  have b1 : x1 = g.rng.next.2 := (congrArg Prod.snd h1).symm
  subst a1 b1
  refine ⟨rfl, _, _, getElem?_pickAt _ _ hs, getElem?_pickAt _ _ hm, Safari_eq P g hs hm, ?_⟩
  rw [Safari_eq P g hs hm]
  simp only [webkitVersion, Option.some.injEq, Prod.mk.injEq, and_true]
  apply String.ext
  simp only [String.data_append, List.append_assoc]
  rfl

/-- Witness for C8: seed 42. -/
theorem Safari_format_witness :
    samplePools.NonEmpty ∧
    (WithSeed 42).rng.next = (45454805674, { state := 45454805674 }) ∧
    xorshift64.next { state := 45454805674 } = (11532217803599905471, { state := 11532217803599905471 }) ∧
    (webkitVersion = "605.1.15" ∧
    ∃ v m,
      samplePools.safariVersions[45454805674 % samplePools.safariVersions.length]? = some v ∧
      samplePools.macVersions[11532217803599905471 % samplePools.macVersions.length]? = some m ∧
      Generator.Safari samplePools (WithSeed 42) = some
        ("Mozilla/5.0 (Macintosh; Intel Mac OS X " ++ m ++
          ") AppleWebKit/605.1.15 (KHTML, like Gecko) Version/" ++ v ++ " Safari/605.1.15",
          { rng := { state := 11532217803599905471 } }) ∧
      Generator.Safari samplePools (WithSeed 42) = some
        ("Mozilla/5.0 (Macintosh; Intel Mac OS X " ++ m ++ ") AppleWebKit/" ++ webkitVersion ++
          " (KHTML, like Gecko) Version/" ++ v ++ " Safari/" ++ webkitVersion, { rng := { state := 11532217803599905471 } })) :=
  ⟨by decide, rfl, rfl,
    Safari_format samplePools (WithSeed 42) (by decide) _ _ _ _ rfl rfl⟩

/-- C9 (Safari on iOS): with non-empty pools and `r1`, `r2` the two successive
values of `next()`, `SafariIOS()` returns
`Mozilla/5.0 (iPhone; CPU iPhone OS <i> like Mac OS X) AppleWebKit/605.1.15 (KHTML, like Gecko) Version/<v> Mobile/15E148 Safari/605.1.15`
with `i = iosVersions[r1 mod len]` drawn first and `v = safariVersions[r2 mod len]`
second; from the same state `SafariIPad()` selects the same `i` and `v`, ends in
the same state, and returns the same string with the device clause
`iPad; CPU OS ` in place of `iPhone; CPU iPhone OS `. -/
theorem SafariIOS_format (P : Pools) (g : Generator) (hP : P.NonEmpty)
    (r1 r2 : Nat) (x1 x2 : xorshift64)
    (h1 : g.rng.next = (r1, x1)) (h2 : x1.next = (r2, x2)) :
    ∃ i v rest,
      P.iosVersions[r1 % P.iosVersions.length]? = some i ∧
      P.safariVersions[r2 % P.safariVersions.length]? = some v ∧
      Generator.SafariIOS P g = some
        ("Mozilla/5.0 (iPhone; CPU iPhone OS " ++ i ++
          " like Mac OS X) AppleWebKit/605.1.15 (KHTML, like Gecko) Version/" ++ v ++
          " Mobile/15E148 Safari/605.1.15", { rng := x2 }) ∧
      rest = i ++ " like Mac OS X) AppleWebKit/605.1.15 (KHTML, like Gecko) Version/" ++ v ++
          " Mobile/15E148 Safari/605.1.15" ∧
      Generator.SafariIOS P g = some
        ("Mozilla/5.0 (" ++ "iPhone; CPU iPhone OS " ++ rest, { rng := x2 }) ∧
      Generator.SafariIPad P g = some
        ("Mozilla/5.0 (" ++ "iPad; CPU OS " ++ rest, { rng := x2 }) := by
  obtain ⟨-, -, hs, -, -, -, -, hi, -, -⟩ := hP
  have a2 : r2 = x1.next.1 := (congrArg Prod.fst h2).symm
  have b2 : x2 = x1.next.2 := (congrArg Prod.snd h2).symm
  subst a2 b2
  have a1 : r1 = g.rng.next.1 := (congrArg Prod.fst h1).symm
  have b1 : x1 = g.rng.next.2 := (congrArg Prod.snd h1).symm
  subst a1 b1
  refine ⟨_, _, _, getElem?_pickAt _ _ hi, getElem?_pickAt _ _ hs, ?_, rfl, ?_, ?_⟩
  · rw [SafariIOS_eq P g hi hs]
    simp only [Option.some.injEq, Prod.mk.injEq, and_true]
    apply String.ext
    simp only [String.data_append, List.append_assoc]
    rfl
  · rw [SafariIOS_eq P g hi hs]
    simp only [Option.some.injEq, Prod.mk.injEq, and_true]
    apply String.ext
    simp only [String.data_append, List.append_assoc]
  · rw [SafariIPad_eq P g hi hs]
    simp only [Option.some.injEq, Prod.mk.injEq, and_true]
    apply String.ext
    simp only [String.data_append, List.append_assoc]

/-- Witness for C9: seed 42. -/
theorem SafariIOS_format_witness :
    samplePools.NonEmpty ∧
    (WithSeed 42).rng.next = (45454805674, { state := 45454805674 }) ∧
    xorshift64.next { state := 45454805674 } = (11532217803599905471, { state := 11532217803599905471 }) ∧
    (∃ i v rest,
      samplePools.iosVersions[45454805674 % samplePools.iosVersions.length]? = some i ∧
      samplePools.safariVersions[11532217803599905471 % samplePools.safariVersions.length]? = some v ∧
      Generator.SafariIOS samplePools (WithSeed 42) = some
        ("Mozilla/5.0 (iPhone; CPU iPhone OS " ++ i ++
          " like Mac OS X) AppleWebKit/605.1.15 (KHTML, like Gecko) Version/" ++ v ++
          " Mobile/15E148 Safari/605.1.15", { rng := { state := 11532217803599905471 } }) ∧
      rest = i ++ " like Mac OS X) AppleWebKit/605.1.15 (KHTML, like Gecko) Version/" ++ v ++
          " Mobile/15E148 Safari/605.1.15" ∧
      Generator.SafariIOS samplePools (WithSeed 42) = some
        ("Mozilla/5.0 (" ++ "iPhone; CPU iPhone OS " ++ rest, { rng := { state := 11532217803599905471 } }) ∧
      Generator.SafariIPad samplePools (WithSeed 42) = some
        ("Mozilla/5.0 (" ++ "iPad; CPU OS " ++ rest, { rng := { state := 11532217803599905471 } })) :=
  ⟨by decide, rfl, rfl,
    SafariIOS_format samplePools (WithSeed 42) (by decide) _ _ _ _ rfl rfl⟩

/-- C10 (Chrome on Android): with non-empty pools and `r1`, `r2`, `r3` the three
successive values of `next()`, `ChromeAndroid()` returns
`Mozilla/5.0 (Linux; Android <a>; <model> Build/<build>) AppleWebKit/537.36 (KHTML, like Gecko) Chrome/<c> Mobile Safari/537.36`
with `a = androidVersions[r1 mod len]`, `c = chromeVersions[r2 mod len]` and model
and build the two fields of the one record `androidDevices[r3 mod len]`; from the
same state `AndroidWebView()` and `SamsungBrowser()` select the same fragments,
end in the same state, and differ only by the inserted literals `; wv` with
`Version/4.0 `, and `SamsungBrowser/25.0 `. -/
theorem ChromeAndroid_format (P : Pools) (g : Generator) (hP : P.NonEmpty)
    (r1 r2 r3 : Nat) (x1 x2 x3 : xorshift64)
    (h1 : g.rng.next = (r1, x1)) (h2 : x1.next = (r2, x2)) (h3 : x2.next = (r3, x3)) :
    ∃ a c d pre suf,
      P.androidVersions[r1 % P.androidVersions.length]? = some a ∧
      P.chromeVersions[r2 % P.chromeVersions.length]? = some c ∧
      P.androidDevices[r3 % P.androidDevices.length]? = some d ∧
      Generator.ChromeAndroid P g = some
        ("Mozilla/5.0 (Linux; Android " ++ a ++ "; " ++ d.model ++ " Build/" ++ d.build ++
          ") AppleWebKit/537.36 (KHTML, like Gecko) Chrome/" ++ c ++ " Mobile Safari/537.36",
          { rng := x3 }) ∧
      pre = "Mozilla/5.0 (Linux; Android " ++ a ++ "; " ++ d.model ++ " Build/" ++ d.build ∧
      suf = "Chrome/" ++ c ++ " Mobile Safari/537.36" ∧
      Generator.ChromeAndroid P g = some
        (pre ++ ") AppleWebKit/537.36 (KHTML, like Gecko) " ++ suf, { rng := x3 }) ∧
      Generator.AndroidWebView P g = some
        (pre ++ "; wv" ++ ") AppleWebKit/537.36 (KHTML, like Gecko) " ++ "Version/4.0 " ++ suf,
          { rng := x3 }) ∧
      Generator.SamsungBrowser P g = some
        (pre ++ ") AppleWebKit/537.36 (KHTML, like Gecko) " ++ "SamsungBrowser/25.0 " ++ suf,
          { rng := x3 }) := by
  obtain ⟨hc, -, -, -, -, -, -, -, ha, hd⟩ := hP
  have a3 : r3 = x2.next.1 := (congrArg Prod.fst h3).symm
  have b3 : x3 = x2.next.2 := (congrArg Prod.snd h3).symm
  subst a3 b3
  have a2 : r2 = x1.next.1 := (congrArg Prod.fst h2).symm
  have b2 : x2 = x1.next.2 := (congrArg Prod.snd h2).symm
  subst a2 b2
  have a1 : r1 = g.rng.next.1 := (congrArg Prod.fst h1).symm
  have b1 : x1 = g.rng.next.2 := (congrArg Prod.snd h1).symm
  subst a1 b1
  refine ⟨_, _, _, _, _, getElem?_pickAt _ _ ha, getElem?_pickAt _ _ hc,
    getElem?_pickAt _ _ hd, ?_, rfl, rfl, ?_, ?_, ?_⟩
  · rw [ChromeAndroid_eq P g ha hc hd]
    simp only [Option.some.injEq, Prod.mk.injEq, and_true]
    apply String.ext
    simp only [String.data_append, List.append_assoc]
    rfl
  · rw [ChromeAndroid_eq P g ha hc hd]
    simp only [Option.some.injEq, Prod.mk.injEq, and_true]
    apply String.ext
    simp only [String.data_append, List.append_assoc]
  · rw [AndroidWebView_eq P g ha hc hd]
    simp only [Option.some.injEq, Prod.mk.injEq, and_true]
    apply String.ext
    simp only [String.data_append, List.append_assoc]
  · rw [SamsungBrowser_eq P g ha hc hd]
    simp only [Option.some.injEq, Prod.mk.injEq, and_true]
    apply String.ext
    simp only [String.data_append, List.append_assoc]

/-- Witness for C10: seed 42. -/
theorem ChromeAndroid_format_witness :
    samplePools.NonEmpty ∧
    (WithSeed 42).rng.next = (45454805674, { state := 45454805674 }) ∧
    xorshift64.next { state := 45454805674 } = (11532217803599905471, { state := 11532217803599905471 }) ∧
    xorshift64.next { state := 11532217803599905471 } = (10021416941527320954, { state := 10021416941527320954 }) ∧
    (∃ a c d pre suf,
      samplePools.androidVersions[45454805674 % samplePools.androidVersions.length]? = some a ∧
      samplePools.chromeVersions[11532217803599905471 % samplePools.chromeVersions.length]? = some c ∧
      samplePools.androidDevices[10021416941527320954 % samplePools.androidDevices.length]? = some d ∧
      Generator.ChromeAndroid samplePools (WithSeed 42) = some
        ("Mozilla/5.0 (Linux; Android " ++ a ++ "; " ++ d.model ++ " Build/" ++ d.build ++
          ") AppleWebKit/537.36 (KHTML, like Gecko) Chrome/" ++ c ++ " Mobile Safari/537.36",
          { rng := { state := 10021416941527320954 } }) ∧
      pre = "Mozilla/5.0 (Linux; Android " ++ a ++ "; " ++ d.model ++ " Build/" ++ d.build ∧
      suf = "Chrome/" ++ c ++ " Mobile Safari/537.36" ∧
      Generator.ChromeAndroid samplePools (WithSeed 42) = some
        (pre ++ ") AppleWebKit/537.36 (KHTML, like Gecko) " ++ suf, { rng := { state := 10021416941527320954 } }) ∧
      Generator.AndroidWebView samplePools (WithSeed 42) = some
        (pre ++ "; wv" ++ ") AppleWebKit/537.36 (KHTML, like Gecko) " ++ "Version/4.0 " ++ suf,
          { rng := { state := 10021416941527320954 } }) ∧
      Generator.SamsungBrowser samplePools (WithSeed 42) = some
        (pre ++ ") AppleWebKit/537.36 (KHTML, like Gecko) " ++ "SamsungBrowser/25.0 " ++ suf,
          { rng := { state := 10021416941527320954 } })) :=
  ⟨by decide, rfl, rfl, rfl,
    ChromeAndroid_format samplePools (WithSeed 42) (by decide) _ _ _ _ _ _ rfl rfl rfl⟩

/-! ## The state transition as a linear map on 64-bit words -/

theorem next_eq_step (x : xorshift64) :
    x.next = (xorshift64.step x.state, { state := xorshift64.step x.state }) := rfl

theorem xorShiftLeft_xor (k a b : Nat) :
    xorShiftLeft k (a ^^^ b) = xorShiftLeft k a ^^^ xorShiftLeft k b := by
  apply Nat.eq_of_testBit_eq
  intro i
  simp only [xorShiftLeft, Nat.testBit_xor, Nat.testBit_mod_two_pow, Nat.testBit_shiftLeft]
  cases a.testBit i <;> cases b.testBit i <;> cases decide (i < 64) <;> cases decide (i ≥ k) <;>
    cases a.testBit (i - k) <;> cases b.testBit (i - k) <;> rfl

theorem xorShiftRight_xor (k a b : Nat) :
    xorShiftRight k (a ^^^ b) = xorShiftRight k a ^^^ xorShiftRight k b := by
  apply Nat.eq_of_testBit_eq
  intro i
  simp only [xorShiftRight, Nat.testBit_xor, Nat.testBit_shiftRight]
  cases a.testBit i <;> cases b.testBit i <;>
    cases a.testBit (k + i) <;> cases b.testBit (k + i) <;> rfl

theorem xorShiftLeft_lt (k a : Nat) (h : a < 2 ^ 64) : xorShiftLeft k a < 2 ^ 64 :=
  Nat.xor_lt_two_pow h (Nat.mod_lt _ (by decide))

theorem xorShiftRight_lt (k a : Nat) (h : a < 2 ^ 64) : xorShiftRight k a < 2 ^ 64 := by
  apply Nat.xor_lt_two_pow h
  rw [Nat.shiftRight_eq_div_pow]
  exact Nat.lt_of_le_of_lt (Nat.div_le_self _ _) h

theorem step_xor (a b : Nat) :
    xorshift64.step (a ^^^ b) = xorshift64.step a ^^^ xorshift64.step b := by
  simp only [xorshift64.step, xorShiftLeft_xor, xorShiftRight_xor]

theorem unstep_xor (a b : Nat) :
    xorshift64.unstep (a ^^^ b) = xorshift64.unstep a ^^^ xorshift64.unstep b := by
  simp only [xorshift64.unstep, xorShiftLeft_xor, xorShiftRight_xor]

theorem step_lt (a : Nat) (h : a < 2 ^ 64) : xorshift64.step a < 2 ^ 64 :=
  xorShiftLeft_lt _ _ (xorShiftRight_lt _ _ (xorShiftLeft_lt _ _ h))

/-- A map that respects xor sends 0 to 0. -/
theorem xor_hom_zero (f : Nat → Nat) (hf : ∀ a b, f (a ^^^ b) = f a ^^^ f b) : f 0 = 0 := by
  have h := hf 0 0
  rw [Nat.xor_self] at h
  have h2 : f 0 ^^^ f 0 = 0 := Nat.xor_self _
  rw [← h] at h2
  exact h2

theorem split_top_bit (n v : Nat) (h : v < 2 ^ (n + 1)) (hb : v.testBit n = true) :
    v = (v % 2 ^ n) ^^^ 2 ^ n := by
  apply Nat.eq_of_testBit_eq
  intro i
  simp only [Nat.testBit_xor, Nat.testBit_mod_two_pow, Nat.testBit_two_pow]
  rcases Nat.lt_trichotomy i n with hlt | heq | hgt
  · have h1 : decide (i < n) = true := decide_eq_true hlt
    have h2 : decide (n = i) = false := decide_eq_false (by omega)
    rw [h1, h2]; simp
  · subst heq
    have h1 : decide (i < i) = false := decide_eq_false (by omega)
    rw [h1, hb]; simp
  · have h1 : decide (i < n) = false := decide_eq_false (by omega)
    have h2 : decide (n = i) = false := decide_eq_false (by omega)
    have h3 : v.testBit i = false :=
      Nat.testBit_lt_two_pow (Nat.lt_of_lt_of_le h (Nat.pow_le_pow_right (by decide) hgt))
    rw [h1, h2, h3]; simp

/-- Two maps that respect xor and agree on the words `2 ^ i`, `i < n`, agree on
every word below `2 ^ n`. -/
theorem xor_hom_ext (f g : Nat → Nat) (hf : ∀ a b, f (a ^^^ b) = f a ^^^ f b)
    (hg : ∀ a b, g (a ^^^ b) = g a ^^^ g b) (n : Nat)
    (h : ∀ i, i < n → f (2 ^ i) = g (2 ^ i)) : ∀ v, v < 2 ^ n → f v = g v := by
  induction n with
  | zero =>
    intro v hv
    have : v = 0 := by omega
    subst this
    rw [xor_hom_zero f hf, xor_hom_zero g hg]
  | succ n ih =>
    intro v hv
    have ih1 := ih (fun i hi => h i (Nat.lt_succ_of_lt hi))
    cases hb : v.testBit n with
    | false =>
      have hlt : v < 2 ^ n := by
        apply Nat.lt_pow_two_of_testBit
        intro i hi
        rcases Nat.eq_or_lt_of_le hi with heq | hgt
        · rw [← heq]; exact hb
        · exact Nat.testBit_lt_two_pow
            (Nat.lt_of_lt_of_le hv (Nat.pow_le_pow_right (by decide) hgt))
      exact ih1 v hlt
    | true =>
      rw [split_top_bit n v hv hb, hf, hg, ih1 _ (Nat.mod_lt _ (Nat.two_pow_pos n)),
        h n (Nat.lt_succ_self n)]

set_option maxRecDepth 100000 in
theorem unstep_step_basis : ∀ i, i < 64 → xorshift64.unstep (xorshift64.step (2 ^ i)) = 2 ^ i := by
  decide!

set_option maxRecDepth 100000 in
theorem step_unstep_basis : ∀ i, i < 64 → xorshift64.step (xorshift64.unstep (2 ^ i)) = 2 ^ i := by
  decide!

theorem unstep_step (v : Nat) (h : v < 2 ^ 64) : xorshift64.unstep (xorshift64.step v) = v :=
  xor_hom_ext (fun v => xorshift64.unstep (xorshift64.step v)) id
    (fun a b => by simp only [step_xor, unstep_xor]) (fun a b => rfl) 64
    unstep_step_basis v h

theorem step_unstep (v : Nat) (h : v < 2 ^ 64) : xorshift64.step (xorshift64.unstep v) = v :=
  xor_hom_ext (fun v => xorshift64.step (xorshift64.unstep v)) id
    (fun a b => by simp only [step_xor, unstep_xor]) (fun a b => rfl) 64
    step_unstep_basis v h

theorem unstep_lt (a : Nat) (h : a < 2 ^ 64) : xorshift64.unstep a < 2 ^ 64 := by
  unfold xorshift64.unstep
  repeat (first | apply xorShiftLeft_lt | apply xorShiftRight_lt)
  exact h

theorem step_zero : xorshift64.step 0 = 0 := by decide

theorem step_ne_zero (v : Nat) (h : v < 2 ^ 64) (hv : v ≠ 0) : xorshift64.step v ≠ 0 := by
  intro h0
  apply hv
  have := unstep_step v h
  rw [h0] at this
  rw [← this]
  decide

/-! ## The state after a call, whatever the pools contain -/

theorem pick_eq_dite {α : Type} (x : xorshift64) (s : List α) :
    pick x s = if h : 0 < s.length then some (pickAt s x.next.1 h, x.next.2) else none := by
  by_cases h : 0 < s.length
  · rw [dif_pos h, pick_eq x s h]
  · rw [dif_neg h]
    have h0 : s = [] := by
      cases s with
      | nil => rfl
      | cons a t => exact absurd (Nat.succ_pos _) h
    subst h0
    rfl

theorem nextN_one (x : xorshift64) : x.nextN 1 = x.next.2 := rfl

theorem nextN_two (x : xorshift64) : x.nextN 2 = x.next.2.next.2 := rfl

theorem nextN_three (x : xorshift64) : x.nextN 3 = x.next.2.next.2.next.2 := rfl

theorem nextN_four (x : xorshift64) : x.nextN 4 = x.next.2.next.2.next.2.next.2 := rfl

theorem nextN_succ (n : Nat) (x : xorshift64) : x.nextN (n + 1) = x.next.2.nextN n := rfl

theorem ChromeWindows_state (P : Pools) (g g1 : Generator) (s : String)
    (h : g.ChromeWindows P = some (s, g1)) : g1.rng = g.rng.nextN 2 := by
  unfold Generator.ChromeWindows at h
  simp only [pick_eq_dite, Option.bind_eq_bind, Option.pure_def] at h
  split_ifs at h <;>
    simp only [Option.some_bind, Option.none_bind, Option.some.injEq, Prod.mk.injEq,
      reduceCtorEq] at h
  rw [← h.2, nextN_two]

theorem ChromeMac_state (P : Pools) (g g1 : Generator) (s : String)
    (h : g.ChromeMac P = some (s, g1)) : g1.rng = g.rng.nextN 2 := by
  unfold Generator.ChromeMac at h
  simp only [pick_eq_dite, Option.bind_eq_bind, Option.pure_def] at h
  split_ifs at h <;>
    simp only [Option.some_bind, Option.none_bind, Option.some.injEq, Prod.mk.injEq,
      reduceCtorEq] at h
  rw [← h.2, nextN_two]

theorem ChromeLinux_state (P : Pools) (g g1 : Generator) (s : String)
    (h : g.ChromeLinux P = some (s, g1)) : g1.rng = g.rng.nextN 2 := by
  unfold Generator.ChromeLinux at h
  simp only [pick_eq_dite, Option.bind_eq_bind, Option.pure_def] at h
  split_ifs at h <;>
    simp only [Option.some_bind, Option.none_bind, Option.some.injEq, Prod.mk.injEq,
      reduceCtorEq] at h
  rw [← h.2, nextN_two]

theorem FirefoxWindows_state (P : Pools) (g g1 : Generator) (s : String)
    (h : g.FirefoxWindows P = some (s, g1)) : g1.rng = g.rng.nextN 2 := by
  unfold Generator.FirefoxWindows at h
  simp only [pick_eq_dite, Option.bind_eq_bind, Option.pure_def] at h
  split_ifs at h <;>
    simp only [Option.some_bind, Option.none_bind, Option.some.injEq, Prod.mk.injEq,
      reduceCtorEq] at h
  rw [← h.2, nextN_two]

theorem FirefoxMac_state (P : Pools) (g g1 : Generator) (s : String)
    (h : g.FirefoxMac P = some (s, g1)) : g1.rng = g.rng.nextN 2 := by
  unfold Generator.FirefoxMac at h
  simp only [pick_eq_dite, Option.bind_eq_bind, Option.pure_def] at h
  split_ifs at h <;>
    simp only [Option.some_bind, Option.none_bind, Option.some.injEq, Prod.mk.injEq,
      reduceCtorEq] at h
  rw [← h.2, nextN_two]

theorem Safari_state (P : Pools) (g g1 : Generator) (s : String)
    (h : g.Safari P = some (s, g1)) : g1.rng = g.rng.nextN 2 := by
  unfold Generator.Safari at h
  simp only [pick_eq_dite, Option.bind_eq_bind, Option.pure_def] at h
  split_ifs at h <;>
    simp only [Option.some_bind, Option.none_bind, Option.some.injEq, Prod.mk.injEq,
      reduceCtorEq] at h
  rw [← h.2, nextN_two]

theorem EdgeWindows_state (P : Pools) (g g1 : Generator) (s : String)
    (h : g.EdgeWindows P = some (s, g1)) : g1.rng = g.rng.nextN 3 := by
  unfold Generator.EdgeWindows at h
  simp only [pick_eq_dite, Option.bind_eq_bind, Option.pure_def] at h
  split_ifs at h <;>
    simp only [Option.some_bind, Option.none_bind, Option.some.injEq, Prod.mk.injEq,
      reduceCtorEq] at h
  rw [← h.2, nextN_three]

theorem SafariIOS_state (P : Pools) (g g1 : Generator) (s : String)
    (h : g.SafariIOS P = some (s, g1)) : g1.rng = g.rng.nextN 2 := by
  unfold Generator.SafariIOS at h
  simp only [pick_eq_dite, Option.bind_eq_bind, Option.pure_def] at h
  split_ifs at h <;>
    simp only [Option.some_bind, Option.none_bind, Option.some.injEq, Prod.mk.injEq,
      reduceCtorEq] at h
  rw [← h.2, nextN_two]

theorem SafariIPad_state (P : Pools) (g g1 : Generator) (s : String)
    (h : g.SafariIPad P = some (s, g1)) : g1.rng = g.rng.nextN 2 := by
  unfold Generator.SafariIPad at h
  simp only [pick_eq_dite, Option.bind_eq_bind, Option.pure_def] at h
  split_ifs at h <;>
    simp only [Option.some_bind, Option.none_bind, Option.some.injEq, Prod.mk.injEq,
      reduceCtorEq] at h
  rw [← h.2, nextN_two]

theorem ChromeIOS_state (P : Pools) (g g1 : Generator) (s : String)
    (h : g.ChromeIOS P = some (s, g1)) : g1.rng = g.rng.nextN 2 := by
  unfold Generator.ChromeIOS at h
  simp only [pick_eq_dite, Option.bind_eq_bind, Option.pure_def] at h
  split_ifs at h <;>
    simp only [Option.some_bind, Option.none_bind, Option.some.injEq, Prod.mk.injEq,
      reduceCtorEq] at h
  rw [← h.2, nextN_two]

theorem ChromeAndroid_state (P : Pools) (g g1 : Generator) (s : String)
    (h : g.ChromeAndroid P = some (s, g1)) : g1.rng = g.rng.nextN 3 := by
  unfold Generator.ChromeAndroid at h
  simp only [pick_eq_dite, Option.bind_eq_bind, Option.pure_def] at h
  split_ifs at h <;>
    simp only [Option.some_bind, Option.none_bind, Option.some.injEq, Prod.mk.injEq,
      reduceCtorEq] at h
  rw [← h.2, nextN_three]

theorem AndroidWebView_state (P : Pools) (g g1 : Generator) (s : String)
    (h : g.AndroidWebView P = some (s, g1)) : g1.rng = g.rng.nextN 3 := by
  unfold Generator.AndroidWebView at h
  simp only [pick_eq_dite, Option.bind_eq_bind, Option.pure_def] at h
  split_ifs at h <;>
    simp only [Option.some_bind, Option.none_bind, Option.some.injEq, Prod.mk.injEq,
      reduceCtorEq] at h
  rw [← h.2, nextN_three]

theorem FirefoxAndroid_state (P : Pools) (g g1 : Generator) (s : String)
    (h : g.FirefoxAndroid P = some (s, g1)) : g1.rng = g.rng.nextN 2 := by
  unfold Generator.FirefoxAndroid at h
  simp only [pick_eq_dite, Option.bind_eq_bind, Option.pure_def] at h
  split_ifs at h <;>
    simp only [Option.some_bind, Option.none_bind, Option.some.injEq, Prod.mk.injEq,
      reduceCtorEq] at h
  rw [← h.2, nextN_two]

theorem SamsungBrowser_state (P : Pools) (g g1 : Generator) (s : String)
    (h : g.SamsungBrowser P = some (s, g1)) : g1.rng = g.rng.nextN 3 := by
  unfold Generator.SamsungBrowser at h
  simp only [pick_eq_dite, Option.bind_eq_bind, Option.pure_def] at h
  split_ifs at h <;>
    simp only [Option.some_bind, Option.none_bind, Option.some.injEq, Prod.mk.injEq,
      reduceCtorEq] at h
  rw [← h.2, nextN_three]

theorem EdgeAndroid_state (P : Pools) (g g1 : Generator) (s : String)
    (h : g.EdgeAndroid P = some (s, g1)) : g1.rng = g.rng.nextN 4 := by
  unfold Generator.EdgeAndroid at h
  simp only [pick_eq_dite, Option.bind_eq_bind, Option.pure_def] at h
  split_ifs at h <;>
    simp only [Option.some_bind, Option.none_bind, Option.some.injEq, Prod.mk.injEq,
      reduceCtorEq] at h
  rw [← h.2, nextN_four]

theorem Chrome_state (P : Pools) (g g1 : Generator) (s : String)
    (h : g.Chrome P = some (s, g1)) : g1.rng = g.rng.nextN 3 := by
  unfold Generator.Chrome at h
  simp only [pick_eq_dite, intn_three, Option.bind_eq_bind, Option.pure_def] at h
  by_cases hc : 0 < P.chromeVersions.length
  · simp only [dif_pos hc, Option.some_bind] at h
    rcases mod_three_cases g.rng.next.2.next.1 with h3 | h3 | h3
    · rw [h3] at h
      simp only [Int.ofNat_eq_coe, Nat.cast_zero, if_true] at h
      by_cases hp : 0 < P.windowsVersions.length
      · simp only [dif_pos hp, Option.some_bind, Option.some.injEq, Prod.mk.injEq] at h
        rw [← h.2, nextN_three]
      · simp only [dif_neg hp, Option.none_bind, reduceCtorEq] at h
    · rw [h3] at h
      simp only [Int.ofNat_eq_coe, Nat.cast_one, one_ne_zero, if_false, if_true] at h
      by_cases hp : 0 < P.macVersions.length
      · simp only [dif_pos hp, Option.some_bind, Option.some.injEq, Prod.mk.injEq] at h
        rw [← h.2, nextN_three]
      · simp only [dif_neg hp, Option.none_bind, reduceCtorEq] at h
    · rw [h3] at h
      simp only [Int.ofNat_eq_coe, Nat.cast_ofNat, OfNat.ofNat_ne_zero, OfNat.ofNat_ne_one, if_false, if_true] at h
      by_cases hp : 0 < P.linuxDesktops.length
      · simp only [dif_pos hp, Option.some_bind, Option.some.injEq, Prod.mk.injEq] at h
        rw [← h.2, nextN_three]
      · simp only [dif_neg hp, Option.none_bind, reduceCtorEq] at h
  · simp only [dif_neg hc, Option.none_bind, reduceCtorEq] at h

theorem Firefox_state (P : Pools) (g g1 : Generator) (s : String)
    (h : g.Firefox P = some (s, g1)) : g1.rng = g.rng.nextN 3 := by
  unfold Generator.Firefox at h
  simp only [pick_eq_dite, intn_three, Option.bind_eq_bind, Option.pure_def] at h
  by_cases hc : 0 < P.firefoxVersions.length
  · simp only [dif_pos hc, Option.some_bind] at h
    rcases mod_three_cases g.rng.next.2.next.1 with h3 | h3 | h3
    · rw [h3] at h
      simp only [Int.ofNat_eq_coe, Nat.cast_zero, if_true] at h
      by_cases hp : 0 < P.windowsVersions.length
      · simp only [dif_pos hp, Option.some_bind, Option.some.injEq, Prod.mk.injEq] at h
        rw [← h.2, nextN_three]
      · simp only [dif_neg hp, Option.none_bind, reduceCtorEq] at h
    · rw [h3] at h
      simp only [Int.ofNat_eq_coe, Nat.cast_one, one_ne_zero, if_false, if_true] at h
      by_cases hp : 0 < P.macVersions.length
      · simp only [dif_pos hp, Option.some_bind, Option.some.injEq, Prod.mk.injEq] at h
        rw [← h.2, nextN_three]
      · simp only [dif_neg hp, Option.none_bind, reduceCtorEq] at h
    · rw [h3] at h
      simp only [Int.ofNat_eq_coe, Nat.cast_ofNat, OfNat.ofNat_ne_zero, OfNat.ofNat_ne_one, if_false, if_true] at h
      by_cases hp : 0 < P.linuxDesktops.length
      · simp only [dif_pos hp, Option.some_bind, Option.some.injEq, Prod.mk.injEq] at h
        rw [← h.2, nextN_three]
      · simp only [dif_neg hp, Option.none_bind, reduceCtorEq] at h
  · simp only [dif_neg hc, Option.none_bind, reduceCtorEq] at h

theorem Edge_state (P : Pools) (g g1 : Generator) (s : String)
    (h : g.Edge P = some (s, g1)) : g1.rng = g.rng.nextN 4 := by
  unfold Generator.Edge at h
  simp only [pick_eq_dite, intn_two, Option.bind_eq_bind, Option.pure_def] at h
  by_cases he : 0 < P.edgeVersions.length
  · simp only [dif_pos he, Option.some_bind] at h
    by_cases hc : 0 < P.chromeVersions.length
    · simp only [dif_pos hc, Option.some_bind] at h
      rcases mod_two_cases g.rng.next.2.next.2.next.1 with h3 | h3
      · rw [h3] at h
        simp only [Int.ofNat_eq_coe, Nat.cast_zero, if_true] at h
        by_cases hp : 0 < P.windowsVersions.length
        · simp only [dif_pos hp, Option.some_bind, Option.some.injEq, Prod.mk.injEq] at h
          rw [← h.2, nextN_four]
        · simp only [dif_neg hp, Option.none_bind, reduceCtorEq] at h
      · rw [h3] at h
        simp only [Int.ofNat_eq_coe, Nat.cast_one, one_ne_zero, if_false, if_true] at h
        by_cases hp : 0 < P.macVersions.length
        · simp only [dif_pos hp, Option.some_bind, Option.some.injEq, Prod.mk.injEq] at h
          rw [← h.2, nextN_four]
        · simp only [dif_neg hp, Option.none_bind, reduceCtorEq] at h
    · simp only [dif_neg hc, Option.none_bind, reduceCtorEq] at h
  · simp only [dif_neg he, Option.none_bind, reduceCtorEq] at h

theorem RandomBot_state (g g1 : Generator) (s : String)
    (h : g.RandomBot = some (s, g1)) : g1.rng = g.rng.nextN 1 := by
  obtain ⟨s1, h1⟩ := RandomBot_some g
  rw [h1] at h
  simp only [Option.some.injEq, Prod.mk.injEq] at h
  rw [← h.2, nextN_one]

theorem RandomDesktop_eq (P : Pools) (g : Generator) :
    g.RandomDesktop P =
      if g.rng.next.1 % 4 = 0 then Generator.Chrome P { rng := g.rng.next.2 }
      else if g.rng.next.1 % 4 = 1 then Generator.Firefox P { rng := g.rng.next.2 }
      else if g.rng.next.1 % 4 = 2 then Generator.Safari P { rng := g.rng.next.2 }
      else Generator.Edge P { rng := g.rng.next.2 } := by
  unfold Generator.RandomDesktop
  rw [intn_four]
  rcases mod_four_cases g.rng.next.1 with h | h | h | h <;> rw [h] <;> rfl

theorem RandomMobile_eq (P : Pools) (g : Generator) :
    g.RandomMobile P =
      if g.rng.next.1 % 4 = 0 then Generator.SafariIOS P { rng := g.rng.next.2 }
      else if g.rng.next.1 % 4 = 1 then Generator.ChromeAndroid P { rng := g.rng.next.2 }
      else if g.rng.next.1 % 4 = 2 then Generator.ChromeIOS P { rng := g.rng.next.2 }
      else Generator.AndroidWebView P { rng := g.rng.next.2 } := by
  unfold Generator.RandomMobile
  rw [intn_four]
  rcases mod_four_cases g.rng.next.1 with h | h | h | h <;> rw [h] <;> rfl

theorem Random_eq (P : Pools) (g : Generator) :
    g.Random P =
      if g.rng.next.1 % 3 = 0 then Generator.RandomDesktop P { rng := g.rng.next.2 }
      else if g.rng.next.1 % 3 = 1 then Generator.RandomMobile P { rng := g.rng.next.2 }
      else Generator.RandomBot { rng := g.rng.next.2 } := by
  unfold Generator.Random
  rw [intn_three]
  rcases mod_three_cases g.rng.next.1 with h | h | h <;> rw [h] <;> rfl

theorem RandomDesktop_state (P : Pools) (g g1 : Generator) (s : String)
    (h : g.RandomDesktop P = some (s, g1)) :
    ∃ k, 3 ≤ k ∧ k ≤ 5 ∧ g1.rng = g.rng.nextN k := by
  rw [RandomDesktop_eq] at h
  split_ifs at h
  · exact ⟨4, by decide, by decide, by rw [Chrome_state P _ g1 s h]; rfl⟩
  · exact ⟨4, by decide, by decide, by rw [Firefox_state P _ g1 s h]; rfl⟩
  · exact ⟨3, by decide, by decide, by rw [Safari_state P _ g1 s h]; rfl⟩
  · exact ⟨5, by decide, by decide, by rw [Edge_state P _ g1 s h]; rfl⟩

theorem RandomMobile_state (P : Pools) (g g1 : Generator) (s : String)
    (h : g.RandomMobile P = some (s, g1)) :
    ∃ k, 3 ≤ k ∧ k ≤ 4 ∧ g1.rng = g.rng.nextN k := by
  rw [RandomMobile_eq] at h
  split_ifs at h
  · exact ⟨3, by decide, by decide, by rw [SafariIOS_state P _ g1 s h]; rfl⟩
  · exact ⟨4, by decide, by decide, by rw [ChromeAndroid_state P _ g1 s h]; rfl⟩
  · exact ⟨3, by decide, by decide, by rw [ChromeIOS_state P _ g1 s h]; rfl⟩
  · exact ⟨4, by decide, by decide, by rw [AndroidWebView_state P _ g1 s h]; rfl⟩

theorem Random_state (P : Pools) (g g1 : Generator) (s : String)
    (h : g.Random P = some (s, g1)) :
    ∃ k, 2 ≤ k ∧ k ≤ 6 ∧ g1.rng = g.rng.nextN k := by
  rw [Random_eq] at h
  split_ifs at h
  · obtain ⟨k, h1, h2, h3⟩ := RandomDesktop_state P _ g1 s h
    exact ⟨k + 1, by omega, by omega, by rw [h3]; rfl⟩
  · obtain ⟨k, h1, h2, h3⟩ := RandomMobile_state P _ g1 s h
    exact ⟨k + 1, by omega, by omega, by rw [h3]; rfl⟩
  · exact ⟨2, by decide, by decide, by rw [RandomBot_state _ g1 s h]; rfl⟩

/-- A call that returns has advanced the PRNG by between one and six draws. -/
theorem call_state (P : Pools) (m : Method) (g g1 : Generator) (s : String)
    (h : g.call P m = some (s, g1)) :
    ∃ k, 1 ≤ k ∧ k ≤ 6 ∧ g1.rng = g.rng.nextN k := by
  cases m
  case Chrome => exact ⟨3, by decide, by decide, Chrome_state P g g1 s h⟩
  case ChromeWindows => exact ⟨2, by decide, by decide, ChromeWindows_state P g g1 s h⟩
  case ChromeMac => exact ⟨2, by decide, by decide, ChromeMac_state P g g1 s h⟩
  case ChromeLinux => exact ⟨2, by decide, by decide, ChromeLinux_state P g g1 s h⟩
  case Firefox => exact ⟨3, by decide, by decide, Firefox_state P g g1 s h⟩
  case FirefoxWindows => exact ⟨2, by decide, by decide, FirefoxWindows_state P g g1 s h⟩
  case FirefoxMac => exact ⟨2, by decide, by decide, FirefoxMac_state P g g1 s h⟩
  case Safari => exact ⟨2, by decide, by decide, Safari_state P g g1 s h⟩
  case Edge => exact ⟨4, by decide, by decide, Edge_state P g g1 s h⟩
  case EdgeWindows => exact ⟨3, by decide, by decide, EdgeWindows_state P g g1 s h⟩
  case SafariIOS => exact ⟨2, by decide, by decide, SafariIOS_state P g g1 s h⟩
  case SafariIPad => exact ⟨2, by decide, by decide, SafariIPad_state P g g1 s h⟩
  case ChromeIOS => exact ⟨2, by decide, by decide, ChromeIOS_state P g g1 s h⟩
  case ChromeAndroid => exact ⟨3, by decide, by decide, ChromeAndroid_state P g g1 s h⟩
  case AndroidWebView => exact ⟨3, by decide, by decide, AndroidWebView_state P g g1 s h⟩
  case FirefoxAndroid => exact ⟨2, by decide, by decide, FirefoxAndroid_state P g g1 s h⟩
  case SamsungBrowser => exact ⟨3, by decide, by decide, SamsungBrowser_state P g g1 s h⟩
  case EdgeAndroid => exact ⟨4, by decide, by decide, EdgeAndroid_state P g g1 s h⟩
  case Random =>
    obtain ⟨k, h1, h2, h3⟩ := Random_state P g g1 s h
    exact ⟨k, by omega, h2, h3⟩
  case RandomDesktop =>
    obtain ⟨k, h1, h2, h3⟩ := RandomDesktop_state P g g1 s h
    exact ⟨k, by omega, by omega, h3⟩
  case RandomMobile =>
    obtain ⟨k, h1, h2, h3⟩ := RandomMobile_state P g g1 s h
    exact ⟨k, by omega, by omega, h3⟩
  case RandomBot => exact ⟨1, by decide, by decide, RandomBot_state g g1 s h⟩

/-! ## Bot identities -/

/-- C11 (bot constants): each of the 22 bot accessors is the fixed constant it
returns (it takes no argument and no generator state, so every call gives the
same string), and that string contains the accessor's defining token. -/
theorem bot_accessors_constant :
    (Googlebot = googlebotUA ∧ Contains Googlebot "Googlebot") ∧
    (GooglebotMobile = googlebotMobileUA ∧ Contains GooglebotMobile "Googlebot") ∧
    (Bingbot = bingbotUA ∧ Contains Bingbot "bingbot") ∧
    (BingbotMobile = bingbotMobileUA ∧ Contains BingbotMobile "bingbot") ∧
    (YandexBot = yandexBotUA ∧ Contains YandexBot "YandexBot") ∧
    (YandexBotMobile = yandexBotMobileUA ∧ Contains YandexBotMobile "YandexBot") ∧
    (Baiduspider = baiduspiderUA ∧ Contains Baiduspider "Baiduspider") ∧
    (DuckDuckBot = duckduckbotUA ∧ Contains DuckDuckBot "DuckDuckBot") ∧
    (FacebookBot = facebookBotUA ∧ Contains FacebookBot "facebookexternalhit") ∧
    (TwitterBot = twitterBotUA ∧ Contains TwitterBot "Twitterbot") ∧
    (LinkedInBot = linkedinBotUA ∧ Contains LinkedInBot "LinkedInBot") ∧
    (SlackBot = slackBotUA ∧ Contains SlackBot "Slackbot") ∧
    (TelegramBot = telegramBotUA ∧ Contains TelegramBot "TelegramBot") ∧
    (DiscordBot = discordBotUA ∧ Contains DiscordBot "Discordbot") ∧
    (WhatsAppBot = whatsappBotUA ∧ Contains WhatsAppBot "WhatsApp") ∧
    (PinterestBot = pinterestBotUA ∧ Contains PinterestBot "Pinterest") ∧
    (AhrefsBot = ahrefsBotUA ∧ Contains AhrefsBot "AhrefsBot") ∧
    (SemrushBot = semrushBotUA ∧ Contains SemrushBot "SemrushBot") ∧
    (MozBot = mozBotUA ∧ Contains MozBot "DotBot") ∧
    (MajesticBot = majesticBotUA ∧ Contains MajesticBot "MJ12bot") ∧
    (ScreamingFrogBot = screaminFrogBotUA ∧ Contains ScreamingFrogBot "Screaming Frog") ∧
    (SitebulbBot = sitebulbBotUA ∧ Contains SitebulbBot "Sitebulb") :=
  ⟨
    ⟨rfl, "Mozilla/5.0 (compatible; ".data, "/2.1; +http://www.google.com/bot.html)".data, rfl⟩,
    ⟨rfl, "Mozilla/5.0 (Linux; Android 6.0.1; Nexus 5X Build/MMB29P) AppleWebKit/537.36 (KHTML, like Gecko) Chrome/131.0.6778.85 Mobile Safari/537.36 (compatible; ".data, "/2.1; +http://www.google.com/bot.html)".data, rfl⟩,
    ⟨rfl, "Mozilla/5.0 (compatible; ".data, "/2.0; +http://www.bing.com/bingbot.htm)".data, rfl⟩,
    ⟨rfl, "Mozilla/5.0 (Linux; Android 6.0.1; Nexus 5X Build/MMB29P) AppleWebKit/537.36 (KHTML, like Gecko) Chrome/131.0.6778.85 Mobile Safari/537.36 (compatible; ".data, "/2.0; +http://www.bing.com/bingbot.htm)".data, rfl⟩,
    ⟨rfl, "Mozilla/5.0 (compatible; ".data, "/3.0; +http://yandex.com/bots)".data, rfl⟩,
    ⟨rfl, "Mozilla/5.0 (Linux; Android 6.0.1; Nexus 5X Build/MMB29P) AppleWebKit/537.36 (KHTML, like Gecko) Chrome/131.0.6778.85 Mobile Safari/537.36 (compatible; ".data, "/3.0; +http://yandex.com/bots)".data, rfl⟩,
    ⟨rfl, "Mozilla/5.0 (compatible; ".data, "/2.0; +http://www.baidu.com/search/spider.html)".data, rfl⟩,
    ⟨rfl, "".data, "/1.1; (+http://duckduckgo.com/duckduckbot.html)".data, rfl⟩,
    ⟨rfl, "".data, "/1.1 (+http://www.facebook.com/externalhit_uatext.php)".data, rfl⟩,
    ⟨rfl, "".data, "/1.0".data, rfl⟩,
    ⟨rfl, "".data, "/1.0 (compatible; Mozilla/5.0; Apache-HttpClient +http://www.linkedin.com)".data, rfl⟩,
    ⟨rfl, "".data, "-LinkExpanding 1.0 (+https://api.slack.com/robots)".data, rfl⟩,
    ⟨rfl, "".data, " (like TwitterBot)".data, rfl⟩,
    ⟨rfl, "Mozilla/5.0 (compatible; ".data, "/2.0; +https://discordapp.com)".data, rfl⟩,
    ⟨rfl, "".data, "/2.23.20.0".data, rfl⟩,
    ⟨rfl, "".data, "/0.2 (+http://www.pinterest.com/bot.html)".data, rfl⟩,
    ⟨rfl, "Mozilla/5.0 (compatible; ".data, "/7.0; +http://ahrefs.com/robot/)".data, rfl⟩,
    ⟨rfl, "Mozilla/5.0 (compatible; ".data, "/7~bl; +http://www.semrush.com/bot.html)".data, rfl⟩,
    ⟨rfl, "Mozilla/5.0 (compatible; ".data, "/1.2; +https://opensiteexplorer.org/dotbot; help@moz.com)".data, rfl⟩,
    ⟨rfl, "Mozilla/5.0 (compatible; ".data, "/v1.4.8; http://mj12bot.com/)".data, rfl⟩,
    ⟨rfl, "".data, " SEO Spider/19.0".data, rfl⟩,
    ⟨rfl, "Mozilla/5.0 (compatible; ".data, "Bot/0.11.10; +https://sitebulb.com/crawler/)".data, rfl⟩⟩

set_option maxRecDepth 8000 in
theorem botUAs_entries (i : Nat) (hi : i < 11) :
    ∃ s, botUAs[i]? = some s ∧ s ≠ "" ∧
      s ∈ [Googlebot, GooglebotMobile, Bingbot, BingbotMobile, YandexBot, Baiduspider,
        FacebookBot, TwitterBot, LinkedInBot, AhrefsBot, SemrushBot] ∧
      s ∉ [YandexBotMobile, DuckDuckBot, SlackBot, TelegramBot, DiscordBot, WhatsAppBot,
        PinterestBot, MozBot, MajesticBot, ScreamingFrogBot, SitebulbBot] := by
  interval_cases i
  · exact ⟨googlebotUA, rfl, by decide, by decide, by decide⟩
  · exact ⟨googlebotMobileUA, rfl, by decide, by decide, by decide⟩
  · exact ⟨bingbotUA, rfl, by decide, by decide, by decide⟩
  · exact ⟨bingbotMobileUA, rfl, by decide, by decide, by decide⟩
  · exact ⟨yandexBotUA, rfl, by decide, by decide, by decide⟩
  · exact ⟨baiduspiderUA, rfl, by decide, by decide, by decide⟩
  · exact ⟨facebookBotUA, rfl, by decide, by decide, by decide⟩
  · exact ⟨twitterBotUA, rfl, by decide, by decide, by decide⟩
  · exact ⟨linkedinBotUA, rfl, by decide, by decide, by decide⟩
  · exact ⟨ahrefsBotUA, rfl, by decide, by decide, by decide⟩
  · exact ⟨semrushBotUA, rfl, by decide, by decide, by decide⟩

/-- C12 (random bot): `RandomBot()` makes one draw `r` and returns
`botUAs[r mod 11]`; the result is non-empty, is the string of one of the 11
curated accessors, and is not the string of any of the other 11 accessors. -/
theorem RandomBot_curated (g : Generator) :
    ∃ s, g.RandomBot = some (s, { rng := g.rng.next.2 }) ∧
      botUAs.length = 11 ∧ botUAs[g.rng.next.1 % 11]? = some s ∧ s ≠ "" ∧
      s ∈ [Googlebot, GooglebotMobile, Bingbot, BingbotMobile, YandexBot, Baiduspider,
        FacebookBot, TwitterBot, LinkedInBot, AhrefsBot, SemrushBot] ∧
      s ∉ [YandexBotMobile, DuckDuckBot, SlackBot, TelegramBot, DiscordBot, WhatsAppBot,
        PinterestBot, MozBot, MajesticBot, ScreamingFrogBot, SitebulbBot] := by
  obtain ⟨s, hs, hne, hin, hout⟩ :=
    botUAs_entries (g.rng.next.1 % 11) (Nat.mod_lt _ (by decide))
  refine ⟨s, ?_, rfl, hs, hne, hin, hout⟩
  unfold Generator.RandomBot
  rw [botUAs_length, intn_pos g.rng 11 (by decide)]
  simp only [Int.ofNat_eq_coe, Int.toNat_ofNat, hs]

/-! ## Category dispatch -/

/-- C13 (dispatch): `Random()` and `RandomDesktop()` make one draw `r` and
delegate on the advanced state: `Random` to `RandomDesktop`, `RandomMobile`,
`RandomBot` for `r mod 3 = 0, 1, 2`; `RandomDesktop` to `Chrome`, `Firefox`,
`Safari`, `Edge` for `r mod 4 = 0, 1, 2, 3`; every one of these seven choices
is taken in some state. -/
theorem Random_dispatch (P : Pools) :
    (∀ g : Generator,
      g.Random P =
        if g.rng.next.1 % 3 = 0 then Generator.RandomDesktop P { rng := g.rng.next.2 }
        else if g.rng.next.1 % 3 = 1 then Generator.RandomMobile P { rng := g.rng.next.2 }
        else Generator.RandomBot { rng := g.rng.next.2 }) ∧
    (∀ g : Generator,
      g.RandomDesktop P =
        if g.rng.next.1 % 4 = 0 then Generator.Chrome P { rng := g.rng.next.2 }
        else if g.rng.next.1 % 4 = 1 then Generator.Firefox P { rng := g.rng.next.2 }
        else if g.rng.next.1 % 4 = 2 then Generator.Safari P { rng := g.rng.next.2 }
        else Generator.Edge P { rng := g.rng.next.2 }) ∧
    (∃ g : Generator, g.rng.next.1 % 3 = 0 ∧
      g.Random P = Generator.RandomDesktop P { rng := g.rng.next.2 }) ∧
    (∃ g : Generator, g.rng.next.1 % 3 = 1 ∧
      g.Random P = Generator.RandomMobile P { rng := g.rng.next.2 }) ∧
    (∃ g : Generator, g.rng.next.1 % 3 = 2 ∧
      g.Random P = Generator.RandomBot { rng := g.rng.next.2 }) ∧
    (∃ g : Generator, g.rng.next.1 % 4 = 0 ∧
      g.RandomDesktop P = Generator.Chrome P { rng := g.rng.next.2 }) ∧
    (∃ g : Generator, g.rng.next.1 % 4 = 1 ∧
      g.RandomDesktop P = Generator.Firefox P { rng := g.rng.next.2 }) ∧
    (∃ g : Generator, g.rng.next.1 % 4 = 2 ∧
      g.RandomDesktop P = Generator.Safari P { rng := g.rng.next.2 }) ∧
    (∃ g : Generator, g.rng.next.1 % 4 = 3 ∧
      g.RandomDesktop P = Generator.Edge P { rng := g.rng.next.2 }) := by
  have hR := Random_eq P
  have hD := RandomDesktop_eq P
  refine ⟨hR, hD, ⟨WithSeed 1, by decide, ?_⟩, ⟨WithSeed 34, by decide, ?_⟩,
    ⟨WithSeed 17, by decide, ?_⟩, ⟨WithSeed 4, by decide, ?_⟩, ⟨WithSeed 1, by decide, ?_⟩,
    ⟨WithSeed 2, by decide, ?_⟩, ⟨WithSeed 3, by decide, ?_⟩⟩
  · rw [hR]; rfl
  · rw [hR]; rfl
  · rw [hR]; rfl
  · rw [hD]; rfl
  · rw [hD]; rfl
  · rw [hD]; rfl
  · rw [hD]; rfl

theorem ChromeIOS_eq (P : Pools) (g : Generator)
    (hi : 0 < P.iosVersions.length) (hc : 0 < P.chromeVersions.length) :
    g.ChromeIOS P = some
      ("Mozilla/5.0 (iPhone; CPU iPhone OS " ++ pickAt P.iosVersions (g.rng.next.1) hi ++
        " like Mac OS X) AppleWebKit/537.36 (KHTML, like Gecko) CriOS/" ++
        pickAt P.chromeVersions (g.rng.next.2.next.1) hc ++ " Mobile/15E148 Safari/537.36",
       { rng := g.rng.next.2.next.2 }) := by
  unfold Generator.ChromeIOS
  simp only [pick_eq _ _ hi, pick_eq _ _ hc,
    Option.bind_eq_bind, Option.some_bind, Option.pure_def, WriteString,
    appleWebKitChrome, Option.some.injEq, Prod.mk.injEq, and_true]
  apply String.ext
  simp only [String.data_append, List.append_assoc]
  rfl

/-- With non-empty pools every result of `RandomMobile` begins with the iPhone
or with the Linux device clause. -/
theorem RandomMobile_head (P : Pools) (hP : P.NonEmpty) (g x : Generator) (s : String)
    (h : g.RandomMobile P = some (s, x)) :
    s.data.take 16 = "Mozilla/5.0 (iPh".data ∨ s.data.take 16 = "Mozilla/5.0 (Lin".data := by
  obtain ⟨hc, -, hs, -, -, -, -, hi, ha, hd⟩ := hP
  rw [RandomMobile_eq] at h
  split_ifs at h
  · rw [SafariIOS_eq P _ hi hs] at h
    simp only [Option.some.injEq, Prod.mk.injEq] at h
    rw [← h.1]
    left
    simp only [String.data_append, List.append_assoc]
    rfl
  · rw [ChromeAndroid_eq P _ ha hc hd] at h
    simp only [Option.some.injEq, Prod.mk.injEq] at h
    rw [← h.1]
    right
    simp only [String.data_append, List.append_assoc]
    rfl
  · rw [ChromeIOS_eq P _ hi hc] at h
    simp only [Option.some.injEq, Prod.mk.injEq] at h
    rw [← h.1]
    left
    simp only [String.data_append, List.append_assoc]
    rfl
  · rw [AndroidWebView_eq P _ ha hc hd] at h
    simp only [Option.some.injEq, Prod.mk.injEq] at h
    rw [← h.1]
    right
    simp only [String.data_append, List.append_assoc]
    rfl

/-- With non-empty pools every result of `SafariIPad` begins with the iPad
device clause. -/
theorem SafariIPad_head (P : Pools) (hP : P.NonEmpty) (g x : Generator) (s : String)
    (h : g.SafariIPad P = some (s, x)) :
    s.data.take 16 = "Mozilla/5.0 (iPa".data := by
  obtain ⟨-, -, hs, -, -, -, -, hi, -, -⟩ := hP
  rw [SafariIPad_eq P _ hi hs] at h
  simp only [Option.some.injEq, Prod.mk.injEq] at h
  rw [← h.1]
  simp only [String.data_append, List.append_assoc]
  rfl

/-- C14, as stated, fails: on `samplePools` no state makes `RandomMobile()`
return a string that `SafariIPad()` can return, so not every one of the eight
mobile methods is among its choices. -/
theorem RandomMobile_not_all_eight :
    ¬ (∀ m ∈ [Method.SafariIOS, Method.SafariIPad, Method.ChromeIOS, Method.ChromeAndroid,
          Method.AndroidWebView, Method.FirefoxAndroid, Method.SamsungBrowser,
          Method.EdgeAndroid],
        ∃ (g g1 x x1 : Generator) (s : String),
          g.RandomMobile samplePools = some (s, x) ∧
          g1.call samplePools m = some (s, x1)) := by
  intro h
  obtain ⟨g, g1, x, x1, s, hm, hp⟩ := h Method.SafariIPad (by decide)
  have h1 := RandomMobile_head samplePools (by decide) g x s hm
  have h2 := SafariIPad_head samplePools (by decide) g1 x1 s hp
  rw [h2] at h1
  revert h1
  decide

/-- C14, amended: `RandomMobile()` makes one draw `r` and returns, on the
advanced state, `SafariIOS()`, `ChromeAndroid()`, `ChromeIOS()` or
`AndroidWebView()` for `r mod 4 = 0, 1, 2, 3`; each of these four methods is
chosen in some state. -/
theorem RandomMobile_dispatch (P : Pools) :
    (∀ g : Generator,
      g.RandomMobile P =
        if g.rng.next.1 % 4 = 0 then Generator.SafariIOS P { rng := g.rng.next.2 }
        else if g.rng.next.1 % 4 = 1 then Generator.ChromeAndroid P { rng := g.rng.next.2 }
        else if g.rng.next.1 % 4 = 2 then Generator.ChromeIOS P { rng := g.rng.next.2 }
        else Generator.AndroidWebView P { rng := g.rng.next.2 }) ∧
    (∃ g : Generator, g.rng.next.1 % 4 = 0 ∧
      g.RandomMobile P = Generator.SafariIOS P { rng := g.rng.next.2 }) ∧
    (∃ g : Generator, g.rng.next.1 % 4 = 1 ∧
      g.RandomMobile P = Generator.ChromeAndroid P { rng := g.rng.next.2 }) ∧
    (∃ g : Generator, g.rng.next.1 % 4 = 2 ∧
      g.RandomMobile P = Generator.ChromeIOS P { rng := g.rng.next.2 }) ∧
    (∃ g : Generator, g.rng.next.1 % 4 = 3 ∧
      g.RandomMobile P = Generator.AndroidWebView P { rng := g.rng.next.2 }) := by
  refine ⟨RandomMobile_eq P, ⟨WithSeed 4, by decide, ?_⟩, ⟨WithSeed 1, by decide, ?_⟩,
    ⟨WithSeed 2, by decide, ?_⟩, ⟨WithSeed 3, by decide, ?_⟩⟩
  · rw [RandomMobile_eq]; rfl
  · rw [RandomMobile_eq]; rfl
  · rw [RandomMobile_eq]; rfl
  · rw [RandomMobile_eq]; rfl

/-! ## Category balance -/

theorem RandomDesktop_skip (P : Pools) (hP : P.NonEmpty) (g : Generator) :
    ∃ s, g.RandomDesktop P = some (s, { rng := desktopSkip g.rng }) := by
  obtain ⟨s1, h1⟩ := Chrome_some P { rng := g.rng.next.2 } hP
  obtain ⟨s2, h2⟩ := Firefox_some P { rng := g.rng.next.2 } hP
  obtain ⟨s3, h3⟩ := Safari_some P { rng := g.rng.next.2 } hP
  obtain ⟨s4, h4⟩ := Edge_some P { rng := g.rng.next.2 } hP
  unfold Generator.RandomDesktop desktopSkip
  rw [intn_four]
  rcases mod_four_cases g.rng.next.1 with h | h | h | h
  · exact ⟨s1, by rw [h]; exact h1⟩
  · exact ⟨s2, by rw [h]; exact h2⟩
  · exact ⟨s3, by rw [h]; exact h3⟩
  · exact ⟨s4, by rw [h]; exact h4⟩

theorem runStates_RandomDesktop (P : Pools) (hP : P.NonEmpty) (n : Nat) (g : Generator) :
    g.runStates P (List.replicate n Method.RandomDesktop) =
      some ((desktopStates n g.rng).map Generator.mk) := by
  induction n generalizing g with
  | zero => rfl
  | succ n ih =>
    obtain ⟨s, hs⟩ := RandomDesktop_skip P hP g
    have hc : g.call P Method.RandomDesktop = some (s, { rng := desktopSkip g.rng }) := hs
    simp only [List.replicate_succ, Generator.runStates, hc, ih, Option.bind_eq_bind,
      Option.some_bind, Option.pure_def, desktopStates, List.map_cons]

set_option maxRecDepth 100000 in
theorem desktopStates_counts :
    ((desktopStates 1000 { state := 42 }).map (fun x => x.next.1 % 4)).count 0 = 240 ∧
    ((desktopStates 1000 { state := 42 }).map (fun x => x.next.1 % 4)).count 1 = 246 ∧
    ((desktopStates 1000 { state := 42 }).map (fun x => x.next.1 % 4)).count 2 = 260 ∧
    ((desktopStates 1000 { state := 42 }).map (fun x => x.next.1 % 4)).count 3 = 254 := by
  decide!

theorem desktopStates_length (n : Nat) (x : xorshift64) : (desktopStates n x).length = n := by
  induction n generalizing x with
  | zero => rfl
  | succ n ih => simp only [desktopStates, List.length_cons, ih]

/-- C15 (category balance): from `WithSeed(42)`, with any non-empty pools, the
1000 consecutive calls of `RandomDesktop()` are made in states whose selecting
draw `r mod 4` is 0 (Chrome) 240 times, 1 (Firefox) 246 times, 2 (Safari) 260
times and 3 (Edge) 254 times, so each browser is selected between 150 and 350
times; the states do not depend on the pools. -/
theorem RandomDesktop_balance (P : Pools) (hP : P.NonEmpty) :
    ∃ gs : List Generator,
      (WithSeed 42).runStates P (List.replicate 1000 Method.RandomDesktop) = some gs ∧
      gs.length = 1000 ∧
      gs = (desktopStates 1000 { state := 42 }).map Generator.mk ∧
      (∀ g ∈ gs, g.RandomDesktop P =
        if g.rng.next.1 % 4 = 0 then Generator.Chrome P { rng := g.rng.next.2 }
        else if g.rng.next.1 % 4 = 1 then Generator.Firefox P { rng := g.rng.next.2 }
        else if g.rng.next.1 % 4 = 2 then Generator.Safari P { rng := g.rng.next.2 }
        else Generator.Edge P { rng := g.rng.next.2 }) ∧
      (gs.map (fun g => g.rng.next.1 % 4)).count 0 = 240 ∧
      (gs.map (fun g => g.rng.next.1 % 4)).count 1 = 246 ∧
      (gs.map (fun g => g.rng.next.1 % 4)).count 2 = 260 ∧
      (gs.map (fun g => g.rng.next.1 % 4)).count 3 = 254 ∧
      (∀ k, k < 4 → 150 ≤ (gs.map (fun g => g.rng.next.1 % 4)).count k ∧
        (gs.map (fun g => g.rng.next.1 % 4)).count k ≤ 350) := by
  have hrun := runStates_RandomDesktop P hP 1000 (WithSeed 42)
  have hseed : (WithSeed 42).rng = { state := 42 } := rfl
  rw [hseed] at hrun
  have hmap : ((desktopStates 1000 { state := 42 }).map Generator.mk).map
      (fun g => g.rng.next.1 % 4) =
      (desktopStates 1000 { state := 42 }).map (fun x => x.next.1 % 4) := by
    rw [List.map_map]; rfl
  obtain ⟨c0, c1, c2, c3⟩ := desktopStates_counts
  refine ⟨_, hrun, ?_, rfl, fun g _ => RandomDesktop_eq P g, ?_, ?_, ?_, ?_, ?_⟩
  · rw [List.length_map, desktopStates_length]
  · rw [hmap]; exact c0
  · rw [hmap]; exact c1
  · rw [hmap]; exact c2
  · rw [hmap]; exact c3
  · intro k hk
    rw [hmap]
    interval_cases k
    · rw [c0]; decide
    · rw [c1]; decide
    · rw [c2]; decide
    · rw [c3]; decide

/-- Witness for C15: the pools `samplePools`. -/
theorem RandomDesktop_balance_witness :
    samplePools.NonEmpty ∧
    (∃ gs : List Generator,
      (WithSeed 42).runStates samplePools (List.replicate 1000 Method.RandomDesktop) = some gs ∧
      gs.length = 1000 ∧
      gs = (desktopStates 1000 { state := 42 }).map Generator.mk ∧
      (∀ g ∈ gs, g.RandomDesktop samplePools =
        if g.rng.next.1 % 4 = 0 then Generator.Chrome samplePools { rng := g.rng.next.2 }
        else if g.rng.next.1 % 4 = 1 then Generator.Firefox samplePools { rng := g.rng.next.2 }
        else if g.rng.next.1 % 4 = 2 then Generator.Safari samplePools { rng := g.rng.next.2 }
        else Generator.Edge samplePools { rng := g.rng.next.2 }) ∧
      (gs.map (fun g => g.rng.next.1 % 4)).count 0 = 240 ∧
      (gs.map (fun g => g.rng.next.1 % 4)).count 1 = 246 ∧
      (gs.map (fun g => g.rng.next.1 % 4)).count 2 = 260 ∧
      (gs.map (fun g => g.rng.next.1 % 4)).count 3 = 254 ∧
      (∀ k, k < 4 → 150 ≤ (gs.map (fun g => g.rng.next.1 % 4)).count k ∧
        (gs.map (fun g => g.rng.next.1 % 4)).count k ≤ 350)) :=
  ⟨by decide, RandomDesktop_balance samplePools (by decide)⟩

/-! ## The random source: invariant, bounded draws, bijection -/

theorem next_state_ne_zero (x : xorshift64) (h : x.state < 2 ^ 64) (h0 : x.state ≠ 0) :
    x.next.2.state ≠ 0 ∧ x.next.2.state < 2 ^ 64 :=
  ⟨step_ne_zero x.state h h0, step_lt x.state h⟩

theorem nextN_state_ne_zero (k : Nat) (x : xorshift64) (h : x.state < 2 ^ 64)
    (h0 : x.state ≠ 0) : (x.nextN k).state ≠ 0 ∧ (x.nextN k).state < 2 ^ 64 := by
  induction k generalizing x with
  | zero => exact ⟨h0, h⟩
  | succ k ih =>
    rw [nextN_succ]
    exact ih x.next.2 (next_state_ne_zero x h h0).2 (next_state_ne_zero x h h0).1

theorem newXorshift64_ne_zero (seed : Nat) (h : seed < 2 ^ 64) :
    (newXorshift64 seed).state ≠ 0 ∧ (newXorshift64 seed).state < 2 ^ 64 := by
  unfold newXorshift64
  by_cases hs : seed = 0
  · rw [if_pos hs]; decide
  · rw [if_neg hs]; exact ⟨hs, h⟩

theorem intn_state (x : xorshift64) (n : Int) :
    (x.intn n).2 = if n ≤ 0 then x else x.next.2 := by
  unfold xorshift64.intn
  split_ifs <;> rfl

theorem pick_state {α : Type} (x x1 : xorshift64) (s : List α) (v : α)
    (h : pick x s = some (v, x1)) : x1 = x.next.2 := by
  rw [pick_eq_dite] at h
  split_ifs at h
  simp only [Option.some.injEq, Prod.mk.injEq] at h
  exact h.2.symm

theorem Reachable.ne_zero (P : Pools) (x : xorshift64) (hx : Reachable P x) :
    x.state ≠ 0 ∧ x.state < 2 ^ 64 := by
  induction hx with
  | seed seed h => exact newXorshift64_ne_zero seed h
  | next x _ ih => exact next_state_ne_zero x ih.2 ih.1
  | intn x n _ ih =>
    rw [intn_state]
    split_ifs
    · exact ih
    · exact next_state_ne_zero x ih.2 ih.1
  | pick x x1 s v _ h ih =>
    rw [pick_state x x1 s v h]
    exact next_state_ne_zero x ih.2 ih.1
  | call g g1 m s _ h ih =>
    obtain ⟨k, -, -, hk⟩ := call_state P m g g1 s h
    rw [hk]
    exact nextN_state_ne_zero k g.rng ih.2 ih.1
  | clone g _ ih => exact ih

/-- C16 (state never zero): for every `uint64` seed, 0 included, the state
after `newXorshift64` / `WithSeed` is non-zero; `next` maps a non-zero 64-bit
state to a non-zero 64-bit state; and every PRNG object reached by any finite
sequence of `next`, `intn`, `pick`, `Generator` method calls and `Clone` has a
non-zero state. -/
theorem state_never_zero (P : Pools) :
    (∀ seed : Nat, seed < 2 ^ 64 →
      (newXorshift64 seed).state ≠ 0 ∧ (WithSeed seed).State ≠ 0) ∧
    (∀ x : xorshift64, x.state < 2 ^ 64 → x.state ≠ 0 →
      x.next.1 ≠ 0 ∧ x.next.2.state ≠ 0 ∧ x.next.2.state < 2 ^ 64) ∧
    (∀ x : xorshift64, Reachable P x → x.state ≠ 0 ∧ x.state < 2 ^ 64) :=
  ⟨fun seed h => ⟨(newXorshift64_ne_zero seed h).1, (newXorshift64_ne_zero seed h).1⟩,
   fun x h h0 => ⟨(next_state_ne_zero x h h0).1, next_state_ne_zero x h h0⟩,
   fun x hx => Reachable.ne_zero P x hx⟩

/-- Witness for C16: seed 0, the state 5, and the object reached from
`WithSeed(12345)` by one `Chrome()` call on `samplePools` followed by `Clone()`. -/
theorem state_never_zero_witness :
    ((0 : Nat) < 2 ^ 64 ∧ (newXorshift64 0).state ≠ 0 ∧ (WithSeed 0).State ≠ 0) ∧
    (({ state := 5 } : xorshift64).state < 2 ^ 64 ∧ ({ state := 5 } : xorshift64).state ≠ 0 ∧
      ({ state := 5 } : xorshift64).next.1 ≠ 0 ∧ ({ state := 5 } : xorshift64).next.2.state ≠ 0 ∧
      ({ state := 5 } : xorshift64).next.2.state < 2 ^ 64) ∧
    (Reachable samplePools
        (Generator.Clone { rng := { state := 11684599175382693041 } }).rng ∧
      (Generator.Clone { rng := { state := 11684599175382693041 } }).rng.state ≠ 0 ∧
      (Generator.Clone { rng := { state := 11684599175382693041 } }).rng.state < 2 ^ 64) :=
  ⟨⟨by decide, (state_never_zero samplePools).1 0 (by decide)⟩,
   ⟨by decide, by decide, (state_never_zero samplePools).2.1 { state := 5 } (by decide) (by decide)⟩,
   ⟨Reachable.clone _ (Reachable.call (WithSeed 12345) _ Method.Chrome _
      (Reachable.seed 12345 (by decide)) Chrome_at_seed_12345),
    (state_never_zero samplePools).2.2 _
      (Reachable.clone _ (Reachable.call (WithSeed 12345) _ Method.Chrome _
        (Reachable.seed 12345 (by decide)) Chrome_at_seed_12345))⟩⟩

/-- C17 (bounded draw): `intn(n)` returns 0 and leaves the state alone when
`n <= 0`; for `n > 0` it returns `next() mod n`, a value `r` with `0 <= r < n`,
and the state is advanced by one `next()` step; for a Go `int` (`n < 2^63`) and
a 64-bit state the operands are 64-bit words equal to `next()` and `n`, and the
result fits an `int`. -/
theorem intn_spec (x : xorshift64) (n : Int) :
    (n ≤ 0 → x.intn n = (0, x)) ∧
    (0 < n → (x.intn n).1 = Int.ofNat (x.next.1 % n.toNat) ∧
      (x.intn n).1 = Int.ofNat x.next.1 % n ∧
      0 ≤ (x.intn n).1 ∧ (x.intn n).1 < n ∧ (x.intn n).2 = x.next.2) ∧
    (0 < n → n < 2 ^ 63 → x.state < 2 ^ 64 →
      x.next.1 < 2 ^ 64 ∧ (n % 2 ^ 64).toNat = n.toNat ∧ (x.intn n).1 < 2 ^ 63) := by
  have key : 0 < n → (x.intn n).1 = Int.ofNat (x.next.1 % n.toNat) ∧
      (x.intn n).2 = x.next.2 := by
    intro hn
    unfold xorshift64.intn
    rw [if_neg (by omega)]
    exact ⟨rfl, rfl⟩
  refine ⟨?_, ?_, ?_⟩
  · intro hn
    unfold xorshift64.intn
    rw [if_pos hn]
  · intro hn
    obtain ⟨k1, k2⟩ := key hn
    have hpos : 0 < n.toNat := by omega
    have hlt := Nat.mod_lt x.next.1 hpos
    have hcast : (n.toNat : Int) = n := Int.toNat_of_nonneg (le_of_lt hn)
    refine ⟨k1, ?_, ?_, ?_, k2⟩
    · rw [k1]
      simp only [Int.ofNat_eq_coe, Int.natCast_mod, hcast]
    · rw [k1]; exact Int.ofNat_nonneg _
    · rw [k1]
      simp only [Int.ofNat_eq_coe]
      omega
  · intro hn hn63 hx
    obtain ⟨k1, -⟩ := key hn
    have hpos : 0 < n.toNat := by omega
    have hlt := Nat.mod_lt x.next.1 hpos
    refine ⟨step_lt x.state hx, ?_, ?_⟩
    · rw [Int.emod_eq_of_lt (le_of_lt hn) (by omega)]
    · rw [k1]
      simp only [Int.ofNat_eq_coe]
      omega

/-- Witness for C17: state 42 with `n = 0` and with `n = 3`. -/
theorem intn_spec_witness :
    ((0 : Int) ≤ 0 ∧ xorshift64.intn { state := 42 } 0 = (0, { state := 42 })) ∧
    ((0 : Int) < 3 ∧
      (xorshift64.intn { state := 42 } 3).1
        = Int.ofNat ((xorshift64.next { state := 42 }).1 % (3 : Int).toNat) ∧
      (xorshift64.intn { state := 42 } 3).1
        = Int.ofNat (xorshift64.next { state := 42 }).1 % 3 ∧
      0 ≤ (xorshift64.intn { state := 42 } 3).1 ∧ (xorshift64.intn { state := 42 } 3).1 < 3 ∧
      (xorshift64.intn { state := 42 } 3).2 = (xorshift64.next { state := 42 }).2) ∧
    ((0 : Int) < 3 ∧ (3 : Int) < 2 ^ 63 ∧ ({ state := 42 } : xorshift64).state < 2 ^ 64 ∧
      (xorshift64.next { state := 42 }).1 < 2 ^ 64 ∧ ((3 : Int) % 2 ^ 64).toNat = (3 : Int).toNat ∧
      (xorshift64.intn { state := 42 } 3).1 < 2 ^ 63) :=
  ⟨⟨by decide, (intn_spec { state := 42 } 0).1 (by decide)⟩,
   ⟨by decide, (intn_spec { state := 42 } 3).2.1 (by decide)⟩,
   ⟨by decide, by decide, by decide,
     (intn_spec { state := 42 } 3).2.2 (by decide) (by decide) (by decide)⟩⟩

/-- C18 (index in range): on a non-empty pool `pick` returns `s[i]` with
`i = intn(len(s))` and `0 <= i < len(s)`; so with all ten pools non-empty every
`Generator` method returns a string from every state. -/
theorem pick_in_range (P : Pools) (hP : P.NonEmpty) :
    (∀ (α : Type) (x : xorshift64) (s : List α), 0 < s.length →
      ∃ v, pick x s = some (v, (x.intn (Int.ofNat s.length)).2) ∧
        0 ≤ (x.intn (Int.ofNat s.length)).1 ∧
        (x.intn (Int.ofNat s.length)).1.toNat < s.length ∧
        s[(x.intn (Int.ofNat s.length)).1.toNat]? = some v) ∧
    (∀ (m : Method) (g : Generator), ∃ s g1, g.call P m = some (s, g1)) := by
  refine ⟨?_, ?_⟩
  · intro α x s hs
    refine ⟨pickAt s x.next.1 hs, ?_, ?_, ?_, ?_⟩
    · rw [pick_eq x s hs, intn_pos x s.length hs]
    · rw [intn_pos x s.length hs]; exact Int.ofNat_nonneg _
    · rw [intn_pos x s.length hs]
      simp only [Int.ofNat_eq_coe, Int.toNat_ofNat]
      exact Nat.mod_lt _ hs
    · rw [intn_pos x s.length hs]
      simp only [Int.ofNat_eq_coe, Int.toNat_ofNat]
      exact getElem?_pickAt s x.next.1 hs
  · intro m g
    obtain ⟨⟨s, g1⟩, h⟩ := call_some P hP m g
    exact ⟨s, g1, h⟩

/-- Witness for C18: the pools `samplePools`, and the pool `["a", "b", "c"]`. -/
theorem pick_in_range_witness :
    samplePools.NonEmpty ∧
    (0 < ["a", "b", "c"].length ∧
      ∃ v, pick { state := 42 } ["a", "b", "c"]
          = some (v, (xorshift64.intn { state := 42 } (Int.ofNat ["a", "b", "c"].length)).2) ∧
        0 ≤ (xorshift64.intn { state := 42 } (Int.ofNat ["a", "b", "c"].length)).1 ∧
        (xorshift64.intn { state := 42 } (Int.ofNat ["a", "b", "c"].length)).1.toNat
          < ["a", "b", "c"].length ∧
        ["a", "b", "c"][(xorshift64.intn { state := 42 }
          (Int.ofNat ["a", "b", "c"].length)).1.toNat]? = some v) ∧
    (∀ (m : Method) (g : Generator), ∃ s g1, g.call samplePools m = some (s, g1)) :=
  ⟨by decide,
   ⟨by decide, (pick_in_range samplePools (by decide)).1 String { state := 42 } ["a", "b", "c"]
      (by decide)⟩,
   (pick_in_range samplePools (by decide)).2⟩

/-- C19 (bijection): on 64-bit words the state transition of `next` is
injective and onto, maps 64-bit words to 64-bit words, and the value returned
and the new state are a function of the current state alone. -/
theorem next_bijective :
    (∀ a b : Nat, a < 2 ^ 64 → b < 2 ^ 64 →
      (xorshift64.next { state := a }).1 = (xorshift64.next { state := b }).1 → a = b) ∧
    (∀ w : Nat, w < 2 ^ 64 → ∃ s : Nat, s < 2 ^ 64 ∧
      (xorshift64.next { state := s }).1 = w ∧
      (xorshift64.next { state := s }).2 = { state := w }) ∧
    (∀ a : Nat, a < 2 ^ 64 → (xorshift64.next { state := a }).1 < 2 ^ 64) ∧
    (∀ x : xorshift64,
      x.next = (xorshift64.step x.state, { state := xorshift64.step x.state })) := by
  refine ⟨?_, ?_, fun a h => step_lt a h, next_eq_step⟩
  · intro a b ha hb h
    have h1 : xorshift64.step a = xorshift64.step b := h
    have h2 := congrArg xorshift64.unstep h1
    rw [unstep_step a ha, unstep_step b hb] at h2
    exact h2
  · intro w hw
    exact ⟨xorshift64.unstep w, unstep_lt w hw, step_unstep w hw,
      congrArg xorshift64.mk (step_unstep w hw)⟩

/-- Witness for C19: the words 42 and 45454805674. -/
theorem next_bijective_witness :
    ((42 : Nat) < 2 ^ 64 ∧ (42 : Nat) < 2 ^ 64 ∧
      ((xorshift64.next { state := 42 }).1 = (xorshift64.next { state := 42 }).1 → 42 = 42)) ∧
    ((45454805674 : Nat) < 2 ^ 64 ∧ ∃ s : Nat, s < 2 ^ 64 ∧
      (xorshift64.next { state := s }).1 = 45454805674 ∧
      (xorshift64.next { state := s }).2 = { state := 45454805674 }) ∧
    ((42 : Nat) < 2 ^ 64 ∧ (xorshift64.next { state := 42 }).1 < 2 ^ 64) :=
  ⟨⟨by decide, by decide, next_bijective.1 42 42 (by decide) (by decide)⟩,
   ⟨by decide, next_bijective.2.1 45454805674 (by decide)⟩,
   ⟨by decide, next_bijective.2.2.1 42 (by decide)⟩⟩

/-! ## The period of the state transition -/

theorem force_eq {α : Type} (n : Nat) (k : Nat → α) : force n k = k n := by
  cases n <;> rfl

theorem xor_xor_xor_swap (a b c d : Nat) : (a ^^^ b) ^^^ (c ^^^ d) = (a ^^^ c) ^^^ (b ^^^ d) := by
  rw [Nat.xor_assoc, Nat.xor_assoc, ← Nat.xor_assoc b c d, Nat.xor_comm b c, Nat.xor_assoc c b d]

theorem polyEval_xor_vec (n a v w : Nat) :
    polyEval n a (v ^^^ w) = polyEval n a v ^^^ polyEval n a w := by
  induction n generalizing a with
  | zero => exact (Nat.xor_self 0).symm
  | succ n ih =>
    simp only [polyEval, ih, step_xor]
    cases a.testBit 0
    · simp only [Bool.false_eq_true, if_false, Nat.zero_xor]
    · simp only [if_true]
      ac_rfl

theorem polyEval_xor_poly (n a b v : Nat) :
    polyEval n (a ^^^ b) v = polyEval n a v ^^^ polyEval n b v := by
  induction n generalizing a b with
  | zero => exact (Nat.xor_self 0).symm
  | succ n ih =>
    simp only [polyEval, Nat.xor_div_two, ih, step_xor, Nat.testBit_xor]
    cases a.testBit 0 <;> cases b.testBit 0 <;>
      simp only [Bool.xor_false, Bool.xor_true, Bool.not_false, Bool.not_true,
        Bool.false_eq_true, if_false, if_true, Nat.zero_xor]
    · ac_rfl
    · ac_rfl
    · rw [xor_xor_xor_swap, Nat.xor_self, Nat.zero_xor]

theorem polyEval_zero_vec (n a : Nat) : polyEval n a 0 = 0 := by
  induction n generalizing a with
  | zero => rfl
  | succ n ih =>
    simp only [polyEval, ih, step_zero, ite_self, Nat.xor_self]

theorem polyEval_zero_poly (n v : Nat) : polyEval n 0 v = 0 := by
  induction n with
  | zero => rfl
  | succ n ih =>
    simp only [polyEval, Nat.zero_div, ih, step_zero, Nat.zero_testBit, Bool.false_eq_true,
      if_false, Nat.xor_self]

theorem polyEval_fuel (n k a v : Nat) (h : a < 2 ^ n) :
    polyEval (n + k) a v = polyEval n a v := by
  induction n generalizing a with
  | zero =>
    have h0 : a = 0 := by omega
    subst h0
    rw [polyEval_zero_poly, polyEval_zero_poly]
  | succ n ih =>
    have h2 : a / 2 < 2 ^ n := by
      rw [Nat.pow_succ] at h
      omega
    rw [Nat.add_right_comm]
    simp only [polyEval, ih (a / 2) h2]

theorem polyEval_double (n a v : Nat) :
    polyEval (n + 1) (2 * a) v = xorshift64.step (polyEval n a v) := by
  have h1 : (2 * a).testBit 0 = false := by
    rw [Nat.testBit_zero]
    exact decide_eq_false (by omega)
  have h2 : 2 * a / 2 = a := by omega
  simp only [polyEval, h1, h2, Bool.false_eq_true, if_false, Nat.zero_xor]

theorem polyEval_one (n v : Nat) : polyEval (n + 1) 1 v = v := by
  have h1 : (1 : Nat).testBit 0 = true := Nat.testBit_one_zero
  have h2 : 1 / 2 = 0 := rfl
  simp only [polyEval, h1, h2, if_true, polyEval_zero_poly, step_zero, Nat.xor_zero]

theorem iterate_step_lt (k v : Nat) (h : v < 2 ^ 64) : xorshift64.step^[k] v < 2 ^ 64 := by
  induction k generalizing v with
  | zero => exact h
  | succ k ih =>
    rw [Function.iterate_succ_apply]
    exact ih _ (step_lt v h)

set_option maxRecDepth 1000000 in
theorem charPoly_basis : ∀ i, i < 64 → polyEval 65 charPoly (2 ^ i) = 0 := by
  decide!

theorem charPoly_annihilates (v : Nat) (h : v < 2 ^ 64) : polyEval 65 charPoly v = 0 :=
  xor_hom_ext (polyEval 65 charPoly) (fun _ => 0) (polyEval_xor_vec 65 charPoly)
    (fun _ _ => (Nat.xor_self 0).symm) 64 charPoly_basis v h

theorem polyTimesX_spec (r v : Nat) (hr : r < 2 ^ 64) (hv : v < 2 ^ 64) :
    polyTimesX r < 2 ^ 64 ∧
    polyEval 65 (polyTimesX r) v = xorshift64.step (polyEval 65 r v) := by
  have hd : polyEval 65 (2 * r) v = xorshift64.step (polyEval 65 r v) := by
    rw [polyEval_double 64 r v, polyEval_fuel 64 1 r v hr]
  have h2r : 2 * r < 2 ^ 65 := by omega
  have hhigh : ∀ x : Nat, x < 2 ^ 65 → ∀ i, i > 64 → x.testBit i = false := by
    intro x hx i hi
    exact Nat.testBit_lt_two_pow (Nat.lt_of_lt_of_le hx (Nat.pow_le_pow_right (by decide) hi))
  unfold polyTimesX
  cases hb : (2 * r).testBit 64 with
  | true =>
    simp only [if_true]
    refine ⟨?_, ?_⟩
    · apply Nat.lt_pow_two_of_testBit
      intro i hi
      rw [Nat.testBit_xor]
      rcases Nat.eq_or_lt_of_le hi with heq | hgt
      · rw [← heq, hb]
        have hc : charPoly.testBit 64 = true := by decide
        rw [hc]; rfl
      · rw [hhigh _ h2r i hgt, hhigh charPoly (by decide) i hgt]; rfl
    · rw [polyEval_xor_poly, hd, charPoly_annihilates v hv, Nat.xor_zero]
  | false =>
    simp only [Bool.false_eq_true, if_false]
    refine ⟨?_, hd⟩
    apply Nat.lt_pow_two_of_testBit
    intro i hi
    rcases Nat.eq_or_lt_of_le hi with heq | hgt
    · rw [← heq]; exact hb
    · exact hhigh _ h2r i hgt

theorem polyMul_spec (a v : Nat) (ha : a < 2 ^ 64) (hv : v < 2 ^ 64) (n b : Nat) :
    polyMul n a b < 2 ^ 64 ∧
    polyEval 65 (polyMul n a b) v = polyEval n b (polyEval 65 a v) := by
  induction n generalizing b with
  | zero =>
    have e : polyMul 0 a b = 0 := rfl
    rw [e]
    exact ⟨by decide, polyEval_zero_poly 65 v⟩
  | succ n ih =>
    obtain ⟨hlt, hev⟩ := ih (b / 2)
    obtain ⟨xlt, xev⟩ := polyTimesX_spec (polyMul n a (b / 2)) v hlt hv
    have e : polyMul (n + 1) a b =
        (if b.testBit 0 then a else 0) ^^^ polyTimesX (polyMul n a (b / 2)) := by
      simp only [polyMul, force_eq]
    have e2 : polyEval (n + 1) b (polyEval 65 a v) =
        (if b.testBit 0 then polyEval 65 a v else 0) ^^^
          xorshift64.step (polyEval n (b / 2) (polyEval 65 a v)) := rfl
    rw [e, e2]
    refine ⟨?_, ?_⟩
    · apply Nat.xor_lt_two_pow _ xlt
      split_ifs
      · exact ha
      · decide
    · rw [polyEval_xor_poly, xev, hev]
      cases b.testBit 0
      · simp only [Bool.false_eq_true, if_false, polyEval_zero_poly]
      · simp only [if_true]

theorem represents_one : Represents 1 0 :=
  ⟨by decide, fun v _ => polyEval_one 64 v⟩

theorem represents_X : Represents 2 1 := by
  refine ⟨by decide, fun v _ => ?_⟩
  have h := polyEval_double 64 1 v
  rw [polyEval_one 63 v] at h
  exact h

theorem represents_mul (a b j k : Nat) (ha : Represents a j) (hb : Represents b k) :
    Represents (polyMul 64 a b) (k + j) := by
  refine ⟨(polyMul_spec a 0 ha.1 (by decide) 64 b).1, fun v hv => ?_⟩
  rw [(polyMul_spec a v ha.1 hv 64 b).2, ha.2 v hv, ← polyEval_fuel 64 1 b _ hb.1,
    hb.2 _ (iterate_step_lt j v hv), Function.iterate_add_apply]

theorem polyPow_spec (n : Nat) :
    ∀ e base acc ka kb : Nat, Represents base kb → Represents acc ka → e < 2 ^ n →
      Represents (polyPow n e base acc) (ka + kb * e) := by
  induction n with
  | zero =>
    intro e base acc ka kb _ hacc he
    have h0 : e = 0 := by omega
    subst h0
    exact hacc
  | succ n ih =>
    intro e base acc ka kb hbase hacc he
    have he2 : e / 2 < 2 ^ n := by
      rw [Nat.pow_succ] at he
      omega
    have hunf : polyPow (n + 1) e base acc =
        polyPow n (e / 2) (polyMul 64 base base)
          (if e.testBit 0 then polyMul 64 acc base else acc) := by
      simp only [polyPow, force_eq]
    rw [hunf]
    have hsq := represents_mul base base kb kb hbase hbase
    have hdm : 2 * (e / 2) + e % 2 = e := Nat.div_add_mod e 2
    cases hb : e.testBit 0 with
    | true =>
      have hodd : e % 2 = 1 := by
        rw [Nat.testBit_zero] at hb
        exact of_decide_eq_true hb
      have hr := ih (e / 2) _ _ _ _ hsq (represents_mul acc base ka kb hacc hbase) he2
      simp only [if_true]
      have hk : kb + ka + (kb + kb) * (e / 2) = ka + kb * e := by
        have : kb * e = kb * (2 * (e / 2) + e % 2) := by rw [hdm]
        rw [this, hodd]
        ring
      rw [hk] at hr
      exact hr
    | false =>
      have heven : e % 2 = 0 := by
        rw [Nat.testBit_zero] at hb
        have := of_decide_eq_false hb
        omega
      have hr := ih (e / 2) _ _ _ _ hsq hacc he2
      simp only [Bool.false_eq_true, if_false]
      have hk : ka + (kb + kb) * (e / 2) = ka + kb * e := by
        have : kb * e = kb * (2 * (e / 2) + e % 2) := by rw [hdm]
        rw [this, heven]
        ring
      rw [hk] at hr
      exact hr

/-- The polynomial `X ^ e` modulo `charPoly` acts as `e` steps. -/
theorem polyPow_X (e : Nat) (he : e < 2 ^ 64) : Represents (polyPow 64 e 2 1) e := by
  have h := polyPow_spec 64 e 2 1 0 1 represents_X represents_one he
  rw [Nat.zero_add, Nat.one_mul] at h
  exact h

set_option maxRecDepth 1000000 in
theorem polyPow_full : polyPow 64 (2 ^ 64 - 1) 2 1 = 1 := by
  decide!

set_option maxRecDepth 1000000 in
theorem periodCertificates_check :
    ∀ c ∈ periodCertificates,
      polyMul 64 (polyPow 64 ((2 ^ 64 - 1) / c.1) 2 1 ^^^ 1) c.2 = 1 := by
  decide!

/-- After `2 ^ 64 - 1` steps every 64-bit word is back where it started. -/
theorem iterate_step_full (v : Nat) (hv : v < 2 ^ 64) :
    xorshift64.step^[2 ^ 64 - 1] v = v := by
  have h := (polyPow_X (2 ^ 64 - 1) (by decide)).2 v hv
  rw [polyPow_full, polyEval_one 64 v] at h
  exact h.symm

/-- A 64-bit word that returns after `(2 ^ 64 - 1) / p` steps, `p` one of the
prime factors, is zero. -/
theorem iterate_step_short (c : Nat × Nat) (hc : c ∈ periodCertificates) (v : Nat)
    (hv : v < 2 ^ 64) (h : xorshift64.step^[(2 ^ 64 - 1) / c.1] v = v) : v = 0 := by
  have hlt : (2 ^ 64 - 1) / c.1 < 2 ^ 64 :=
    Nat.lt_of_le_of_lt (Nat.div_le_self _ _) (by decide)
  obtain ⟨hr, hrep⟩ := polyPow_X ((2 ^ 64 - 1) / c.1) hlt
  have hq : polyPow 64 ((2 ^ 64 - 1) / c.1) 2 1 ^^^ 1 < 2 ^ 64 :=
    Nat.xor_lt_two_pow hr (by decide)
  have hz : polyEval 65 (polyPow 64 ((2 ^ 64 - 1) / c.1) 2 1 ^^^ 1) v = 0 := by
    rw [polyEval_xor_poly, hrep v hv, h, polyEval_one 64 v, Nat.xor_self]
  have hm := (polyMul_spec _ v hq hv 64 c.2).2
  rw [periodCertificates_check c hc, polyEval_one 64 v, hz, polyEval_zero_vec] at hm
  exact hm

theorem mersenne64_factors :
    2 ^ 64 - 1 = 3 * (5 * (17 * (257 * (641 * (65537 * 6700417))))) := by decide

/-- A proper divisor of `2 ^ 64 - 1` divides `(2 ^ 64 - 1) / p` for one of the
seven prime factors `p`. -/
theorem proper_divisor_dvd (m : Nat) (hm : m ∣ 2 ^ 64 - 1) (hne : m ≠ 2 ^ 64 - 1) :
    ∃ c ∈ periodCertificates, m ∣ (2 ^ 64 - 1) / c.1 := by
  obtain ⟨c, hc⟩ := hm
  have hc1 : c ≠ 1 := by
    intro h1
    rw [h1, Nat.mul_one] at hc
    exact hne hc.symm
  have hp : Nat.Prime c.minFac := Nat.minFac_prime hc1
  have hpc : c.minFac ∣ c := Nat.minFac_dvd c
  have hpN : c.minFac ∣ 3 * (5 * (17 * (257 * (641 * (65537 * 6700417))))) := by
    rw [← mersenne64_factors, hc]
    exact Dvd.dvd.mul_left hpc m
  have key : ∀ q : Nat, 0 < q → q ∣ c → m ∣ (2 ^ 64 - 1) / q := by
    intro q hq hqc
    obtain ⟨d, hd⟩ := hqc
    refine ⟨d, ?_⟩
    apply Nat.div_eq_of_eq_mul_right hq
    rw [hc, hd]
    ring
  have p3 : Nat.Prime 3 := by norm_num
  have p5 : Nat.Prime 5 := by norm_num
  have p17 : Nat.Prime 17 := by norm_num
  have p257 : Nat.Prime 257 := by norm_num
  have p641 : Nat.Prime 641 := by norm_num
  have p65537 : Nat.Prime 65537 := by norm_num
  have p6700417 : Nat.Prime 6700417 := by norm_num
  rcases (Nat.Prime.dvd_mul hp).1 hpN with h | hpN
  · have e := (Nat.prime_dvd_prime_iff_eq hp p3).1 h
    exact ⟨(3, 15511182550047884770), by decide, key 3 (by decide) (e ▸ hpc)⟩
  rcases (Nat.Prime.dvd_mul hp).1 hpN with h | hpN
  · have e := (Nat.prime_dvd_prime_iff_eq hp p5).1 h
    exact ⟨(5, 11814715471047095913), by decide, key 5 (by decide) (e ▸ hpc)⟩
  rcases (Nat.Prime.dvd_mul hp).1 hpN with h | hpN
  · have e := (Nat.prime_dvd_prime_iff_eq hp p17).1 h
    exact ⟨(17, 7202445018898142789), by decide, key 17 (by decide) (e ▸ hpc)⟩
  rcases (Nat.Prime.dvd_mul hp).1 hpN with h | hpN
  · have e := (Nat.prime_dvd_prime_iff_eq hp p257).1 h
    exact ⟨(257, 9031751854939573325), by decide, key 257 (by decide) (e ▸ hpc)⟩
  rcases (Nat.Prime.dvd_mul hp).1 hpN with h | hpN
  · have e := (Nat.prime_dvd_prime_iff_eq hp p641).1 h
    exact ⟨(641, 138158124418806406), by decide, key 641 (by decide) (e ▸ hpc)⟩
  rcases (Nat.Prime.dvd_mul hp).1 hpN with h | h
  · have e := (Nat.prime_dvd_prime_iff_eq hp p65537).1 h
    exact ⟨(65537, 17109817795786126257), by decide, key 65537 (by decide) (e ▸ hpc)⟩
  · have e := (Nat.prime_dvd_prime_iff_eq hp p6700417).1 h
    exact ⟨(6700417, 5204763322158105013), by decide, key 6700417 (by decide) (e ▸ hpc)⟩

/-- No non-zero 64-bit word returns to itself in fewer than `2 ^ 64 - 1` steps. -/
theorem iterate_step_ne (s : Nat) (hs : s < 2 ^ 64) (h0 : s ≠ 0) (k : Nat) (hk : 1 ≤ k)
    (hlt : k < 2 ^ 64 - 1) : xorshift64.step^[k] s ≠ s := by
  intro h
  have hper : Function.IsPeriodicPt xorshift64.step k s := h
  have hfull : Function.IsPeriodicPt xorshift64.step (2 ^ 64 - 1) s := iterate_step_full s hs
  have hmk := hper.minimalPeriod_dvd
  have hmN := hfull.minimalPeriod_dvd
  have hle : Function.minimalPeriod xorshift64.step s ≤ k := Nat.le_of_dvd hk hmk
  obtain ⟨c, hc, hdvd⟩ := proper_divisor_dvd _ hmN (by omega)
  have hshort : Function.IsPeriodicPt xorshift64.step ((2 ^ 64 - 1) / c.1) s :=
    (Function.isPeriodicPt_minimalPeriod xorshift64.step s).trans_dvd hdvd
  exact h0 (iterate_step_short c hc s hs hshort)

theorem nextN_state (k : Nat) (x : xorshift64) :
    (x.nextN k).state = xorshift64.step^[k] x.state := by
  induction k generalizing x with
  | zero => rfl
  | succ k ih =>
    rw [nextN_succ, ih, Function.iterate_succ_apply]
    rfl

theorem iterate_step_ne_zero (k v : Nat) (hv : v < 2 ^ 64) (h0 : v ≠ 0) :
    xorshift64.step^[k] v ≠ 0 := by
  induction k generalizing v with
  | zero => exact h0
  | succ k ih =>
    rw [Function.iterate_succ_apply]
    exact ih _ (step_lt v hv) (step_ne_zero v hv h0)

theorem iterate_step_inj (k a b : Nat) (ha : a < 2 ^ 64) (hb : b < 2 ^ 64)
    (h : xorshift64.step^[k] a = xorshift64.step^[k] b) : a = b := by
  induction k generalizing a b with
  | zero => exact h
  | succ k ih =>
    rw [Function.iterate_succ_apply, Function.iterate_succ_apply] at h
    have h1 := ih _ _ (step_lt a ha) (step_lt b hb) h
    have h2 := congrArg xorshift64.unstep h1
    rw [unstep_step a ha, unstep_step b hb] at h2
    exact h2

/-- The orbit of a non-zero 64-bit word under the state transition is the set
of all non-zero 64-bit words. -/
theorem iterate_step_onto (s : Nat) (hs : s < 2 ^ 64) (h0 : s ≠ 0) (t : Nat)
    (ht : t < 2 ^ 64) (ht0 : t ≠ 0) : ∃ k, k < 2 ^ 64 - 1 ∧ xorshift64.step^[k] s = t := by
  have hinj : Set.InjOn (fun k => xorshift64.step^[k] s)
      (Finset.range (2 ^ 64 - 1) : Set Nat) := by
    intro i hi j hj hij
    simp only [Finset.coe_range, Set.mem_Iio] at hi hj
    by_contra hne
    rcases Nat.lt_or_gt_of_ne hne with hlt | hgt
    · have e : j = i + (j - i) := by omega
      have hij2 : xorshift64.step^[i] s = xorshift64.step^[i] (xorshift64.step^[j - i] s) := by
        rw [← Function.iterate_add_apply, ← e]; exact hij
      have := iterate_step_inj i _ _ hs (iterate_step_lt _ s hs) hij2
      exact iterate_step_ne s hs h0 (j - i) (by omega) (by omega) this.symm
    · have e : i = j + (i - j) := by omega
      have hij2 : xorshift64.step^[j] s = xorshift64.step^[j] (xorshift64.step^[i - j] s) := by
        rw [← Function.iterate_add_apply, ← e]; exact hij.symm
      have := iterate_step_inj j _ _ hs (iterate_step_lt _ s hs) hij2
      exact iterate_step_ne s hs h0 (i - j) (by omega) (by omega) this.symm
  have hsub : (Finset.range (2 ^ 64 - 1)).image (fun k => xorshift64.step^[k] s) ⊆
      Finset.Icc 1 (2 ^ 64 - 1) := by
    intro y hy
    obtain ⟨k, -, rfl⟩ := Finset.mem_image.1 hy
    have h1 := iterate_step_lt k s hs
    have h2 := iterate_step_ne_zero k s hs h0
    rw [Finset.mem_Icc]
    constructor
    · exact Nat.one_le_iff_ne_zero.2 h2
    · exact Nat.le_sub_one_of_lt h1
  have hcard : (Finset.Icc 1 (2 ^ 64 - 1)).card ≤
      ((Finset.range (2 ^ 64 - 1)).image (fun k => xorshift64.step^[k] s)).card := by
    rw [Finset.card_image_of_injOn hinj, Finset.card_range, Nat.card_Icc]
    exact Nat.le_of_eq (Nat.add_sub_cancel ..)
  have heq := Finset.eq_of_subset_of_card_le hsub hcard
  have htm : t ∈ Finset.Icc 1 (2 ^ 64 - 1) := by
    rw [Finset.mem_Icc]
    exact ⟨Nat.one_le_iff_ne_zero.2 ht0, Nat.le_sub_one_of_lt ht⟩
  rw [← heq] at htm
  obtain ⟨k, hk, rfl⟩ := Finset.mem_image.1 htm
  exact ⟨k, Finset.mem_range.1 hk, rfl⟩

theorem nextN_mk (k s : Nat) :
    xorshift64.nextN k { state := s } = { state := xorshift64.step^[k] s } := by
  have h := nextN_state k { state := s }
  cases hx : xorshift64.nextN k { state := s } with
  | mk st =>
    rw [hx] at h
    exact congrArg xorshift64.mk h

/-- C20 (maximal period): for every non-zero 64-bit state `s`, `2 ^ 64 - 1`
calls of `next` return to `s`, no smaller positive number of calls does, and
every non-zero 64-bit state is reached from `s`: all non-zero states lie on one
cycle of length `2 ^ 64 - 1`. -/
theorem next_maximal_period (s : Nat) (hs : s < 2 ^ 64) (h0 : s ≠ 0) :
    xorshift64.nextN (2 ^ 64 - 1) { state := s } = { state := s } ∧
    (∀ k : Nat, 1 ≤ k → k < 2 ^ 64 - 1 →
      xorshift64.nextN k { state := s } ≠ { state := s }) ∧
    (∀ t : Nat, t < 2 ^ 64 → t ≠ 0 →
      ∃ k : Nat, k < 2 ^ 64 - 1 ∧ xorshift64.nextN k { state := s } = { state := t }) := by
  refine ⟨?_, ?_, ?_⟩
  · rw [nextN_mk, iterate_step_full s hs]
  · intro k hk hlt h
    rw [nextN_mk] at h
    exact iterate_step_ne s hs h0 k hk hlt (congrArg xorshift64.state h)
  · intro t ht ht0
    obtain ⟨k, hk, hkt⟩ := iterate_step_onto s hs h0 t ht ht0
    exact ⟨k, hk, by rw [nextN_mk, hkt]⟩

/-- Witness for C20: the state 1. -/
theorem next_maximal_period_witness :
    (1 : Nat) < 2 ^ 64 ∧ (1 : Nat) ≠ 0 ∧
    xorshift64.nextN (2 ^ 64 - 1) { state := 1 } = { state := 1 } ∧
    (∀ k : Nat, 1 ≤ k → k < 2 ^ 64 - 1 →
      xorshift64.nextN k { state := 1 } ≠ { state := 1 }) ∧
    (∀ t : Nat, t < 2 ^ 64 → t ≠ 0 →
      ∃ k : Nat, k < 2 ^ 64 - 1 ∧ xorshift64.nextN k { state := 1 } = { state := t }) :=
  ⟨by decide, by decide, next_maximal_period 1 (by decide) (by decide)⟩


/-! ## The stream of a seeded source -/

theorem nextValues_eq (n : Nat) (x : xorshift64) :
    xorshift64.nextValues n x = (List.range n).map (fun i => xorshift64.step^[i + 1] x.state) := by
  induction n generalizing x with
  | zero => rfl
  | succ n ih =>
    rw [xorshift64.nextValues, ih, List.range_succ_eq_map, List.map_cons, List.map_map]
    rfl

theorem nextValues_length (n : Nat) (x : xorshift64) :
    (xorshift64.nextValues n x).length = n := by
  rw [nextValues_eq, List.length_map, List.length_range]

/-- Two different numbers of steps, both at most `2 ^ 64 - 1` apart, lead a
non-zero state to different states. -/
theorem iterate_step_ne_of_lt (s : Nat) (hs : s < 2 ^ 64) (h0 : s ≠ 0) (i j : Nat)
    (hij : i < j) (hj : j - i < 2 ^ 64 - 1) :
    xorshift64.step^[i] s ≠ xorshift64.step^[j] s := by
  intro h
  have e : j = i + (j - i) := by omega
  rw [e, Function.iterate_add_apply] at h
  have h1 := iterate_step_inj i s (xorshift64.step^[j - i] s) hs (iterate_step_lt _ _ hs) h
  exact iterate_step_ne s hs h0 (j - i) (by omega) hj h1.symm

theorem nextValues_nodup (n : Nat) (hn : n ≤ 2 ^ 64 - 1) (x : xorshift64)
    (hs : x.state < 2 ^ 64) (h0 : x.state ≠ 0) : (xorshift64.nextValues n x).Nodup := by
  rw [nextValues_eq]
  refine List.Nodup.map_on ?_ (List.nodup_range n)
  intro i hi j hj h
  rw [List.mem_range] at hi hj
  by_contra hne
  rcases Nat.lt_or_gt_of_ne hne with hlt | hlt
  · exact iterate_step_ne_of_lt x.state hs h0 (i + 1) (j + 1) (by omega) (by omega) h
  · exact iterate_step_ne_of_lt x.state hs h0 (j + 1) (i + 1) (by omega) (by omega) h.symm

/-- C21 (no repetition in the stream): for every `uint64` seed, the first
10,000 values returned by `next()` on `newXorshift64(seed)` are 10,000 pairwise
distinct values. -/
theorem first_values_distinct (seed : Nat) (h : seed < 2 ^ 64) :
    (xorshift64.nextValues 10000 (newXorshift64 seed)).length = 10000 ∧
    (xorshift64.nextValues 10000 (newXorshift64 seed)).Nodup :=
  ⟨nextValues_length _ _,
   nextValues_nodup 10000 (by norm_num) _ (newXorshift64_ne_zero seed h).2
     (newXorshift64_ne_zero seed h).1⟩

/-- Witness for C21: seed 12345, the seed of `TestXorshift64`. -/
theorem first_values_distinct_witness :
    (12345 : Nat) < 2 ^ 64 ∧
    (xorshift64.nextValues 10000 (newXorshift64 12345)).length = 10000 ∧
    (xorshift64.nextValues 10000 (newXorshift64 12345)).Nodup :=
  ⟨by decide, first_values_distinct 12345 (by decide)⟩

/-- C22 (the mixing function): for every 64-bit state `s`, `next()` returns the
word that the specification's three shift-and-xor assignments (left 13, right
7, left 17, in this order, on 64-bit words) produce from `s`, and the new state
is the value returned. -/
theorem next_refines_specNext (x : xorshift64) (h : x.state < 2 ^ 64) :
    x.next.1 = (specNext (BitVec.ofNat 64 x.state)).toNat ∧
    x.next.2 = { state := x.next.1 } ∧
    x.next.1 < 2 ^ 64 := by
  refine ⟨?_, rfl, ?_⟩
  · unfold xorshift64.next specNext
    simp only [BitVec.toNat_xor, BitVec.toNat_shiftLeft, BitVec.toNat_ushiftRight,
      BitVec.toNat_ofNat, Nat.mod_eq_of_lt h]
  · rw [next_eq_step]
    exact step_lt _ h

/-- Witness for C22: the state 12345. -/
theorem next_refines_specNext_witness :
    ({ state := 12345 } : xorshift64).state < 2 ^ 64 ∧
    ({ state := 12345 } : xorshift64).next.1
      = (specNext (BitVec.ofNat 64 ({ state := 12345 } : xorshift64).state)).toNat ∧
    ({ state := 12345 } : xorshift64).next.2
      = { state := ({ state := 12345 } : xorshift64).next.1 } ∧
    ({ state := 12345 } : xorshift64).next.1 < 2 ^ 64 :=
  ⟨by decide, next_refines_specNext { state := 12345 } (by decide)⟩

/-! ## Which operations change the state -/

theorem next_ne_self (x : xorshift64) (hs : x.state < 2 ^ 64) (h0 : x.state ≠ 0) :
    x.next.2 ≠ x := by
  intro h
  have h1 : xorshift64.step^[1] x.state = x.state := congrArg xorshift64.state h
  exact iterate_step_ne x.state hs h0 1 (Nat.le_refl 1) (by norm_num) h1

theorem nextN_ne_self (k : Nat) (hk : 1 ≤ k) (hlt : k < 2 ^ 64 - 1) (x : xorshift64)
    (hs : x.state < 2 ^ 64) (h0 : x.state ≠ 0) : (x.nextN k).state ≠ x.state := by
  rw [nextN_state]
  exact iterate_step_ne x.state hs h0 k hk hlt

/-- C23, as stated, fails: `intn(0)` on the source made by `newXorshift64(12345)`
leaves the state as it was, so not every bound `n` makes `intn(n)` change the
state of a reachable source. -/
theorem intn_not_always_mutating :
    ¬ (∀ x : xorshift64, Reachable samplePools x → ∀ n : Int, (x.intn n).2 ≠ x) := by
  intro h
  exact h (newXorshift64 12345) (Reachable.seed 12345 (by decide)) 0 (by decide)

/-- C23, amended: on every reachable source, `next()` changes the state,
`intn(n)` changes it when `n > 0`, and `pick` changes it when it returns (the
slice is non-empty); `intn(n)` with `n <= 0` returns 0 and leaves the state as
it was. -/
theorem draw_mutates_state (P : Pools) (x : xorshift64) (hx : Reachable P x) :
    x.next.2 ≠ x ∧
    (∀ n : Int, 0 < n → (x.intn n).2 ≠ x) ∧
    (∀ n : Int, n ≤ 0 → x.intn n = (0, x)) ∧
    (∀ (α : Type) (s : List α), 0 < s.length → ∃ v x1, pick x s = some (v, x1) ∧ x1 ≠ x) ∧
    (∀ (α : Type) (s : List α) (v : α) (x1 : xorshift64), pick x s = some (v, x1) → x1 ≠ x) := by
  have hz := Reachable.ne_zero P x hx
  have hn := next_ne_self x hz.2 hz.1
  refine ⟨hn, ?_, ?_, ?_, ?_⟩
  · intro n h
    rw [intn_state, if_neg (not_le.mpr h)]
    exact hn
  · intro n h
    unfold xorshift64.intn
    rw [if_pos h]
  · intro α s hs
    exact ⟨_, _, pick_eq x s hs, hn⟩
  · intro α s v x1 h
    rw [pick_state x x1 s v h]
    exact hn

/-- Witness for C23: the source made by `newXorshift64(12345)`. -/
theorem draw_mutates_state_witness :
    Reachable samplePools (newXorshift64 12345) ∧
    (newXorshift64 12345).next.2 ≠ newXorshift64 12345 ∧
    (∀ n : Int, 0 < n → ((newXorshift64 12345).intn n).2 ≠ newXorshift64 12345) ∧
    (∀ n : Int, n ≤ 0 → (newXorshift64 12345).intn n = (0, newXorshift64 12345)) ∧
    (∀ (α : Type) (s : List α), 0 < s.length →
      ∃ v x1, pick (newXorshift64 12345) s = some (v, x1) ∧ x1 ≠ newXorshift64 12345) ∧
    (∀ (α : Type) (s : List α) (v : α) (x1 : xorshift64),
      pick (newXorshift64 12345) s = some (v, x1) → x1 ≠ newXorshift64 12345) :=
  ⟨Reachable.seed 12345 (by decide),
   draw_mutates_state samplePools (newXorshift64 12345) (Reachable.seed 12345 (by decide))⟩

/-! ## A call changes `State()` -/

/-- C26 (a call changes the state): with non-empty pools and any `uint64` seed,
`Chrome()` on `WithSeed(seed)` returns and leaves the generator three `next`
steps on, in a state different from `State()` before the call and from the
seed; three applications of `next` never return a non-zero 64-bit state to
itself. -/
theorem Chrome_changes_state (P : Pools) (hP : P.NonEmpty) (seed : Nat) (h : seed < 2 ^ 64) :
    (∃ s g1, (WithSeed seed).Chrome P = some (s, g1) ∧
      g1.rng = (WithSeed seed).rng.nextN 3 ∧
      g1.State ≠ (WithSeed seed).State ∧ g1.State ≠ seed) ∧
    (∀ x : xorshift64, x.state < 2 ^ 64 → x.state ≠ 0 →
      x.next.2.next.2.next.2.state ≠ x.state) := by
  have hz := newXorshift64_ne_zero seed h
  have h3 : ∀ x : xorshift64, x.state < 2 ^ 64 → x.state ≠ 0 →
      x.next.2.next.2.next.2.state ≠ x.state := fun x hs h0 =>
    nextN_ne_self 3 (by decide) (by norm_num) x hs h0
  refine ⟨?_, h3⟩
  obtain ⟨s, hc⟩ := Chrome_some P (WithSeed seed) hP
  refine ⟨s, _, hc, rfl, h3 _ hz.2 hz.1, ?_⟩
  intro he
  by_cases hs : seed = 0
  · have hne := (nextN_state_ne_zero 3 (newXorshift64 seed) hz.2 hz.1).1
    apply hne
    exact he.trans hs
  · apply h3 (newXorshift64 seed) hz.2 hz.1
    have e : (newXorshift64 seed).state = seed := by
      unfold newXorshift64
      rw [if_neg hs]
    rw [e]
    exact he

/-- Witness for C26: seed 12345 on `samplePools`, as in `TestGeneratorState`. -/
theorem Chrome_changes_state_witness :
    samplePools.NonEmpty ∧ (12345 : Nat) < 2 ^ 64 ∧
    (∃ s g1, (WithSeed 12345).Chrome samplePools = some (s, g1) ∧
      g1.rng = (WithSeed 12345).rng.nextN 3 ∧
      g1.State ≠ (WithSeed 12345).State ∧ g1.State ≠ 12345) ∧
    (∀ x : xorshift64, x.state < 2 ^ 64 → x.state ≠ 0 →
      x.next.2.next.2.next.2.state ≠ x.state) :=
  ⟨by decide, by decide, Chrome_changes_state samplePools (by decide) 12345 (by decide)⟩

/-! ## Draw counts of the per-format methods -/

theorem call_draws (P : Pools) (m : Method) (hm : m ∈ perFormatMethods) (g g1 : Generator)
    (s : String) (h : g.call P m = some (s, g1)) : g1.rng = g.rng.nextN (specDraws m) := by
  cases m
  case Chrome => exact Chrome_state P g g1 s h
  case ChromeWindows => exact ChromeWindows_state P g g1 s h
  case ChromeMac => exact ChromeMac_state P g g1 s h
  case ChromeLinux => exact ChromeLinux_state P g g1 s h
  case Firefox => exact Firefox_state P g g1 s h
  case FirefoxWindows => exact FirefoxWindows_state P g g1 s h
  case FirefoxMac => exact FirefoxMac_state P g g1 s h
  case Safari => exact Safari_state P g g1 s h
  case Edge => exact Edge_state P g g1 s h
  case EdgeWindows => exact EdgeWindows_state P g g1 s h
  case SafariIOS => exact SafariIOS_state P g g1 s h
  case SafariIPad => exact SafariIPad_state P g g1 s h
  case ChromeIOS => exact ChromeIOS_state P g g1 s h
  case ChromeAndroid => exact ChromeAndroid_state P g g1 s h
  case AndroidWebView => exact AndroidWebView_state P g g1 s h
  case FirefoxAndroid => exact FirefoxAndroid_state P g g1 s h
  case SamsungBrowser => exact SamsungBrowser_state P g g1 s h
  case EdgeAndroid => exact EdgeAndroid_state P g g1 s h
  case Random => exact absurd hm (by decide)
  case RandomDesktop => exact absurd hm (by decide)
  case RandomMobile => exact absurd hm (by decide)
  case RandomBot => exact absurd hm (by decide)

/-- C24 (fixed draw counts): each of the eighteen per-format methods makes the
number `k` of draws that the specification lists for it, `1 <= k <= 4`: whenever
the call returns, whatever the state, the branch and the pools, the source is
left `k` steps of `next` on; with non-empty pools the call returns from every
state; and in a heap the call changes nothing but the cell of the source that
the generator points to. -/
theorem per_format_draws (P : Pools) (m : Method) (hm : m ∈ perFormatMethods) :
    1 ≤ specDraws m ∧ specDraws m ≤ 4 ∧
    (∀ (g g1 : Generator) (s : String), g.call P m = some (s, g1) →
      g1.rng = g.rng.nextN (specDraws m)) ∧
    (P.NonEmpty → ∀ g : Generator,
      ∃ s, g.call P m = some (s, { rng := g.rng.nextN (specDraws m) })) ∧
    (∀ (h h1 : Heap) (p : Nat) (s : String), h.call P p m = some (s, h1) →
      ∃ a x, h.gens[p]? = some a ∧ h.rngs[a]? = some x ∧
        h1 = { h with rngs := h.rngs.set a (x.nextN (specDraws m)) }) := by
  refine ⟨?_, ?_, fun g g1 s h => call_draws P m hm g g1 s h, ?_, ?_⟩
  · revert m; decide
  · revert m; decide
  · intro hP g
    obtain ⟨⟨s, g1⟩, h⟩ := call_some P hP m g
    have e := call_draws P m hm g g1 s h
    refine ⟨s, ?_⟩
    rw [h, ← e]
  · intro h h1 p s hc
    obtain ⟨a, x, g1, hp, hx, hcall, rfl⟩ := Heap.call_inv P h h1 p m s hc
    have e := call_draws P m hm _ g1 s hcall
    exact ⟨a, x, hp, hx, by rw [e]⟩

/-- Witness for C24: `Edge()` on `samplePools`. -/
theorem per_format_draws_witness :
    Method.Edge ∈ perFormatMethods ∧ samplePools.NonEmpty ∧
    1 ≤ specDraws Method.Edge ∧ specDraws Method.Edge ≤ 4 ∧
    (∀ (g g1 : Generator) (s : String), g.call samplePools Method.Edge = some (s, g1) →
      g1.rng = g.rng.nextN (specDraws Method.Edge)) ∧
    (samplePools.NonEmpty → ∀ g : Generator,
      ∃ s, g.call samplePools Method.Edge
        = some (s, { rng := g.rng.nextN (specDraws Method.Edge) })) ∧
    (∀ (h h1 : Heap) (p : Nat) (s : String), h.call samplePools p Method.Edge = some (s, h1) →
      ∃ a x, h.gens[p]? = some a ∧ h.rngs[a]? = some x ∧
        h1 = { h with rngs := h.rngs.set a (x.nextN (specDraws Method.Edge)) }) :=
  ⟨by decide, by decide, per_format_draws samplePools Method.Edge (by decide)⟩

/-! ## Draws of `Chrome` and `Firefox` by branch -/

theorem nextN_three_ne_two (x : xorshift64) (hs : x.state < 2 ^ 64) (h0 : x.state ≠ 0) :
    x.nextN 3 ≠ x.nextN 2 := by
  intro h
  have h1 := congrArg xorshift64.state h
  rw [nextN_state, nextN_state] at h1
  exact iterate_step_ne_of_lt x.state hs h0 2 3 (by decide) (by norm_num) h1.symm

/-- C25, as stated, fails: on `samplePools`, `Chrome()` and `Firefox()` take
the Linux branch on `WithSeed(1)` and the Windows branch on `WithSeed(2)`, and
in both branches the call leaves the source three `next` steps on, not two:
the Linux branch consumes as many draws as the Windows branch. -/
theorem Linux_branch_draws_three :
    (WithSeed 1).rng.next.2.next.1 % 3 = 2 ∧
    (WithSeed 2).rng.next.2.next.1 % 3 = 0 ∧
    (WithSeed 1).Chrome samplePools = some
      ("Mozilla/5.0 (X11; Ubuntu; Linux x86_64) AppleWebKit/537.36 (KHTML, like Gecko) " ++
        "Chrome/130.0.6723.117 Safari/537.36", { rng := (WithSeed 1).rng.nextN 3 }) ∧
    (WithSeed 2).Chrome samplePools = some
      ("Mozilla/5.0 (Windows NT 10.0; Win64; x64) AppleWebKit/537.36 (KHTML, like Gecko) " ++
        "Chrome/131.0.6778.85 Safari/537.36", { rng := (WithSeed 2).rng.nextN 3 }) ∧
    (WithSeed 1).Firefox samplePools = some
      ("Mozilla/5.0 (X11; Ubuntu; Linux x86_64; rv:132.0) Gecko/20100101 Firefox/132.0",
        { rng := (WithSeed 1).rng.nextN 3 }) ∧
    (WithSeed 2).Firefox samplePools = some
      ("Mozilla/5.0 (Windows NT 10.0; Win64; x64; rv:133.0) Gecko/20100101 Firefox/133.0",
        { rng := (WithSeed 2).rng.nextN 3 }) ∧
    (WithSeed 1).rng.nextN 3 ≠ (WithSeed 1).rng.nextN 2 ∧
    (WithSeed 1).rng.nextN 3 = { state := 11177516664432764457 } ∧
    (WithSeed 1).rng.nextN 2 = { state := 1152992998833853505 } := by
  decide

/-- C25, amended: with non-empty pools, `Chrome()` and `Firefox()` on a
reachable generator consume three draws in every branch (the state afterwards
is the third state of the stream, which differs from the second): the version,
the platform choice, and one platform-specific fragment, which is a Windows
version, a macOS version, or a pre-formatted Linux platform string. -/
theorem Chrome_Firefox_three_draws (P : Pools) (hP : P.NonEmpty) (g : Generator)
    (hx : Reachable P g.rng) :
    (∃ s, g.Chrome P = some (s, { rng := g.rng.nextN 3 })) ∧
    (∃ s, g.Firefox P = some (s, { rng := g.rng.nextN 3 })) ∧
    g.rng.nextN 3 ≠ g.rng.nextN 2 ∧
    (g.rng.next.2.next.1 % 3 = 0 → ∃ c f w,
      pick g.rng P.chromeVersions = some (c, g.rng.nextN 1) ∧
      pick g.rng P.firefoxVersions = some (f, g.rng.nextN 1) ∧
      pick (g.rng.nextN 2) P.windowsVersions = some (w, g.rng.nextN 3) ∧
      g.Chrome P = some
        ("Mozilla/5.0 (" ++ ("Windows NT " ++ w ++ "; Win64; x64") ++
          ") AppleWebKit/537.36 (KHTML, like Gecko) Chrome/" ++ c ++ " Safari/537.36",
         { rng := g.rng.nextN 3 }) ∧
      g.Firefox P = some
        ("Mozilla/5.0 (" ++ ("Windows NT " ++ w ++ "; Win64; x64") ++ "; rv:" ++ f ++
          ") Gecko/20100101 Firefox/" ++ f, { rng := g.rng.nextN 3 })) ∧
    (g.rng.next.2.next.1 % 3 = 1 → ∃ c f m,
      pick g.rng P.chromeVersions = some (c, g.rng.nextN 1) ∧
      pick g.rng P.firefoxVersions = some (f, g.rng.nextN 1) ∧
      pick (g.rng.nextN 2) P.macVersions = some (m, g.rng.nextN 3) ∧
      g.Chrome P = some
        ("Mozilla/5.0 (" ++ ("Macintosh; Intel Mac OS X " ++ m) ++
          ") AppleWebKit/537.36 (KHTML, like Gecko) Chrome/" ++ c ++ " Safari/537.36",
         { rng := g.rng.nextN 3 }) ∧
      g.Firefox P = some
        ("Mozilla/5.0 (" ++ ("Macintosh; Intel Mac OS X " ++ m) ++ "; rv:" ++ f ++
          ") Gecko/20100101 Firefox/" ++ f, { rng := g.rng.nextN 3 })) ∧
    (g.rng.next.2.next.1 % 3 = 2 → ∃ c f l,
      pick g.rng P.chromeVersions = some (c, g.rng.nextN 1) ∧
      pick g.rng P.firefoxVersions = some (f, g.rng.nextN 1) ∧
      pick (g.rng.nextN 2) P.linuxDesktops = some (l, g.rng.nextN 3) ∧
      g.Chrome P = some
        ("Mozilla/5.0 (" ++ l ++
          ") AppleWebKit/537.36 (KHTML, like Gecko) Chrome/" ++ c ++ " Safari/537.36",
         { rng := g.rng.nextN 3 }) ∧
      g.Firefox P = some
        ("Mozilla/5.0 (" ++ l ++ "; rv:" ++ f ++
          ") Gecko/20100101 Firefox/" ++ f, { rng := g.rng.nextN 3 })) := by
  have hz := Reachable.ne_zero P g.rng hx
  have hP2 : P.NonEmpty := hP
  obtain ⟨hc, hf, -, -, hw, hm, hl, -, -, -⟩ := hP
  refine ⟨Chrome_some P g hP2, Firefox_some P g hP2, nextN_three_ne_two g.rng hz.2 hz.1,
    ?_, ?_, ?_⟩
  · intro h
    exact ⟨_, _, _, pick_eq g.rng _ hc, pick_eq g.rng _ hf, pick_eq (g.rng.nextN 2) _ hw,
      Chrome_windows P g hc hw h, Firefox_windows P g hf hw h⟩
  · intro h
    exact ⟨_, _, _, pick_eq g.rng _ hc, pick_eq g.rng _ hf, pick_eq (g.rng.nextN 2) _ hm,
      Chrome_mac P g hc hm h, Firefox_mac P g hf hm h⟩
  · intro h
    exact ⟨_, _, _, pick_eq g.rng _ hc, pick_eq g.rng _ hf, pick_eq (g.rng.nextN 2) _ hl,
      Chrome_linux P g hc hl h, Firefox_linux P g hf hl h⟩

/-- Witness for C25: `WithSeed(1)` on `samplePools`, a state whose platform
choice is the Linux branch. -/
theorem Chrome_Firefox_three_draws_witness :
    samplePools.NonEmpty ∧ Reachable samplePools (WithSeed 1).rng ∧
    (WithSeed 1).rng.next.2.next.1 % 3 = 2 ∧
    ((∃ s, (WithSeed 1).Chrome samplePools = some (s, { rng := (WithSeed 1).rng.nextN 3 })) ∧
    (∃ s, (WithSeed 1).Firefox samplePools = some (s, { rng := (WithSeed 1).rng.nextN 3 })) ∧
    (WithSeed 1).rng.nextN 3 ≠ (WithSeed 1).rng.nextN 2 ∧
    ((WithSeed 1).rng.next.2.next.1 % 3 = 0 → ∃ c f w,
      pick (WithSeed 1).rng samplePools.chromeVersions = some (c, (WithSeed 1).rng.nextN 1) ∧
      pick (WithSeed 1).rng samplePools.firefoxVersions = some (f, (WithSeed 1).rng.nextN 1) ∧
      pick ((WithSeed 1).rng.nextN 2) samplePools.windowsVersions
        = some (w, (WithSeed 1).rng.nextN 3) ∧
      (WithSeed 1).Chrome samplePools = some
        ("Mozilla/5.0 (" ++ ("Windows NT " ++ w ++ "; Win64; x64") ++
          ") AppleWebKit/537.36 (KHTML, like Gecko) Chrome/" ++ c ++ " Safari/537.36",
         { rng := (WithSeed 1).rng.nextN 3 }) ∧
      (WithSeed 1).Firefox samplePools = some
        ("Mozilla/5.0 (" ++ ("Windows NT " ++ w ++ "; Win64; x64") ++ "; rv:" ++ f ++
          ") Gecko/20100101 Firefox/" ++ f, { rng := (WithSeed 1).rng.nextN 3 })) ∧
    ((WithSeed 1).rng.next.2.next.1 % 3 = 1 → ∃ c f m,
      pick (WithSeed 1).rng samplePools.chromeVersions = some (c, (WithSeed 1).rng.nextN 1) ∧
      pick (WithSeed 1).rng samplePools.firefoxVersions = some (f, (WithSeed 1).rng.nextN 1) ∧
      pick ((WithSeed 1).rng.nextN 2) samplePools.macVersions
        = some (m, (WithSeed 1).rng.nextN 3) ∧
      (WithSeed 1).Chrome samplePools = some
        ("Mozilla/5.0 (" ++ ("Macintosh; Intel Mac OS X " ++ m) ++
          ") AppleWebKit/537.36 (KHTML, like Gecko) Chrome/" ++ c ++ " Safari/537.36",
         { rng := (WithSeed 1).rng.nextN 3 }) ∧
      (WithSeed 1).Firefox samplePools = some
        ("Mozilla/5.0 (" ++ ("Macintosh; Intel Mac OS X " ++ m) ++ "; rv:" ++ f ++
          ") Gecko/20100101 Firefox/" ++ f, { rng := (WithSeed 1).rng.nextN 3 })) ∧
    ((WithSeed 1).rng.next.2.next.1 % 3 = 2 → ∃ c f l,
      pick (WithSeed 1).rng samplePools.chromeVersions = some (c, (WithSeed 1).rng.nextN 1) ∧
      pick (WithSeed 1).rng samplePools.firefoxVersions = some (f, (WithSeed 1).rng.nextN 1) ∧
      pick ((WithSeed 1).rng.nextN 2) samplePools.linuxDesktops
        = some (l, (WithSeed 1).rng.nextN 3) ∧
      (WithSeed 1).Chrome samplePools = some
        ("Mozilla/5.0 (" ++ l ++
          ") AppleWebKit/537.36 (KHTML, like Gecko) Chrome/" ++ c ++ " Safari/537.36",
         { rng := (WithSeed 1).rng.nextN 3 }) ∧
      (WithSeed 1).Firefox samplePools = some
        ("Mozilla/5.0 (" ++ l ++ "; rv:" ++ f ++
          ") Gecko/20100101 Firefox/" ++ f, { rng := (WithSeed 1).rng.nextN 3 }))) :=
  ⟨by decide, Reachable.seed 1 (by decide), by decide,
   Chrome_Firefox_three_draws samplePools (by decide) (WithSeed 1)
     (Reachable.seed 1 (by decide))⟩

/-! ## `State()` as a snapshot -/

theorem newXorshift64_of_ne_zero (s : Nat) (h : s ≠ 0) : newXorshift64 s = { state := s } := by
  unfold newXorshift64
  rw [if_neg h]

/-- For a generator whose state is not zero, `WithSeed(g.State())` is the
generator value `g.Clone()`, which is `g` itself as a value. -/
theorem WithSeed_State (g : Generator) (h : g.rng.state ≠ 0) :
    WithSeed g.State = g.Clone ∧ g.Clone = g := by
  refine ⟨?_, rfl⟩
  unfold WithSeed Generator.State Generator.Clone
  rw [newXorshift64_of_ne_zero _ h]

/-- C30 (snapshot and restore): for every reachable generator `g` in a heap,
`p.State()` is a read (the heap is not an output of it), and `WithSeed` of the
value read makes a new generator that has the state of `p` and of `g.Clone()`;
the new generator and `p`, driven in lockstep, return pairwise identical
strings for every method sequence, those of `g`, and end in equal states.  For
a generator in state 0, which is not reachable, `WithSeed(State())` has another
state. -/
theorem State_restores (P : Pools) (hP : P.NonEmpty) (h : Heap) (p : Nat) (g : Generator)
    (hg : h.deref p = some g) (hx : Reachable P g.rng) :
    h.State p = some g.State ∧
    WithSeed g.State = g.Clone ∧ (WithSeed g.State).State = g.State ∧
    (∀ ms : List Method, (WithSeed g.State).run P ms = g.run P ms) ∧
    (h.WithSeed g.State).1 ≠ p ∧
    (h.WithSeed g.State).2.State p = some g.State ∧
    (h.WithSeed g.State).2.State (h.WithSeed g.State).1 = some g.State ∧
    (∀ ms : List Method, ∃ outs h2 g1,
      (h.WithSeed g.State).2.lockstep P p (h.WithSeed g.State).1 ms = some (outs, h2) ∧
      outs.length = ms.length ∧ (∀ o ∈ outs, o.1 = o.2) ∧
      g.run P ms = some (outs.map Prod.fst, g1) ∧
      h2.State p = some g1.State ∧ h2.State (h.WithSeed g.State).1 = some g1.State) ∧
    WithSeed (Generator.State { rng := { state := 0 } }) ≠ { rng := { state := 0 } } := by
  have hz := Reachable.ne_zero P g.rng hx
  have hw := WithSeed_State g hz.1
  have hd := hg
  unfold Heap.deref at hd
  cases hp : h.gens[p]? with
  | none => simp [hp] at hd
  | some a =>
    cases ha : h.rngs[a]? with
    | none => simp [hp, ha] at hd
    | some x =>
      simp only [hp, ha, Option.bind_eq_bind, Option.some_bind, Option.pure_def,
        Option.some.injEq] at hd
      subst hd
      have hplt : p < h.gens.length := (List.getElem?_eq_some_iff.mp hp).1
      have halt : a < h.rngs.length := (List.getElem?_eq_some_iff.mp ha).1
      have hne : a ≠ h.rngs.length := Nat.ne_of_lt halt
      have hp1 : (h.WithSeed x.state).2.gens[p]? = some a := by
        simp only [Heap.WithSeed]
        rw [List.getElem?_append_left hplt]
        exact hp
      have hq1 : (h.WithSeed x.state).2.gens[(h.WithSeed x.state).1]? = some h.rngs.length := by
        simp only [Heap.WithSeed]
        exact List.getElem?_concat_length _ _
      have ha1 : (h.WithSeed x.state).2.rngs[a]? = some x := by
        simp only [Heap.WithSeed]
        rw [List.getElem?_append_left halt]
        exact ha
      have hb1 : (h.WithSeed x.state).2.rngs[h.rngs.length]? = some x := by
        simp only [Heap.WithSeed]
        rw [List.getElem?_concat_length]
        exact congrArg some (newXorshift64_of_ne_zero _ hz.1)
      refine ⟨Heap.State_of h p a x hp ha, hw.1, ?_, ?_, ?_, ?_, ?_, ?_, by decide⟩
      · rw [hw.1]; rfl
      · intro ms
        rw [hw.1]; rfl
      · exact Ne.symm (Nat.ne_of_lt hplt)
      · exact Heap.State_of _ p a x hp1 ha1
      · exact Heap.State_of _ _ _ x hq1 hb1
      · intro ms
        obtain ⟨ss, g1, hr, hlen⟩ := run_some P hP ms { rng := x }
        obtain ⟨h2, hl, hgens, ha2, hb2⟩ :=
          Heap.lockstep_eq_run P ms (h.WithSeed x.state).2 p (h.WithSeed x.state).1 a
            h.rngs.length { rng := x } g1 ss hne hp1 hq1 ha1 hb1 hr
        refine ⟨ss.zip ss, h2, g1, hl, ?_, ?_, ?_, ?_, ?_⟩
        · rw [List.length_zip, hlen, Nat.min_self]
        · intro o ho
          exact zip_self_eq ss o ho
        · rw [zip_self_fst]; exact hr
        · exact Heap.State_of h2 _ _ _ (by rw [hgens]; exact hp1) ha2
        · exact Heap.State_of h2 _ _ _ (by rw [hgens]; exact hq1) hb2

/-- Witness for C30: the generator made by `WithSeed(12345)` in an empty heap. -/
theorem State_restores_witness :
    samplePools.NonEmpty ∧
    ((Heap.mk [] []).WithSeed 12345).2.deref 0 = some (WithSeed 12345) ∧
    Reachable samplePools (WithSeed 12345).rng ∧
    (((Heap.mk [] []).WithSeed 12345).2.State 0 = some (WithSeed 12345).State ∧
    WithSeed (WithSeed 12345).State = (WithSeed 12345).Clone ∧
    (WithSeed (WithSeed 12345).State).State = (WithSeed 12345).State ∧
    (∀ ms : List Method,
      (WithSeed (WithSeed 12345).State).run samplePools ms
        = (WithSeed 12345).run samplePools ms) ∧
    (((Heap.mk [] []).WithSeed 12345).2.WithSeed (WithSeed 12345).State).1 ≠ 0 ∧
    (((Heap.mk [] []).WithSeed 12345).2.WithSeed (WithSeed 12345).State).2.State 0
      = some (WithSeed 12345).State ∧
    (((Heap.mk [] []).WithSeed 12345).2.WithSeed (WithSeed 12345).State).2.State
        (((Heap.mk [] []).WithSeed 12345).2.WithSeed (WithSeed 12345).State).1
      = some (WithSeed 12345).State ∧
    (∀ ms : List Method, ∃ outs h2 g1,
      (((Heap.mk [] []).WithSeed 12345).2.WithSeed (WithSeed 12345).State).2.lockstep
          samplePools 0
          (((Heap.mk [] []).WithSeed 12345).2.WithSeed (WithSeed 12345).State).1 ms
        = some (outs, h2) ∧
      outs.length = ms.length ∧ (∀ o ∈ outs, o.1 = o.2) ∧
      (WithSeed 12345).run samplePools ms = some (outs.map Prod.fst, g1) ∧
      h2.State 0 = some g1.State ∧
      h2.State (((Heap.mk [] []).WithSeed 12345).2.WithSeed (WithSeed 12345).State).1
        = some g1.State) ∧
    WithSeed (Generator.State { rng := { state := 0 } }) ≠ { rng := { state := 0 } }) :=
  ⟨by decide, by decide, Reachable.seed 12345 (by decide),
   State_restores samplePools (by decide) ((Heap.mk [] []).WithSeed 12345).2 0 (WithSeed 12345)
     (by decide) (Reachable.seed 12345 (by decide))⟩

/-! ## Byte lengths of the strings returned -/

theorem len_append (a b : String) : len (a ++ b) = len a + len b := by
  show String.utf8Len (a.data ++ b.data) = String.utf8Len a.data + String.utf8Len b.data
  exact String.utf8Len_append _ _

theorem ne_empty_of_len (s : String) (h : 50 ≤ len s) : s ≠ "" := by
  intro e
  rw [e] at h
  exact absurd h (by decide)

theorem len_literal_00 : len "" = 0 := by decide

theorem len_literal_01 : len "537.36" = 6 := by decide

theorem len_literal_02 : len "605.1.15" = 8 := by decide

theorem len_literal_03 : len "Mozilla/5.0 (iPhone; CPU iPhone OS " = 35 := by decide

theorem len_literal_04 : len " like Mac OS X) AppleWebKit/" = 28 := by decide

theorem len_literal_05 : len " (KHTML, like Gecko) Version/" = 29 := by decide

theorem len_literal_06 : len " Mobile/15E148 Safari/" = 22 := by decide

theorem len_literal_07 : len "Mozilla/5.0 (iPad; CPU OS " = 26 := by decide

theorem len_literal_08 : len " (KHTML, like Gecko) CriOS/" = 27 := by decide

theorem len_literal_09 : len "Mozilla/5.0 (Linux; Android " = 28 := by decide

theorem len_literal_10 : len "; " = 2 := by decide

theorem len_literal_11 : len " Build/" = 7 := by decide

theorem len_literal_12 : len ") AppleWebKit/" = 14 := by decide

theorem len_literal_13 : len " (KHTML, like Gecko) Chrome/" = 28 := by decide

theorem len_literal_14 : len " Mobile Safari/" = 15 := by decide

theorem len_literal_15 : len "; wv) AppleWebKit/" = 18 := by decide

theorem len_literal_16 : len " (KHTML, like Gecko) Version/4.0 Chrome/" = 40 := by decide

theorem len_literal_17 : len "Mozilla/5.0 (Android " = 21 := by decide

theorem len_literal_18 : len "; Mobile; rv:" = 13 := by decide

theorem len_literal_19 : len ") Gecko/" = 8 := by decide

theorem len_literal_20 : len " Firefox/" = 9 := by decide

theorem len_literal_21 : len " (KHTML, like Gecko) SamsungBrowser/25.0 Chrome/" = 48 := by decide

theorem len_literal_22 : len " EdgA/" = 6 := by decide

theorem len_literal_23 : len "Mozilla/5.0 (Windows NT " = 24 := by decide

theorem len_literal_24 : len "; Win64; x64) AppleWebKit/" = 26 := by decide

theorem len_literal_25 : len " Safari/" = 8 := by decide

theorem len_literal_26 : len "Mozilla/5.0 (Macintosh; Intel Mac OS X " = 39 := by decide

theorem len_literal_27 : len "Mozilla/5.0 (" = 13 := by decide

theorem len_literal_28 : len "; Win64; x64; rv:" = 17 := by decide

theorem len_literal_29 : len ") Gecko/20100101 Firefox/" = 25 := by decide

theorem len_literal_30 : len "; rv:" = 5 := by decide

theorem len_literal_31 : len " Edg/" = 5 := by decide

theorem SafariIOS_len (P : Pools) (g g1 : Generator) (s : String)
    (h : g.SafariIOS P = some (s, g1)) : 50 ≤ len s := by
  unfold Generator.SafariIOS at h
  simp only [pick_eq_dite, Option.bind_eq_bind, Option.pure_def] at h
  split_ifs at h <;>
    simp only [Option.some_bind, Option.none_bind, Option.some.injEq, Prod.mk.injEq,
      reduceCtorEq] at h
  rw [← h.1]
  simp only [WriteString, len_append, webkitVersion, appleWebKitChrome,
    len_literal_00, len_literal_03, len_literal_04, len_literal_02, len_literal_05,
    len_literal_06]
  omega

theorem SafariIPad_len (P : Pools) (g g1 : Generator) (s : String)
    (h : g.SafariIPad P = some (s, g1)) : 50 ≤ len s := by
  unfold Generator.SafariIPad at h
  simp only [pick_eq_dite, Option.bind_eq_bind, Option.pure_def] at h
  split_ifs at h <;>
    simp only [Option.some_bind, Option.none_bind, Option.some.injEq, Prod.mk.injEq,
      reduceCtorEq] at h
  rw [← h.1]
  simp only [WriteString, len_append, webkitVersion, appleWebKitChrome,
    len_literal_00, len_literal_07, len_literal_04, len_literal_02, len_literal_05,
    len_literal_06]
  omega

theorem ChromeIOS_len (P : Pools) (g g1 : Generator) (s : String)
    (h : g.ChromeIOS P = some (s, g1)) : 50 ≤ len s := by
  unfold Generator.ChromeIOS at h
  simp only [pick_eq_dite, Option.bind_eq_bind, Option.pure_def] at h
  split_ifs at h <;>
    simp only [Option.some_bind, Option.none_bind, Option.some.injEq, Prod.mk.injEq,
      reduceCtorEq] at h
  rw [← h.1]
  simp only [WriteString, len_append, webkitVersion, appleWebKitChrome,
    len_literal_00, len_literal_03, len_literal_04, len_literal_01, len_literal_08,
    len_literal_06]
  omega

theorem ChromeAndroid_len (P : Pools) (g g1 : Generator) (s : String)
    (h : g.ChromeAndroid P = some (s, g1)) : 50 ≤ len s := by
  unfold Generator.ChromeAndroid at h
  simp only [pick_eq_dite, Option.bind_eq_bind, Option.pure_def] at h
  split_ifs at h <;>
    simp only [Option.some_bind, Option.none_bind, Option.some.injEq, Prod.mk.injEq,
      reduceCtorEq] at h
  rw [← h.1]
  simp only [WriteString, len_append, webkitVersion, appleWebKitChrome,
    len_literal_00, len_literal_09, len_literal_10, len_literal_11, len_literal_12,
    len_literal_01, len_literal_13, len_literal_14]
  omega

theorem AndroidWebView_len (P : Pools) (g g1 : Generator) (s : String)
    (h : g.AndroidWebView P = some (s, g1)) : 50 ≤ len s := by
  unfold Generator.AndroidWebView at h
  simp only [pick_eq_dite, Option.bind_eq_bind, Option.pure_def] at h
  split_ifs at h <;>
    simp only [Option.some_bind, Option.none_bind, Option.some.injEq, Prod.mk.injEq,
      reduceCtorEq] at h
  rw [← h.1]
  simp only [WriteString, len_append, webkitVersion, appleWebKitChrome,
    len_literal_00, len_literal_09, len_literal_10, len_literal_11, len_literal_15,
    len_literal_01, len_literal_16, len_literal_14]
  omega

theorem FirefoxAndroid_len (P : Pools) (g g1 : Generator) (s : String)
    (h : g.FirefoxAndroid P = some (s, g1)) : 50 ≤ len s := by
  unfold Generator.FirefoxAndroid at h
  simp only [pick_eq_dite, Option.bind_eq_bind, Option.pure_def] at h
  split_ifs at h <;>
    simp only [Option.some_bind, Option.none_bind, Option.some.injEq, Prod.mk.injEq,
      reduceCtorEq] at h
  rw [← h.1]
  simp only [WriteString, len_append, webkitVersion, appleWebKitChrome,
    len_literal_00, len_literal_17, len_literal_18, len_literal_19, len_literal_20]
  omega

theorem SamsungBrowser_len (P : Pools) (g g1 : Generator) (s : String)
    (h : g.SamsungBrowser P = some (s, g1)) : 50 ≤ len s := by
  unfold Generator.SamsungBrowser at h
  simp only [pick_eq_dite, Option.bind_eq_bind, Option.pure_def] at h
  split_ifs at h <;>
    simp only [Option.some_bind, Option.none_bind, Option.some.injEq, Prod.mk.injEq,
      reduceCtorEq] at h
  rw [← h.1]
  simp only [WriteString, len_append, webkitVersion, appleWebKitChrome,
    len_literal_00, len_literal_09, len_literal_10, len_literal_11, len_literal_12,
    len_literal_01, len_literal_21, len_literal_14]
  omega

theorem EdgeAndroid_len (P : Pools) (g g1 : Generator) (s : String)
    (h : g.EdgeAndroid P = some (s, g1)) : 50 ≤ len s := by
  unfold Generator.EdgeAndroid at h
  simp only [pick_eq_dite, Option.bind_eq_bind, Option.pure_def] at h
  split_ifs at h <;>
    simp only [Option.some_bind, Option.none_bind, Option.some.injEq, Prod.mk.injEq,
      reduceCtorEq] at h
  rw [← h.1]
  simp only [WriteString, len_append, webkitVersion, appleWebKitChrome,
    len_literal_00, len_literal_09, len_literal_10, len_literal_11, len_literal_12,
    len_literal_01, len_literal_13, len_literal_14, len_literal_22]
  omega

theorem ChromeWindows_len (P : Pools) (g g1 : Generator) (s : String)
    (h : g.ChromeWindows P = some (s, g1)) : 50 ≤ len s := by
  unfold Generator.ChromeWindows at h
  simp only [pick_eq_dite, Option.bind_eq_bind, Option.pure_def] at h
  split_ifs at h <;>
    simp only [Option.some_bind, Option.none_bind, Option.some.injEq, Prod.mk.injEq,
      reduceCtorEq] at h
  rw [← h.1]
  simp only [WriteString, len_append, webkitVersion, appleWebKitChrome,
    len_literal_00, len_literal_23, len_literal_24, len_literal_01, len_literal_13,
    len_literal_25]
  omega

theorem ChromeMac_len (P : Pools) (g g1 : Generator) (s : String)
    (h : g.ChromeMac P = some (s, g1)) : 50 ≤ len s := by
  unfold Generator.ChromeMac at h
  simp only [pick_eq_dite, Option.bind_eq_bind, Option.pure_def] at h
  split_ifs at h <;>
    simp only [Option.some_bind, Option.none_bind, Option.some.injEq, Prod.mk.injEq,
      reduceCtorEq] at h
  rw [← h.1]
  simp only [WriteString, len_append, webkitVersion, appleWebKitChrome,
    len_literal_00, len_literal_26, len_literal_12, len_literal_01, len_literal_13,
    len_literal_25]
  omega

theorem ChromeLinux_len (P : Pools) (g g1 : Generator) (s : String)
    (h : g.ChromeLinux P = some (s, g1)) : 50 ≤ len s := by
  unfold Generator.ChromeLinux at h
  simp only [pick_eq_dite, Option.bind_eq_bind, Option.pure_def] at h
  split_ifs at h <;>
    simp only [Option.some_bind, Option.none_bind, Option.some.injEq, Prod.mk.injEq,
      reduceCtorEq] at h
  rw [← h.1]
  simp only [WriteString, len_append, webkitVersion, appleWebKitChrome,
    len_literal_00, len_literal_27, len_literal_12, len_literal_01, len_literal_13,
    len_literal_25]
  omega

theorem FirefoxWindows_len (P : Pools) (g g1 : Generator) (s : String)
    (h : g.FirefoxWindows P = some (s, g1)) : 50 ≤ len s := by
  unfold Generator.FirefoxWindows at h
  simp only [pick_eq_dite, Option.bind_eq_bind, Option.pure_def] at h
  split_ifs at h <;>
    simp only [Option.some_bind, Option.none_bind, Option.some.injEq, Prod.mk.injEq,
      reduceCtorEq] at h
  rw [← h.1]
  simp only [WriteString, len_append, webkitVersion, appleWebKitChrome,
    len_literal_00, len_literal_23, len_literal_28, len_literal_29]
  omega

theorem FirefoxMac_len (P : Pools) (g g1 : Generator) (s : String)
    (h : g.FirefoxMac P = some (s, g1)) : 50 ≤ len s := by
  unfold Generator.FirefoxMac at h
  simp only [pick_eq_dite, Option.bind_eq_bind, Option.pure_def] at h
  split_ifs at h <;>
    simp only [Option.some_bind, Option.none_bind, Option.some.injEq, Prod.mk.injEq,
      reduceCtorEq] at h
  rw [← h.1]
  simp only [WriteString, len_append, webkitVersion, appleWebKitChrome,
    len_literal_00, len_literal_26, len_literal_30, len_literal_29]
  omega

theorem EdgeWindows_len (P : Pools) (g g1 : Generator) (s : String)
    (h : g.EdgeWindows P = some (s, g1)) : 50 ≤ len s := by
  unfold Generator.EdgeWindows at h
  simp only [pick_eq_dite, Option.bind_eq_bind, Option.pure_def] at h
  split_ifs at h <;>
    simp only [Option.some_bind, Option.none_bind, Option.some.injEq, Prod.mk.injEq,
      reduceCtorEq] at h
  rw [← h.1]
  simp only [WriteString, len_append, webkitVersion, appleWebKitChrome,
    len_literal_00, len_literal_23, len_literal_24, len_literal_01, len_literal_13,
    len_literal_25, len_literal_31]
  omega

theorem call_len (P : Pools) (m : Method) (hm : m ∈ mobileMethods ++ platformDesktopMethods)
    (g g1 : Generator) (s : String) (h : g.call P m = some (s, g1)) : 50 ≤ len s := by
  cases m
  case SafariIOS => exact SafariIOS_len P g g1 s h
  case SafariIPad => exact SafariIPad_len P g g1 s h
  case ChromeIOS => exact ChromeIOS_len P g g1 s h
  case ChromeAndroid => exact ChromeAndroid_len P g g1 s h
  case AndroidWebView => exact AndroidWebView_len P g g1 s h
  case FirefoxAndroid => exact FirefoxAndroid_len P g g1 s h
  case SamsungBrowser => exact SamsungBrowser_len P g g1 s h
  case EdgeAndroid => exact EdgeAndroid_len P g g1 s h
  case ChromeWindows => exact ChromeWindows_len P g g1 s h
  case ChromeMac => exact ChromeMac_len P g g1 s h
  case ChromeLinux => exact ChromeLinux_len P g g1 s h
  case FirefoxWindows => exact FirefoxWindows_len P g g1 s h
  case FirefoxMac => exact FirefoxMac_len P g g1 s h
  case EdgeWindows => exact EdgeWindows_len P g g1 s h
  all_goals exact absurd hm (by decide)

/-- C28 (length from the template alone): for each of the eight mobile methods
and the six per-platform desktop methods, every string the method returns,
from whatever state and with whatever pool entries, is non-empty and at least
50 bytes long; with non-empty pools the method returns from every state; and on
pools whose entries are all empty strings, where the result is the literal
template text alone, it returns a string of at least 50 bytes as well. -/
theorem template_length (P : Pools) (m : Method)
    (hm : m ∈ mobileMethods ++ platformDesktopMethods) :
    (∀ (g g1 : Generator) (s : String), g.call P m = some (s, g1) → s ≠ "" ∧ 50 ≤ len s) ∧
    (P.NonEmpty → ∀ g : Generator,
      ∃ s g1, g.call P m = some (s, g1) ∧ s ≠ "" ∧ 50 ≤ len s) ∧
    (∀ g : Generator, ∃ s g1, g.call blankPools m = some (s, g1) ∧ s ≠ "" ∧ 50 ≤ len s) := by
  have key : ∀ (Q : Pools), Q.NonEmpty → ∀ g : Generator,
      ∃ s g1, g.call Q m = some (s, g1) ∧ s ≠ "" ∧ 50 ≤ len s := by
    intro Q hQ g
    obtain ⟨⟨s, g1⟩, h⟩ := call_some Q hQ m g
    have hl := call_len Q m hm g g1 s h
    exact ⟨s, g1, h, ne_empty_of_len s hl, hl⟩
  refine ⟨?_, key P, key blankPools (by decide)⟩
  intro g g1 s h
  have hl := call_len P m hm g g1 s h
  exact ⟨ne_empty_of_len s hl, hl⟩

/-- Witness for C28: `FirefoxAndroid()`, the method with the shortest literal
text (51 bytes), on `samplePools`. -/
theorem template_length_witness :
    Method.FirefoxAndroid ∈ mobileMethods ++ platformDesktopMethods ∧
    samplePools.NonEmpty ∧
    (Generator.call blankPools Method.FirefoxAndroid (WithSeed 42)).map (fun r => len r.1)
      = some 51 ∧
    (∀ (g g1 : Generator) (s : String),
      g.call samplePools Method.FirefoxAndroid = some (s, g1) → s ≠ "" ∧ 50 ≤ len s) ∧
    (samplePools.NonEmpty → ∀ g : Generator,
      ∃ s g1, g.call samplePools Method.FirefoxAndroid = some (s, g1) ∧ s ≠ "" ∧ 50 ≤ len s) ∧
    (∀ g : Generator,
      ∃ s g1, g.call blankPools Method.FirefoxAndroid = some (s, g1) ∧ s ≠ "" ∧ 50 ≤ len s) :=
  ⟨by decide, by decide, by decide,
   template_length samplePools Method.FirefoxAndroid (by decide)⟩

/-! ## Lengths of the strings of the `Random` methods -/

theorem RandomMobile_len (P : Pools) (g g1 : Generator) (s : String)
    (h : g.RandomMobile P = some (s, g1)) : 50 ≤ len s := by
  rw [RandomMobile_eq] at h
  split_ifs at h
  · exact SafariIOS_len P _ g1 s h
  · exact ChromeAndroid_len P _ g1 s h
  · exact ChromeIOS_len P _ g1 s h
  · exact AndroidWebView_len P _ g1 s h

/-- C27 does not hold for `Random()`: on the generator made by `WithSeed(57)`,
and after the package-level `Seed(57)`, whatever the pools, `Random()` takes the
bot branch and returns the entry `"Twitterbot/1.0"` of `botUAs`, a string of 14
bytes; `TestPackageLevelFunctions` requires at least 50.  `RandomMobile()`
always returns at least 50 bytes. -/
theorem Random_returns_short :
    (∀ P : Pools, (WithSeed 57).Random P
      = some ("Twitterbot/1.0", { rng := (WithSeed 57).rng.nextN 2 })) ∧
    (∀ (P : Pools) (w : World),
      ∃ w1, (Seed w 57).run P [Method.Random] = some (["Twitterbot/1.0"], w1)) ∧
    len "Twitterbot/1.0" = 14 ∧ botUAs[7]? = some "Twitterbot/1.0" ∧
    (WithSeed 57).rng.next.1 % 3 = 2 ∧ (WithSeed 57).rng.next.2.next.1 % 11 = 7 ∧
    ¬ (∀ (g g1 : Generator) (s : String), g.Random samplePools = some (s, g1) → 50 ≤ len s) ∧
    (∀ (P : Pools) (g g1 : Generator) (s : String),
      g.RandomMobile P = some (s, g1) → 50 ≤ len s) := by
  have h1 : ∀ P : Pools, (WithSeed 57).Random P
      = some ("Twitterbot/1.0", { rng := (WithSeed 57).rng.nextN 2 }) := by
    intro P
    rw [Random_eq, if_neg (by decide), if_neg (by decide)]
    decide
  refine ⟨h1, ?_, by decide, by decide, by decide, by decide, ?_,
    fun P g g1 s h => RandomMobile_len P g g1 s h⟩
  · intro P w
    refine Seed_run P [Method.Random] w 57 { rng := (WithSeed 57).rng.nextN 2 }
      ["Twitterbot/1.0"] ?_
    simp only [Generator.run, Generator.call, h1 P, Option.bind_eq_bind, Option.some_bind,
      Option.pure_def]
  · intro h
    exact absurd (h (WithSeed 57) _ _ (h1 samplePools)) (by decide)

/-! ## `mergeUnique` -/

theorem firstOccurrences_filter (p : String → Bool) (l : List String) :
    firstOccurrences (l.filter p) = (firstOccurrences l).filter p := by
  induction l with
  | nil => rfl
  | cons v l ih =>
    by_cases hp : p v = true
    · rw [List.filter_cons_of_pos hp, firstOccurrences, firstOccurrences,
        List.filter_cons_of_pos hp, ih, List.filter_filter, List.filter_filter]
      congr 1
      apply List.filter_congr
      intro u _
      exact Bool.and_comm _ _
    · rw [List.filter_cons_of_neg hp, firstOccurrences, List.filter_cons_of_neg hp, ih,
        List.filter_filter]
      apply List.filter_congr
      intro u _
      by_cases hu : u = v
      · subst hu
        simp [hp]
      · simp [hu]

theorem mem_firstOccurrences (l : List String) (u : String) :
    u ∈ firstOccurrences l ↔ u ∈ l := by
  induction l with
  | nil => simp [firstOccurrences]
  | cons v l ih =>
    by_cases hu : u = v
    · simp [firstOccurrences, hu]
    · simp [firstOccurrences, hu, ih]

theorem firstOccurrences_nodup (l : List String) : (firstOccurrences l).Nodup := by
  induction l with
  | nil => exact List.nodup_nil
  | cons v l ih =>
    rw [firstOccurrences, List.nodup_cons]
    refine ⟨?_, ih.filter _⟩
    simp

theorem firstOccurrences_sublist (l : List String) : (firstOccurrences l).Sublist l := by
  induction l with
  | nil => exact List.Sublist.refl _
  | cons v l ih =>
    rw [firstOccurrences]
    exact List.Sublist.cons₂ v ((List.filter_sublist _).trans ih)

/-- The second loop of `mergeUnique`, from any `seen` and `result`. -/
theorem mergeUnique_loop (b seen result : List String) :
    (b.foldl (fun (st : List String × List String) v =>
      if ¬ v ∈ st.1 then (v :: st.1, st.2 ++ [v]) else st) (seen, result)).2
      = result ++ firstOccurrences (b.filter (fun v => v ∉ seen)) := by
  induction b generalizing seen result with
  | nil => simp [firstOccurrences]
  | cons v b ih =>
    rw [List.foldl_cons]
    by_cases hv : v ∈ seen
    · rw [if_neg (not_not.mpr hv), ih, List.filter_cons_of_neg (by simpa using hv)]
    · rw [if_pos hv, ih, List.filter_cons_of_pos (by simpa using hv), firstOccurrences,
        ← firstOccurrences_filter, List.filter_filter, List.append_assoc]
      have e : b.filter (fun u => decide (u ∉ v :: seen))
          = b.filter (fun a => decide (a ≠ v) && decide (a ∉ seen)) := by
        apply List.filter_congr
        intro u _
        by_cases hu : u = v
        · simp [hu]
        · simp [hu]
      show result ++ ([v] ++ firstOccurrences (b.filter (fun u => decide (u ∉ v :: seen)))) = _
      rw [e]
      rfl

theorem mem_foldl_cons (a : List String) (s : List String) (u : String) :
    u ∈ a.foldl (fun seen v => v :: seen) s ↔ u ∈ a ∨ u ∈ s := by
  induction a generalizing s with
  | nil => simp
  | cons v a ih =>
    rw [List.foldl_cons, ih]
    simp only [List.mem_cons]
    tauto

theorem mergeUnique_eq (a b : List String) :
    GenerateData.mergeUnique a b = specMergeUnique a b := by
  unfold GenerateData.mergeUnique specMergeUnique
  simp only [List.nil_append]
  rw [mergeUnique_loop]
  congr 2
  apply List.filter_congr
  intro u _
  simp [mem_foldl_cons]

/-- C33 (`mergeUnique`): for all string lists `a` and `b`, `mergeUnique(a, b)` is
`a` unchanged followed by the elements of `b` that do not occur in `a`, in
order of first occurrence in `b` and each once; so the appended part is a
duplicate-free sublist of `b`, the result has no duplicates when `a` has none,
every element of `a` and of `b` occurs in it, and it is non-empty whenever `b`
is, as the two fallback string lists are. -/
theorem mergeUnique_spec (a b : List String) :
    GenerateData.mergeUnique a b = specMergeUnique a b ∧
    (∃ t, GenerateData.mergeUnique a b = a ++ t ∧ t.Sublist b ∧ t.Nodup ∧
      ∀ v, v ∈ t ↔ v ∈ b ∧ v ∉ a) ∧
    (a.Nodup → (GenerateData.mergeUnique a b).Nodup) ∧
    (∀ v ∈ a, v ∈ GenerateData.mergeUnique a b) ∧
    (∀ v ∈ b, v ∈ GenerateData.mergeUnique a b) ∧
    (b ≠ [] → GenerateData.mergeUnique a b ≠ []) ∧
    GenerateData.fallbackLinuxDesktops ≠ [] ∧ GenerateData.fallbackMacVersions ≠ [] ∧
    GenerateData.mergeUnique ["b", "a"] ["a", "c", "c", "b", "d", "c"] = ["b", "a", "c", "d"] := by
  have hmem : ∀ v, v ∈ firstOccurrences (b.filter (fun v => v ∉ a)) ↔ v ∈ b ∧ v ∉ a := by
    intro v
    rw [mem_firstOccurrences, List.mem_filter]
    simp
  have hall : ∀ v, v ∈ GenerateData.mergeUnique a b ↔ v ∈ a ∨ v ∈ b := by
    intro v
    rw [mergeUnique_eq, specMergeUnique, List.mem_append, hmem]
    by_cases ha : v ∈ a
    · simp [ha]
    · simp [ha]
  refine ⟨mergeUnique_eq a b, ?_, ?_, ?_, ?_, ?_, by decide, by decide, by decide⟩
  · exact ⟨_, mergeUnique_eq a b,
      (firstOccurrences_sublist _).trans (List.filter_sublist _),
      firstOccurrences_nodup _, hmem⟩
  · intro ha
    rw [mergeUnique_eq, specMergeUnique]
    refine List.Nodup.append ha (firstOccurrences_nodup _) ?_
    intro v hva hvt
    exact ((hmem v).mp hvt).2 hva
  · intro v hv
    exact (hall v).mpr (Or.inl hv)
  · intro v hv
    exact (hall v).mpr (Or.inr hv)
  · intro hb he
    cases b with
    | nil => exact hb rfl
    | cons v b =>
      have hv := (hall v).mpr (Or.inr (List.mem_cons_self v b))
      rw [he] at hv
      exact absurd hv (List.not_mem_nil v)

/-! ## Uniformity of the bounded draw -/

/-- The number of values below `B`, zero included, in one residue class. -/
theorem range_residue_card (B n r : Nat) (hn : 0 < n) (hr : r < n) :
    ((Finset.range B).filter (fun v => v % n = r)).card
      = B / n + if r < B % n then 1 else 0 := by
  have h := Nat.count_modEq_card B hn r
  rw [Nat.count_eq_card_filter_range, Nat.mod_eq_of_lt hr] at h
  rw [← h]
  apply congrArg Finset.card
  apply Finset.filter_congr
  intro v _
  unfold Nat.ModEq
  rw [Nat.mod_eq_of_lt hr]

theorem range_residue_card_pos (B n r : Nat) (hB : 0 < B) (hn : 0 < n) (hr : r < n) :
    ((Finset.range B).filter (fun v => v ≠ 0 ∧ v % n = r)).card + (if r = 0 then 1 else 0)
      = B / n + if r < B % n then 1 else 0 := by
  rw [← range_residue_card B n r hn hr]
  have hsplit := Finset.filter_card_add_filter_neg_card_eq_card
    (s := (Finset.range B).filter (fun v => v % n = r)) (fun v => v ≠ 0)
  rw [← hsplit]
  have e1 : ((Finset.range B).filter (fun v => v % n = r)).filter (fun v => v ≠ 0)
      = (Finset.range B).filter (fun v => v ≠ 0 ∧ v % n = r) := by
    rw [Finset.filter_filter]
    apply Finset.filter_congr
    intro v _
    exact and_comm
  have e2 : (((Finset.range B).filter (fun v => v % n = r)).filter
      (fun v => ¬ v ≠ 0)).card = if r = 0 then 1 else 0 := by
    by_cases h0 : r = 0
    · rw [if_pos h0]
      have : ((Finset.range B).filter (fun v => v % n = r)).filter (fun v => ¬ v ≠ 0)
          = {0} := by
        ext v
        simp only [Finset.mem_filter, Finset.mem_range, Finset.mem_singleton, not_not]
        constructor
        · intro h; exact h.2
        · intro h; subst h; subst h0
          exact ⟨⟨hB, Nat.zero_mod n⟩, rfl⟩
      rw [this, Finset.card_singleton]
    · rw [if_neg h0]
      rw [Finset.card_eq_zero]
      ext v
      simp only [Finset.mem_filter, Finset.mem_range, not_not, Finset.not_mem_empty,
        iff_false]
      rintro ⟨⟨-, hv⟩, rfl⟩
      rw [Nat.zero_mod] at hv
      exact h0 hv.symm
  rw [e1, e2]

theorem residueCount_eq (n r : Nat) (hn : 0 < n) (hr : r < n) :
    residueCount n r + (if r = 0 then 1 else 0)
      = 2 ^ 64 / n + if r < 2 ^ 64 % n then 1 else 0 :=
  range_residue_card_pos (2 ^ 64) n r (by norm_num) hn hr

/-- The state transition maps the non-zero states in which `intn(n)` returns
`r` one-to-one onto the non-zero values in the residue class `r`. -/
theorem intnCount_eq (n r : Nat) (hn : 0 < n) :
    intnCount (Int.ofNat n) (Int.ofNat r) = residueCount n r := by
  unfold intnCount residueCount
  refine Finset.card_bij (fun s _ => xorshift64.step s) ?_ ?_ ?_
  · intro s hs
    simp only [Finset.mem_filter, Finset.mem_range] at hs ⊢
    obtain ⟨hlt, h0, hr⟩ := hs
    rw [intn_pos _ n hn] at hr
    refine ⟨step_lt s hlt, step_ne_zero s hlt h0, ?_⟩
    exact Int.ofNat.inj hr
  · intro a ha b hb hab
    simp only [Finset.mem_filter, Finset.mem_range] at ha hb
    have := congrArg xorshift64.unstep hab
    rwa [unstep_step a ha.1, unstep_step b hb.1] at this
  · intro v hv
    simp only [Finset.mem_filter, Finset.mem_range] at hv
    obtain ⟨hlt, h0, hr⟩ := hv
    refine ⟨xorshift64.unstep v, ?_, step_unstep v hlt⟩
    simp only [Finset.mem_filter, Finset.mem_range]
    refine ⟨unstep_lt v hlt, ?_, ?_⟩
    · intro hz
      have h1 := step_unstep v hlt
      rw [hz, step_zero] at h1
      exact h0 h1.symm
    · rw [intn_pos _ n hn]
      show Int.ofNat (xorshift64.step (xorshift64.unstep v) % n) = Int.ofNat r
      rw [step_unstep v hlt, hr]

theorem residueCount_le (n r1 r2 : Nat) (hn : 0 < n) (h2 : n < 2 ^ 63) (hr1 : r1 < n)
    (hr2 : r2 < n) : residueCount n r1 ≤ residueCount n r2 + 1 := by
  have e1 := residueCount_eq n r1 hn hr1
  have e2 := residueCount_eq n r2 hn hr2
  have hq : 1 ≤ 2 ^ 64 / n := Nat.div_pos (by omega) hn
  generalize 2 ^ 64 / n = q at e1 e2 hq
  generalize 2 ^ 64 % n = t at e1 e2
  split_ifs at e1 e2 <;> omega

theorem residueCount_three (r : Nat) (hr : r < 3) : residueCount 3 r = 6148914691236517205 := by
  have e := residueCount_eq 3 r (by decide) hr
  have hq : 2 ^ 64 / 3 = 6148914691236517205 := by norm_num
  have ht : 2 ^ 64 % 3 = 1 := by norm_num
  rw [hq, ht] at e
  split_ifs at e <;> omega

/-- C31 (uniform up to a modulo bias of one): for every bound `n` with
`1 <= n < 2^63`, the values `next()` returns from non-zero 64-bit states are
exactly the non-zero 64-bit values, each from one state; so the number of
non-zero states in which `intn(n)` returns `r` is the number of non-zero
values congruent to `r`, and for two residues below `n` these numbers differ
by at most one.  For `n = 3` each of the three numbers is `(2^64 - 1) / 3`. -/
theorem intn_uniform (n : Nat) (h1 : 1 ≤ n) (h2 : n < 2 ^ 63) :
    (∀ v : Nat, v ≠ 0 → v < 2 ^ 64 →
      ∃ s : Nat, s ≠ 0 ∧ s < 2 ^ 64 ∧ (xorshift64.next { state := s }).1 = v ∧
        ∀ s1 : Nat, s1 < 2 ^ 64 → (xorshift64.next { state := s1 }).1 = v → s1 = s) ∧
    (∀ s : Nat, s ≠ 0 → s < 2 ^ 64 →
      (xorshift64.next { state := s }).1 ≠ 0 ∧ (xorshift64.next { state := s }).1 < 2 ^ 64) ∧
    (∀ r : Nat, r < n → intnCount (Int.ofNat n) (Int.ofNat r) = residueCount n r) ∧
    (∀ r1 r2 : Nat, r1 < n → r2 < n → residueCount n r1 ≤ residueCount n r2 + 1) ∧
    (∀ r1 r2 : Nat, r1 < n → r2 < n →
      intnCount (Int.ofNat n) (Int.ofNat r1) ≤ intnCount (Int.ofNat n) (Int.ofNat r2) + 1) ∧
    (∀ r : Nat, r < n →
      residueCount n r + (if r = 0 then 1 else 0)
        = 2 ^ 64 / n + if r < 2 ^ 64 % n then 1 else 0) ∧
    (∀ r : Nat, r < 3 →
      residueCount 3 r = (2 ^ 64 - 1) / 3 ∧ intnCount 3 (Int.ofNat r) = (2 ^ 64 - 1) / 3) := by
  have hn : 0 < n := h1
  refine ⟨?_, ?_, fun r _ => intnCount_eq n r hn,
    fun r1 r2 hr1 hr2 => residueCount_le n r1 r2 hn h2 hr1 hr2, ?_,
    fun r hr => residueCount_eq n r hn hr, ?_⟩
  · intro v hv hlt
    refine ⟨xorshift64.unstep v, ?_, unstep_lt v hlt, step_unstep v hlt, ?_⟩
    · intro hz
      have h := step_unstep v hlt
      rw [hz, step_zero] at h
      exact hv h.symm
    · intro s1 hs1 he
      have h := congrArg xorshift64.unstep he
      rw [next_eq_step] at h
      exact (unstep_step s1 hs1).symm.trans h
  · intro s hs hlt
    exact ⟨step_ne_zero s hlt hs, step_lt s hlt⟩
  · intro r1 r2 hr1 hr2
    rw [intnCount_eq n r1 hn, intnCount_eq n r2 hn]
    exact residueCount_le n r1 r2 hn h2 hr1 hr2
  · intro r hr
    have e : (2 ^ 64 - 1) / 3 = 6148914691236517205 := by norm_num
    rw [e]
    exact ⟨residueCount_three r hr,
      (intnCount_eq 3 r (by decide)).trans (residueCount_three r hr)⟩

/-- Witness for C31: the bound 11, the length of `botUAs`. -/
theorem intn_uniform_witness :
    (1 : Nat) ≤ 11 ∧ (11 : Nat) < 2 ^ 63 ∧
    (∀ r1 r2 : Nat, r1 < 11 → r2 < 11 →
      intnCount (Int.ofNat 11) (Int.ofNat r1) ≤ intnCount (Int.ofNat 11) (Int.ofNat r2) + 1) :=
  ⟨by decide, by decide, (intn_uniform 11 (by decide) (by decide)).2.2.2.2.1⟩

/-! ## `extractVersions`: each block of the loop writes one map -/

theorem stepChrome_firefoxWeights {W : Type} (L : GenerateData.Lib W) (ws : GenerateData.Weights W)
    (s : String) (w : W) : (GenerateData.stepChrome L ws s w).firefoxWeights = ws.firefoxWeights := by
  unfold GenerateData.stepChrome
  repeat' split
  all_goals rfl

theorem stepChrome_safariWeights {W : Type} (L : GenerateData.Lib W) (ws : GenerateData.Weights W)
    (s : String) (w : W) : (GenerateData.stepChrome L ws s w).safariWeights = ws.safariWeights := by
  unfold GenerateData.stepChrome
  repeat' split
  all_goals rfl

theorem stepChrome_edgeWeights {W : Type} (L : GenerateData.Lib W) (ws : GenerateData.Weights W)
    (s : String) (w : W) : (GenerateData.stepChrome L ws s w).edgeWeights = ws.edgeWeights := by
  unfold GenerateData.stepChrome
  repeat' split
  all_goals rfl

theorem stepChrome_iosWeights {W : Type} (L : GenerateData.Lib W) (ws : GenerateData.Weights W)
    (s : String) (w : W) : (GenerateData.stepChrome L ws s w).iosWeights = ws.iosWeights := by
  unfold GenerateData.stepChrome
  repeat' split
  all_goals rfl

theorem stepChrome_androidWeights {W : Type} (L : GenerateData.Lib W) (ws : GenerateData.Weights W)
    (s : String) (w : W) : (GenerateData.stepChrome L ws s w).androidWeights = ws.androidWeights := by
  unfold GenerateData.stepChrome
  repeat' split
  all_goals rfl

theorem stepChrome_windowsWeights {W : Type} (L : GenerateData.Lib W) (ws : GenerateData.Weights W)
    (s : String) (w : W) : (GenerateData.stepChrome L ws s w).windowsWeights = ws.windowsWeights := by
  unfold GenerateData.stepChrome
  repeat' split
  all_goals rfl

theorem stepFirefox_chromeWeights {W : Type} (L : GenerateData.Lib W) (ws : GenerateData.Weights W)
    (s : String) (w : W) : (GenerateData.stepFirefox L ws s w).chromeWeights = ws.chromeWeights := by
  unfold GenerateData.stepFirefox
  repeat' split
  all_goals rfl

theorem stepFirefox_safariWeights {W : Type} (L : GenerateData.Lib W) (ws : GenerateData.Weights W)
    (s : String) (w : W) : (GenerateData.stepFirefox L ws s w).safariWeights = ws.safariWeights := by
  unfold GenerateData.stepFirefox
  repeat' split
  all_goals rfl

theorem stepFirefox_edgeWeights {W : Type} (L : GenerateData.Lib W) (ws : GenerateData.Weights W)
    (s : String) (w : W) : (GenerateData.stepFirefox L ws s w).edgeWeights = ws.edgeWeights := by
  unfold GenerateData.stepFirefox
  repeat' split
  all_goals rfl

theorem stepFirefox_iosWeights {W : Type} (L : GenerateData.Lib W) (ws : GenerateData.Weights W)
    (s : String) (w : W) : (GenerateData.stepFirefox L ws s w).iosWeights = ws.iosWeights := by
  unfold GenerateData.stepFirefox
  repeat' split
  all_goals rfl

theorem stepFirefox_androidWeights {W : Type} (L : GenerateData.Lib W) (ws : GenerateData.Weights W)
    (s : String) (w : W) : (GenerateData.stepFirefox L ws s w).androidWeights = ws.androidWeights := by
  unfold GenerateData.stepFirefox
  repeat' split
  all_goals rfl

theorem stepFirefox_windowsWeights {W : Type} (L : GenerateData.Lib W) (ws : GenerateData.Weights W)
    (s : String) (w : W) : (GenerateData.stepFirefox L ws s w).windowsWeights = ws.windowsWeights := by
  unfold GenerateData.stepFirefox
  repeat' split
  all_goals rfl

theorem stepSafari_chromeWeights {W : Type} (L : GenerateData.Lib W) (ws : GenerateData.Weights W)
    (s : String) (w : W) : (GenerateData.stepSafari L ws s w).chromeWeights = ws.chromeWeights := by
  unfold GenerateData.stepSafari
  repeat' split
  all_goals rfl

theorem stepSafari_firefoxWeights {W : Type} (L : GenerateData.Lib W) (ws : GenerateData.Weights W)
    (s : String) (w : W) : (GenerateData.stepSafari L ws s w).firefoxWeights = ws.firefoxWeights := by
  unfold GenerateData.stepSafari
  repeat' split
  all_goals rfl

theorem stepSafari_edgeWeights {W : Type} (L : GenerateData.Lib W) (ws : GenerateData.Weights W)
    (s : String) (w : W) : (GenerateData.stepSafari L ws s w).edgeWeights = ws.edgeWeights := by
  unfold GenerateData.stepSafari
  repeat' split
  all_goals rfl

theorem stepSafari_iosWeights {W : Type} (L : GenerateData.Lib W) (ws : GenerateData.Weights W)
    (s : String) (w : W) : (GenerateData.stepSafari L ws s w).iosWeights = ws.iosWeights := by
  unfold GenerateData.stepSafari
  repeat' split
  all_goals rfl

theorem stepSafari_androidWeights {W : Type} (L : GenerateData.Lib W) (ws : GenerateData.Weights W)
    (s : String) (w : W) : (GenerateData.stepSafari L ws s w).androidWeights = ws.androidWeights := by
  unfold GenerateData.stepSafari
  repeat' split
  all_goals rfl

theorem stepSafari_windowsWeights {W : Type} (L : GenerateData.Lib W) (ws : GenerateData.Weights W)
    (s : String) (w : W) : (GenerateData.stepSafari L ws s w).windowsWeights = ws.windowsWeights := by
  unfold GenerateData.stepSafari
  repeat' split
  all_goals rfl

theorem stepEdge_chromeWeights {W : Type} (L : GenerateData.Lib W) (ws : GenerateData.Weights W)
    (s : String) (w : W) : (GenerateData.stepEdge L ws s w).chromeWeights = ws.chromeWeights := by
  unfold GenerateData.stepEdge
  repeat' split
  all_goals rfl

theorem stepEdge_firefoxWeights {W : Type} (L : GenerateData.Lib W) (ws : GenerateData.Weights W)
    (s : String) (w : W) : (GenerateData.stepEdge L ws s w).firefoxWeights = ws.firefoxWeights := by
  unfold GenerateData.stepEdge
  repeat' split
  all_goals rfl

theorem stepEdge_safariWeights {W : Type} (L : GenerateData.Lib W) (ws : GenerateData.Weights W)
    (s : String) (w : W) : (GenerateData.stepEdge L ws s w).safariWeights = ws.safariWeights := by
  unfold GenerateData.stepEdge
  repeat' split
  all_goals rfl

theorem stepEdge_iosWeights {W : Type} (L : GenerateData.Lib W) (ws : GenerateData.Weights W)
    (s : String) (w : W) : (GenerateData.stepEdge L ws s w).iosWeights = ws.iosWeights := by
  unfold GenerateData.stepEdge
  repeat' split
  all_goals rfl

theorem stepEdge_androidWeights {W : Type} (L : GenerateData.Lib W) (ws : GenerateData.Weights W)
    (s : String) (w : W) : (GenerateData.stepEdge L ws s w).androidWeights = ws.androidWeights := by
  unfold GenerateData.stepEdge
  repeat' split
  all_goals rfl

theorem stepEdge_windowsWeights {W : Type} (L : GenerateData.Lib W) (ws : GenerateData.Weights W)
    (s : String) (w : W) : (GenerateData.stepEdge L ws s w).windowsWeights = ws.windowsWeights := by
  unfold GenerateData.stepEdge
  repeat' split
  all_goals rfl

theorem stepIOS_chromeWeights {W : Type} (L : GenerateData.Lib W) (ws : GenerateData.Weights W)
    (s : String) (w : W) : (GenerateData.stepIOS L ws s w).chromeWeights = ws.chromeWeights := by
  unfold GenerateData.stepIOS
  repeat' split
  all_goals rfl

theorem stepIOS_firefoxWeights {W : Type} (L : GenerateData.Lib W) (ws : GenerateData.Weights W)
    (s : String) (w : W) : (GenerateData.stepIOS L ws s w).firefoxWeights = ws.firefoxWeights := by
  unfold GenerateData.stepIOS
  repeat' split
  all_goals rfl

theorem stepIOS_safariWeights {W : Type} (L : GenerateData.Lib W) (ws : GenerateData.Weights W)
    (s : String) (w : W) : (GenerateData.stepIOS L ws s w).safariWeights = ws.safariWeights := by
  unfold GenerateData.stepIOS
  repeat' split
  all_goals rfl

theorem stepIOS_edgeWeights {W : Type} (L : GenerateData.Lib W) (ws : GenerateData.Weights W)
    (s : String) (w : W) : (GenerateData.stepIOS L ws s w).edgeWeights = ws.edgeWeights := by
  unfold GenerateData.stepIOS
  repeat' split
  all_goals rfl

theorem stepIOS_androidWeights {W : Type} (L : GenerateData.Lib W) (ws : GenerateData.Weights W)
    (s : String) (w : W) : (GenerateData.stepIOS L ws s w).androidWeights = ws.androidWeights := by
  unfold GenerateData.stepIOS
  repeat' split
  all_goals rfl

theorem stepIOS_windowsWeights {W : Type} (L : GenerateData.Lib W) (ws : GenerateData.Weights W)
    (s : String) (w : W) : (GenerateData.stepIOS L ws s w).windowsWeights = ws.windowsWeights := by
  unfold GenerateData.stepIOS
  repeat' split
  all_goals rfl

theorem stepMac_chromeWeights {W : Type} (L : GenerateData.Lib W) (ws : GenerateData.Weights W)
    (s : String) (w : W) : (GenerateData.stepMac L ws s w).chromeWeights = ws.chromeWeights := by
  unfold GenerateData.stepMac
  repeat' split
  all_goals rfl

theorem stepMac_firefoxWeights {W : Type} (L : GenerateData.Lib W) (ws : GenerateData.Weights W)
    (s : String) (w : W) : (GenerateData.stepMac L ws s w).firefoxWeights = ws.firefoxWeights := by
  unfold GenerateData.stepMac
  repeat' split
  all_goals rfl

theorem stepMac_safariWeights {W : Type} (L : GenerateData.Lib W) (ws : GenerateData.Weights W)
    (s : String) (w : W) : (GenerateData.stepMac L ws s w).safariWeights = ws.safariWeights := by
  unfold GenerateData.stepMac
  repeat' split
  all_goals rfl

theorem stepMac_edgeWeights {W : Type} (L : GenerateData.Lib W) (ws : GenerateData.Weights W)
    (s : String) (w : W) : (GenerateData.stepMac L ws s w).edgeWeights = ws.edgeWeights := by
  unfold GenerateData.stepMac
  repeat' split
  all_goals rfl

theorem stepMac_iosWeights {W : Type} (L : GenerateData.Lib W) (ws : GenerateData.Weights W)
    (s : String) (w : W) : (GenerateData.stepMac L ws s w).iosWeights = ws.iosWeights := by
  unfold GenerateData.stepMac
  repeat' split
  all_goals rfl

theorem stepMac_androidWeights {W : Type} (L : GenerateData.Lib W) (ws : GenerateData.Weights W)
    (s : String) (w : W) : (GenerateData.stepMac L ws s w).androidWeights = ws.androidWeights := by
  unfold GenerateData.stepMac
  repeat' split
  all_goals rfl

theorem stepMac_windowsWeights {W : Type} (L : GenerateData.Lib W) (ws : GenerateData.Weights W)
    (s : String) (w : W) : (GenerateData.stepMac L ws s w).windowsWeights = ws.windowsWeights := by
  unfold GenerateData.stepMac
  repeat' split
  all_goals rfl

theorem stepAndroid_chromeWeights {W : Type} (L : GenerateData.Lib W) (ws : GenerateData.Weights W)
    (s : String) (w : W) : (GenerateData.stepAndroid L ws s w).chromeWeights = ws.chromeWeights := by
  unfold GenerateData.stepAndroid
  repeat' split
  all_goals rfl

theorem stepAndroid_firefoxWeights {W : Type} (L : GenerateData.Lib W) (ws : GenerateData.Weights W)
    (s : String) (w : W) : (GenerateData.stepAndroid L ws s w).firefoxWeights = ws.firefoxWeights := by
  unfold GenerateData.stepAndroid
  repeat' split
  all_goals rfl

theorem stepAndroid_safariWeights {W : Type} (L : GenerateData.Lib W) (ws : GenerateData.Weights W)
    (s : String) (w : W) : (GenerateData.stepAndroid L ws s w).safariWeights = ws.safariWeights := by
  unfold GenerateData.stepAndroid
  repeat' split
  all_goals rfl

theorem stepAndroid_edgeWeights {W : Type} (L : GenerateData.Lib W) (ws : GenerateData.Weights W)
    (s : String) (w : W) : (GenerateData.stepAndroid L ws s w).edgeWeights = ws.edgeWeights := by
  unfold GenerateData.stepAndroid
  repeat' split
  all_goals rfl

theorem stepAndroid_iosWeights {W : Type} (L : GenerateData.Lib W) (ws : GenerateData.Weights W)
    (s : String) (w : W) : (GenerateData.stepAndroid L ws s w).iosWeights = ws.iosWeights := by
  unfold GenerateData.stepAndroid
  repeat' split
  all_goals rfl

theorem stepAndroid_windowsWeights {W : Type} (L : GenerateData.Lib W) (ws : GenerateData.Weights W)
    (s : String) (w : W) : (GenerateData.stepAndroid L ws s w).windowsWeights = ws.windowsWeights := by
  unfold GenerateData.stepAndroid
  repeat' split
  all_goals rfl

theorem stepWindows_chromeWeights {W : Type} (L : GenerateData.Lib W) (ws : GenerateData.Weights W)
    (s : String) (w : W) : (GenerateData.stepWindows L ws s w).chromeWeights = ws.chromeWeights := by
  unfold GenerateData.stepWindows
  repeat' split
  all_goals rfl

theorem stepWindows_firefoxWeights {W : Type} (L : GenerateData.Lib W) (ws : GenerateData.Weights W)
    (s : String) (w : W) : (GenerateData.stepWindows L ws s w).firefoxWeights = ws.firefoxWeights := by
  unfold GenerateData.stepWindows
  repeat' split
  all_goals rfl

theorem stepWindows_safariWeights {W : Type} (L : GenerateData.Lib W) (ws : GenerateData.Weights W)
    (s : String) (w : W) : (GenerateData.stepWindows L ws s w).safariWeights = ws.safariWeights := by
  unfold GenerateData.stepWindows
  repeat' split
  all_goals rfl

theorem stepWindows_edgeWeights {W : Type} (L : GenerateData.Lib W) (ws : GenerateData.Weights W)
    (s : String) (w : W) : (GenerateData.stepWindows L ws s w).edgeWeights = ws.edgeWeights := by
  unfold GenerateData.stepWindows
  repeat' split
  all_goals rfl

theorem stepWindows_iosWeights {W : Type} (L : GenerateData.Lib W) (ws : GenerateData.Weights W)
    (s : String) (w : W) : (GenerateData.stepWindows L ws s w).iosWeights = ws.iosWeights := by
  unfold GenerateData.stepWindows
  repeat' split
  all_goals rfl

theorem stepWindows_androidWeights {W : Type} (L : GenerateData.Lib W) (ws : GenerateData.Weights W)
    (s : String) (w : W) : (GenerateData.stepWindows L ws s w).androidWeights = ws.androidWeights := by
  unfold GenerateData.stepWindows
  repeat' split
  all_goals rfl

theorem stepDevice_chromeWeights {W : Type} (L : GenerateData.Lib W) (ws : GenerateData.Weights W)
    (s : String) (w : W) : (GenerateData.stepDevice L ws s w).chromeWeights = ws.chromeWeights := by
  unfold GenerateData.stepDevice
  repeat' split
  all_goals first
    | rfl
    | (dsimp only; split <;> rfl)

theorem stepDevice_firefoxWeights {W : Type} (L : GenerateData.Lib W) (ws : GenerateData.Weights W)
    (s : String) (w : W) : (GenerateData.stepDevice L ws s w).firefoxWeights = ws.firefoxWeights := by
  unfold GenerateData.stepDevice
  repeat' split
  all_goals first
    | rfl
    | (dsimp only; split <;> rfl)

theorem stepDevice_safariWeights {W : Type} (L : GenerateData.Lib W) (ws : GenerateData.Weights W)
    (s : String) (w : W) : (GenerateData.stepDevice L ws s w).safariWeights = ws.safariWeights := by
  unfold GenerateData.stepDevice
  repeat' split
  all_goals first
    | rfl
    | (dsimp only; split <;> rfl)

theorem stepDevice_edgeWeights {W : Type} (L : GenerateData.Lib W) (ws : GenerateData.Weights W)
    (s : String) (w : W) : (GenerateData.stepDevice L ws s w).edgeWeights = ws.edgeWeights := by
  unfold GenerateData.stepDevice
  repeat' split
  all_goals first
    | rfl
    | (dsimp only; split <;> rfl)

theorem stepDevice_iosWeights {W : Type} (L : GenerateData.Lib W) (ws : GenerateData.Weights W)
    (s : String) (w : W) : (GenerateData.stepDevice L ws s w).iosWeights = ws.iosWeights := by
  unfold GenerateData.stepDevice
  repeat' split
  all_goals first
    | rfl
    | (dsimp only; split <;> rfl)

theorem stepDevice_androidWeights {W : Type} (L : GenerateData.Lib W) (ws : GenerateData.Weights W)
    (s : String) (w : W) : (GenerateData.stepDevice L ws s w).androidWeights = ws.androidWeights := by
  unfold GenerateData.stepDevice
  repeat' split
  all_goals first
    | rfl
    | (dsimp only; split <;> rfl)

theorem stepDevice_windowsWeights {W : Type} (L : GenerateData.Lib W) (ws : GenerateData.Weights W)
    (s : String) (w : W) : (GenerateData.stepDevice L ws s w).windowsWeights = ws.windowsWeights := by
  unfold GenerateData.stepDevice
  repeat' split
  all_goals first
    | rfl
    | (dsimp only; split <;> rfl)

theorem stepLinux_chromeWeights {W : Type} (L : GenerateData.Lib W) (ws : GenerateData.Weights W)
    (s : String) (w : W) : (GenerateData.stepLinux L ws s w).chromeWeights = ws.chromeWeights := by
  unfold GenerateData.stepLinux
  repeat' split
  all_goals rfl

theorem stepLinux_firefoxWeights {W : Type} (L : GenerateData.Lib W) (ws : GenerateData.Weights W)
    (s : String) (w : W) : (GenerateData.stepLinux L ws s w).firefoxWeights = ws.firefoxWeights := by
  unfold GenerateData.stepLinux
  repeat' split
  all_goals rfl

theorem stepLinux_safariWeights {W : Type} (L : GenerateData.Lib W) (ws : GenerateData.Weights W)
    (s : String) (w : W) : (GenerateData.stepLinux L ws s w).safariWeights = ws.safariWeights := by
  unfold GenerateData.stepLinux
  repeat' split
  all_goals rfl

theorem stepLinux_edgeWeights {W : Type} (L : GenerateData.Lib W) (ws : GenerateData.Weights W)
    (s : String) (w : W) : (GenerateData.stepLinux L ws s w).edgeWeights = ws.edgeWeights := by
  unfold GenerateData.stepLinux
  repeat' split
  all_goals rfl

theorem stepLinux_iosWeights {W : Type} (L : GenerateData.Lib W) (ws : GenerateData.Weights W)
    (s : String) (w : W) : (GenerateData.stepLinux L ws s w).iosWeights = ws.iosWeights := by
  unfold GenerateData.stepLinux
  repeat' split
  all_goals rfl

theorem stepLinux_androidWeights {W : Type} (L : GenerateData.Lib W) (ws : GenerateData.Weights W)
    (s : String) (w : W) : (GenerateData.stepLinux L ws s w).androidWeights = ws.androidWeights := by
  unfold GenerateData.stepLinux
  repeat' split
  all_goals rfl

theorem stepLinux_windowsWeights {W : Type} (L : GenerateData.Lib W) (ws : GenerateData.Weights W)
    (s : String) (w : W) : (GenerateData.stepLinux L ws s w).windowsWeights = ws.windowsWeights := by
  unfold GenerateData.stepLinux
  repeat' split
  all_goals rfl

theorem stepChrome_own {W : Type} (L : GenerateData.Lib W) (ws ws0 : GenerateData.Weights W)
    (s : String) (w : W) (h : ws.chromeWeights = ws0.chromeWeights) :
    (((Contains s "Chrome/" ∧ ¬ Contains s "Edg/" ∧ ¬ Contains s "OPR/" ∧
        ¬ Contains s "SamsungBrowser") ∧ (L.chromeVersionRe s).isSome = true) ∧
      ∃ m, (GenerateData.stepChrome L ws s w).chromeWeights = GenerateData.mapAdd L ws0.chromeWeights m w) ∨
    (¬ ((Contains s "Chrome/" ∧ ¬ Contains s "Edg/" ∧ ¬ Contains s "OPR/" ∧
        ¬ Contains s "SamsungBrowser") ∧ (L.chromeVersionRe s).isSome = true) ∧
      (GenerateData.stepChrome L ws s w).chromeWeights = ws0.chromeWeights) := by
  unfold GenerateData.stepChrome
  split
  · rename_i hc
    split
    · rename_i m1 hm
      exact Or.inl ⟨⟨hc, by rw [hm]; rfl⟩, m1, by rw [h]⟩
    · rename_i hm
      exact Or.inr ⟨fun hh => by rw [hm] at hh; exact absurd hh.2 (by decide), h⟩
  · rename_i hc
    exact Or.inr ⟨fun hh => hc hh.1, h⟩

theorem extractStep_chromeWeights {W : Type} (L : GenerateData.Lib W) (ws : GenerateData.Weights W)
    (ua : GenerateData.UserAgent W) :
    (((Contains ua.UserAgent "Chrome/" ∧ ¬ Contains ua.UserAgent "Edg/" ∧ ¬ Contains ua.UserAgent "OPR/" ∧
        ¬ Contains ua.UserAgent "SamsungBrowser") ∧ (L.chromeVersionRe ua.UserAgent).isSome = true) ∧
      ∃ m, (GenerateData.extractStep L ws ua).chromeWeights
        = GenerateData.mapAdd L ws.chromeWeights m ua.Weight) ∨
    (¬ ((Contains ua.UserAgent "Chrome/" ∧ ¬ Contains ua.UserAgent "Edg/" ∧ ¬ Contains ua.UserAgent "OPR/" ∧
        ¬ Contains ua.UserAgent "SamsungBrowser") ∧ (L.chromeVersionRe ua.UserAgent).isSome = true) ∧
      (GenerateData.extractStep L ws ua).chromeWeights = ws.chromeWeights) := by
  unfold GenerateData.extractStep
  simp only [stepLinux_chromeWeights, stepDevice_chromeWeights, stepWindows_chromeWeights,
    stepAndroid_chromeWeights, stepMac_chromeWeights, stepIOS_chromeWeights,
    stepEdge_chromeWeights, stepSafari_chromeWeights, stepFirefox_chromeWeights]
  exact stepChrome_own L _ ws ua.UserAgent ua.Weight (rfl)

theorem stepFirefox_own {W : Type} (L : GenerateData.Lib W) (ws ws0 : GenerateData.Weights W)
    (s : String) (w : W) (h : ws.firefoxWeights = ws0.firefoxWeights) :
    (((L.firefoxVersionRe s).isSome = true) ∧
      ∃ m, (GenerateData.stepFirefox L ws s w).firefoxWeights = GenerateData.mapAdd L ws0.firefoxWeights m w) ∨
    (¬ ((L.firefoxVersionRe s).isSome = true) ∧
      (GenerateData.stepFirefox L ws s w).firefoxWeights = ws0.firefoxWeights) := by
  unfold GenerateData.stepFirefox
  split
  · rename_i m1 hm
    exact Or.inl ⟨by rw [hm]; rfl, m1, by rw [h]⟩
  · rename_i hm
    exact Or.inr ⟨fun hh => by rw [hm] at hh; exact absurd hh (by decide), h⟩

theorem extractStep_firefoxWeights {W : Type} (L : GenerateData.Lib W) (ws : GenerateData.Weights W)
    (ua : GenerateData.UserAgent W) :
    (((L.firefoxVersionRe ua.UserAgent).isSome = true) ∧
      ∃ m, (GenerateData.extractStep L ws ua).firefoxWeights
        = GenerateData.mapAdd L ws.firefoxWeights m ua.Weight) ∨
    (¬ ((L.firefoxVersionRe ua.UserAgent).isSome = true) ∧
      (GenerateData.extractStep L ws ua).firefoxWeights = ws.firefoxWeights) := by
  unfold GenerateData.extractStep
  simp only [stepLinux_firefoxWeights, stepDevice_firefoxWeights, stepWindows_firefoxWeights,
    stepAndroid_firefoxWeights, stepMac_firefoxWeights, stepIOS_firefoxWeights,
    stepEdge_firefoxWeights, stepSafari_firefoxWeights]
  exact stepFirefox_own L _ ws ua.UserAgent ua.Weight (by simp only [stepChrome_firefoxWeights])

theorem stepSafari_own {W : Type} (L : GenerateData.Lib W) (ws ws0 : GenerateData.Weights W)
    (s : String) (w : W) (h : ws.safariWeights = ws0.safariWeights) :
    (((Contains s "Safari/" ∧ ¬ Contains s "Chrome/") ∧ (L.safariVersionRe s).isSome = true) ∧
      ∃ m, (GenerateData.stepSafari L ws s w).safariWeights = GenerateData.mapAdd L ws0.safariWeights m w) ∨
    (¬ ((Contains s "Safari/" ∧ ¬ Contains s "Chrome/") ∧ (L.safariVersionRe s).isSome = true) ∧
      (GenerateData.stepSafari L ws s w).safariWeights = ws0.safariWeights) := by
  unfold GenerateData.stepSafari
  split
  · rename_i hc
    split
    · rename_i m1 hm
      exact Or.inl ⟨⟨hc, by rw [hm]; rfl⟩, m1, by rw [h]⟩
    · rename_i hm
      exact Or.inr ⟨fun hh => by rw [hm] at hh; exact absurd hh.2 (by decide), h⟩
  · rename_i hc
    exact Or.inr ⟨fun hh => hc hh.1, h⟩

theorem extractStep_safariWeights {W : Type} (L : GenerateData.Lib W) (ws : GenerateData.Weights W)
    (ua : GenerateData.UserAgent W) :
    (((Contains ua.UserAgent "Safari/" ∧ ¬ Contains ua.UserAgent "Chrome/") ∧ (L.safariVersionRe ua.UserAgent).isSome = true) ∧
      ∃ m, (GenerateData.extractStep L ws ua).safariWeights
        = GenerateData.mapAdd L ws.safariWeights m ua.Weight) ∨
    (¬ ((Contains ua.UserAgent "Safari/" ∧ ¬ Contains ua.UserAgent "Chrome/") ∧ (L.safariVersionRe ua.UserAgent).isSome = true) ∧
      (GenerateData.extractStep L ws ua).safariWeights = ws.safariWeights) := by
  unfold GenerateData.extractStep
  simp only [stepLinux_safariWeights, stepDevice_safariWeights, stepWindows_safariWeights,
    stepAndroid_safariWeights, stepMac_safariWeights, stepIOS_safariWeights,
    stepEdge_safariWeights]
  exact stepSafari_own L _ ws ua.UserAgent ua.Weight (by simp only [stepFirefox_safariWeights, stepChrome_safariWeights])

theorem stepEdge_own {W : Type} (L : GenerateData.Lib W) (ws ws0 : GenerateData.Weights W)
    (s : String) (w : W) (h : ws.edgeWeights = ws0.edgeWeights) :
    (((L.edgeVersionRe s).isSome = true) ∧
      ∃ m, (GenerateData.stepEdge L ws s w).edgeWeights = GenerateData.mapAdd L ws0.edgeWeights m w) ∨
    (¬ ((L.edgeVersionRe s).isSome = true) ∧
      (GenerateData.stepEdge L ws s w).edgeWeights = ws0.edgeWeights) := by
  unfold GenerateData.stepEdge
  split
  · rename_i m1 hm
    exact Or.inl ⟨by rw [hm]; rfl, m1, by rw [h]⟩
  · rename_i hm
    exact Or.inr ⟨fun hh => by rw [hm] at hh; exact absurd hh (by decide), h⟩

theorem extractStep_edgeWeights {W : Type} (L : GenerateData.Lib W) (ws : GenerateData.Weights W)
    (ua : GenerateData.UserAgent W) :
    (((L.edgeVersionRe ua.UserAgent).isSome = true) ∧
      ∃ m, (GenerateData.extractStep L ws ua).edgeWeights
        = GenerateData.mapAdd L ws.edgeWeights m ua.Weight) ∨
    (¬ ((L.edgeVersionRe ua.UserAgent).isSome = true) ∧
      (GenerateData.extractStep L ws ua).edgeWeights = ws.edgeWeights) := by
  unfold GenerateData.extractStep
  simp only [stepLinux_edgeWeights, stepDevice_edgeWeights, stepWindows_edgeWeights,
    stepAndroid_edgeWeights, stepMac_edgeWeights, stepIOS_edgeWeights]
  exact stepEdge_own L _ ws ua.UserAgent ua.Weight (by simp only [stepSafari_edgeWeights, stepFirefox_edgeWeights, stepChrome_edgeWeights])

theorem stepIOS_own {W : Type} (L : GenerateData.Lib W) (ws ws0 : GenerateData.Weights W)
    (s : String) (w : W) (h : ws.iosWeights = ws0.iosWeights) :
    (((L.iosVersionRe s).isSome = true) ∧
      ∃ m, (GenerateData.stepIOS L ws s w).iosWeights = GenerateData.mapAdd L ws0.iosWeights m w) ∨
    (¬ ((L.iosVersionRe s).isSome = true) ∧
      (GenerateData.stepIOS L ws s w).iosWeights = ws0.iosWeights) := by
  unfold GenerateData.stepIOS
  split
  · rename_i m1 hm
    exact Or.inl ⟨by rw [hm]; rfl, m1, by rw [h]⟩
  · rename_i hm
    exact Or.inr ⟨fun hh => by rw [hm] at hh; exact absurd hh (by decide), h⟩

theorem extractStep_iosWeights {W : Type} (L : GenerateData.Lib W) (ws : GenerateData.Weights W)
    (ua : GenerateData.UserAgent W) :
    (((L.iosVersionRe ua.UserAgent).isSome = true) ∧
      ∃ m, (GenerateData.extractStep L ws ua).iosWeights
        = GenerateData.mapAdd L ws.iosWeights m ua.Weight) ∨
    (¬ ((L.iosVersionRe ua.UserAgent).isSome = true) ∧
      (GenerateData.extractStep L ws ua).iosWeights = ws.iosWeights) := by
  unfold GenerateData.extractStep
  simp only [stepLinux_iosWeights, stepDevice_iosWeights, stepWindows_iosWeights,
    stepAndroid_iosWeights, stepMac_iosWeights]
  exact stepIOS_own L _ ws ua.UserAgent ua.Weight (by simp only [stepEdge_iosWeights, stepSafari_iosWeights, stepFirefox_iosWeights, stepChrome_iosWeights])

theorem stepAndroid_own {W : Type} (L : GenerateData.Lib W) (ws ws0 : GenerateData.Weights W)
    (s : String) (w : W) (h : ws.androidWeights = ws0.androidWeights) :
    (((L.androidVersionRe s).isSome = true) ∧
      ∃ m, (GenerateData.stepAndroid L ws s w).androidWeights = GenerateData.mapAdd L ws0.androidWeights m w) ∨
    (¬ ((L.androidVersionRe s).isSome = true) ∧
      (GenerateData.stepAndroid L ws s w).androidWeights = ws0.androidWeights) := by
  unfold GenerateData.stepAndroid
  split
  · rename_i m1 hm
    exact Or.inl ⟨by rw [hm]; rfl, m1, by rw [h]⟩
  · rename_i hm
    exact Or.inr ⟨fun hh => by rw [hm] at hh; exact absurd hh (by decide), h⟩

theorem extractStep_androidWeights {W : Type} (L : GenerateData.Lib W) (ws : GenerateData.Weights W)
    (ua : GenerateData.UserAgent W) :
    (((L.androidVersionRe ua.UserAgent).isSome = true) ∧
      ∃ m, (GenerateData.extractStep L ws ua).androidWeights
        = GenerateData.mapAdd L ws.androidWeights m ua.Weight) ∨
    (¬ ((L.androidVersionRe ua.UserAgent).isSome = true) ∧
      (GenerateData.extractStep L ws ua).androidWeights = ws.androidWeights) := by
  unfold GenerateData.extractStep
  simp only [stepLinux_androidWeights, stepDevice_androidWeights, stepWindows_androidWeights]
  exact stepAndroid_own L _ ws ua.UserAgent ua.Weight (by simp only [stepMac_androidWeights, stepIOS_androidWeights, stepEdge_androidWeights, stepSafari_androidWeights, stepFirefox_androidWeights, stepChrome_androidWeights])

theorem stepWindows_own {W : Type} (L : GenerateData.Lib W) (ws ws0 : GenerateData.Weights W)
    (s : String) (w : W) (h : ws.windowsWeights = ws0.windowsWeights) :
    (((L.windowsVersionRe s).isSome = true) ∧
      ∃ m, (GenerateData.stepWindows L ws s w).windowsWeights = GenerateData.mapAdd L ws0.windowsWeights m w) ∨
    (¬ ((L.windowsVersionRe s).isSome = true) ∧
      (GenerateData.stepWindows L ws s w).windowsWeights = ws0.windowsWeights) := by
  unfold GenerateData.stepWindows
  split
  · rename_i m1 hm
    exact Or.inl ⟨by rw [hm]; rfl, m1, by rw [h]⟩
  · rename_i hm
    exact Or.inr ⟨fun hh => by rw [hm] at hh; exact absurd hh (by decide), h⟩

theorem extractStep_windowsWeights {W : Type} (L : GenerateData.Lib W) (ws : GenerateData.Weights W)
    (ua : GenerateData.UserAgent W) :
    (((L.windowsVersionRe ua.UserAgent).isSome = true) ∧
      ∃ m, (GenerateData.extractStep L ws ua).windowsWeights
        = GenerateData.mapAdd L ws.windowsWeights m ua.Weight) ∨
    (¬ ((L.windowsVersionRe ua.UserAgent).isSome = true) ∧
      (GenerateData.extractStep L ws ua).windowsWeights = ws.windowsWeights) := by
  unfold GenerateData.extractStep
  simp only [stepLinux_windowsWeights, stepDevice_windowsWeights]
  exact stepWindows_own L _ ws ua.UserAgent ua.Weight (by simp only [stepAndroid_windowsWeights, stepMac_windowsWeights, stepIOS_windowsWeights, stepEdge_windowsWeights, stepSafari_windowsWeights, stepFirefox_windowsWeights, stepChrome_windowsWeights])

/-! ## `extractVersions`: sizes of the pools -/

theorem sort_insert_length {α : Type} (less : α → α → Bool) (x : α) (l : List α) :
    (sort.insert less x l).length = l.length + 1 := by
  induction l with
  | nil => rfl
  | cons y ys ih =>
    unfold sort.insert
    split
    · rfl
    · rw [List.length_cons, ih, List.length_cons]

theorem sort_Slice_length {α : Type} (less : α → α → Bool) (l : List α) :
    (sort.Slice less l).length = l.length := by
  induction l with
  | nil => rfl
  | cons x xs ih => rw [sort.Slice, sort_insert_length, ih, List.length_cons]

theorem topVersions_length {W : Type} (L : GenerateData.Lib W) (weights : List (String × W))
    (n : Nat) : (GenerateData.topVersions L weights n).length = min weights.length n := by
  unfold GenerateData.topVersions
  simp only [List.length_map, sort_Slice_length]
  split
  · rename_i h
    rw [List.length_take, sort_Slice_length, List.length_map]
    omega
  · rename_i h
    rw [sort_Slice_length, List.length_map]
    omega

theorem topDevices_length {W : Type} (L : GenerateData.Lib W) (weights : List (String × W))
    (n : Nat) : (GenerateData.topDevices L weights n).length = min weights.length n := by
  unfold GenerateData.topDevices
  simp only [List.length_map, sort_Slice_length]
  split
  · rename_i h
    rw [List.length_take, sort_Slice_length, List.length_map]
    omega
  · rename_i h
    rw [sort_Slice_length, List.length_map]
    omega

theorem topVersions_ne_nil {W : Type} (L : GenerateData.Lib W) (weights : List (String × W))
    (n : Nat) (hn : 0 < n) : GenerateData.topVersions L weights n ≠ [] ↔ weights ≠ [] := by
  rw [← List.length_pos, ← List.length_pos, topVersions_length]
  omega

theorem mapAdd_ne_nil {W : Type} (L : GenerateData.Lib W) (weights : List (String × W))
    (k : String) (w : W) : GenerateData.mapAdd L weights k w ≠ [] := by
  unfold GenerateData.mapAdd
  split
  · rename_i h
    intro he
    rw [List.map_eq_nil_iff] at he
    rw [he] at h
    simp at h
  · simp

/-- A map that a loop fills by `weights[k] += w` is non-empty at the end if
and only if it was at the start or some iteration made the assignment. -/
theorem foldl_ne_nil {W A S : Type} (L : GenerateData.Lib W) (f : S → A → S)
    (proj : S → List (String × W)) (hit : A → Prop) (wt : A → W)
    (hstep : ∀ st a, (hit a ∧ ∃ m, proj (f st a) = GenerateData.mapAdd L (proj st) m (wt a)) ∨
      (¬ hit a ∧ proj (f st a) = proj st))
    (l : List A) (st : S) :
    proj (l.foldl f st) ≠ [] ↔ proj st ≠ [] ∨ ∃ a ∈ l, hit a := by
  induction l generalizing st with
  | nil => simp
  | cons a l ih =>
    rw [List.foldl_cons, ih]
    rcases hstep st a with ⟨ha, m, he⟩ | ⟨ha, he⟩
    · rw [he]
      constructor
      · intro _
        exact Or.inr ⟨a, List.mem_cons_self a l, ha⟩
      · intro _
        exact Or.inl (mapAdd_ne_nil L _ _ _)
    · rw [he]
      constructor
      · rintro (h | ⟨b, hb, hh⟩)
        · exact Or.inl h
        · exact Or.inr ⟨b, List.mem_cons_of_mem a hb, hh⟩
      · rintro (h | ⟨b, hb, hh⟩)
        · exact Or.inl h
        · rcases List.mem_cons.mp hb with rfl | hb
          · exact absurd hh ha
          · exact Or.inr ⟨b, hb, hh⟩

theorem mergeDevices_loop_prefix (b : List GenerateData.AndroidDevice) (seen : List String)
    (result : List GenerateData.AndroidDevice) :
    result <+: (b.foldl (fun (st : List String × List GenerateData.AndroidDevice) d =>
      if ¬ d.Model ∈ st.1 then (d.Model :: st.1, st.2 ++ [d]) else st) (seen, result)).2 := by
  induction b generalizing seen result with
  | nil => exact List.prefix_refl _
  | cons d b ih =>
    rw [List.foldl_cons]
    split
    · exact (List.prefix_append result [d]).trans (ih _ _)
    · exact ih _ _

theorem mergeDevices_ne_nil (a b : List GenerateData.AndroidDevice) (hb : b ≠ []) :
    GenerateData.mergeDevices a b ≠ [] := by
  unfold GenerateData.mergeDevices
  simp only [List.nil_append]
  cases a with
  | cons x a =>
    intro he
    have hp := mergeDevices_loop_prefix b
      ((x :: a).foldl (fun seen d => d.Model :: seen) []) (x :: a)
    rw [he] at hp
    exact absurd (List.prefix_nil.mp hp) (List.cons_ne_nil x a)
  | nil =>
    cases b with
    | nil => exact absurd rfl hb
    | cons d b =>
      intro he
      rw [List.foldl_nil, List.foldl_cons, if_pos (List.not_mem_nil _)] at he
      have hp := mergeDevices_loop_prefix b [d.Model] ([] ++ [d])
      rw [he] at hp
      exact absurd (List.prefix_nil.mp hp) (by simp)

/-! ## `extractVersions`: which pools are non-empty -/

/-- The value of `extractVersions`, field by field, from the maps `ws` that
the loop leaves. -/
theorem extractVersions_eq {W : Type} (L : GenerateData.Lib W)
    (agents : List (GenerateData.UserAgent W)) (ws : GenerateData.Weights W)
    (hws : ws = agents.foldl (GenerateData.extractStep L)
        { chromeWeights := [], firefoxWeights := [], safariWeights := [], edgeWeights := [],
          iosWeights := [], macWeights := [], androidWeights := [], windowsWeights := [],
          linuxWeights := [], deviceWeights := [] }) :
    GenerateData.extractVersions L agents =
      { ChromeVersions := GenerateData.topVersions L ws.chromeWeights GenerateData.topN
        FirefoxVersions := GenerateData.topVersions L ws.firefoxWeights GenerateData.topN
        SafariVersions := GenerateData.topVersions L ws.safariWeights GenerateData.topN
        EdgeVersions := GenerateData.topVersions L ws.edgeWeights GenerateData.topN
        IOSVersions := GenerateData.topVersions L ws.iosWeights GenerateData.topN
        MacVersions := GenerateData.mergeUnique (GenerateData.topVersions L ws.macWeights 30)
          GenerateData.fallbackMacVersions
        AndroidVersions := GenerateData.topVersions L ws.androidWeights 10
        AndroidDevices := GenerateData.mergeDevices
          (GenerateData.topDevices L ws.deviceWeights 50) GenerateData.fallbackAndroidDevices
        WindowsVersions := GenerateData.topVersions L ws.windowsWeights 10
        LinuxDesktops := GenerateData.mergeUnique (GenerateData.topVersions L ws.linuxWeights 20)
          GenerateData.fallbackLinuxDesktops } := by
  subst hws
  unfold GenerateData.extractVersions
  dsimp only

theorem topVersions_nil {W : Type} (L : GenerateData.Lib W) (n : Nat) :
    GenerateData.topVersions L [] n = [] := by
  rw [← List.length_eq_zero, topVersions_length]
  simp

theorem topDevices_nil {W : Type} (L : GenerateData.Lib W) (n : Nat) :
    GenerateData.topDevices L [] n = [] := by
  rw [← List.length_eq_zero, topDevices_length]
  simp

theorem mergeUnique_nil_fallbackMacVersions :
    GenerateData.mergeUnique [] GenerateData.fallbackMacVersions
      = GenerateData.fallbackMacVersions := by
  decide

theorem mergeUnique_nil_fallbackLinuxDesktops :
    GenerateData.mergeUnique [] GenerateData.fallbackLinuxDesktops
      = GenerateData.fallbackLinuxDesktops := by
  decide

theorem mergeDevices_nil_fallbackAndroidDevices :
    GenerateData.mergeDevices [] GenerateData.fallbackAndroidDevices
      = GenerateData.fallbackAndroidDevices := by
  decide

/-- An evaluation of `extractVersions` on a small dataset. -/
theorem extractVersions_example :
    GenerateData.extractVersions GenerateData.toyLib
        [⟨"Chrome/2.0.0.0", 1⟩, ⟨"Chrome/1.0.0.0", 5⟩, ⟨"Firefox/133.0", 2⟩,
         ⟨"Chrome/2.0.0.0", 3⟩, ⟨"curl/8.0", 7⟩]
      = { ChromeVersions := ["1.0.0.0", "2.0.0.0"]
          FirefoxVersions := ["133.0"]
          SafariVersions := []
          EdgeVersions := []
          IOSVersions := []
          MacVersions := GenerateData.fallbackMacVersions
          AndroidVersions := []
          AndroidDevices := GenerateData.fallbackAndroidDevices
          WindowsVersions := []
          LinuxDesktops := GenerateData.fallbackLinuxDesktops } := by
  decide

/-- For the empty dataset, whatever the regexps and the weight arithmetic are,
the loop of `extractVersions` leaves every map empty: seven pools are empty and
three hold the fallback lists. -/
theorem extractVersions_nil (W : Type) (L : GenerateData.Lib W) :
    (GenerateData.extractVersions L []).ChromeVersions = [] ∧
    (GenerateData.extractVersions L []).FirefoxVersions = [] ∧
    (GenerateData.extractVersions L []).SafariVersions = [] ∧
    (GenerateData.extractVersions L []).EdgeVersions = [] ∧
    (GenerateData.extractVersions L []).IOSVersions = [] ∧
    (GenerateData.extractVersions L []).AndroidVersions = [] ∧
    (GenerateData.extractVersions L []).WindowsVersions = [] ∧
    (GenerateData.extractVersions L []).MacVersions = GenerateData.fallbackMacVersions ∧
    (GenerateData.extractVersions L []).LinuxDesktops = GenerateData.fallbackLinuxDesktops ∧
    (GenerateData.extractVersions L []).AndroidDevices
      = GenerateData.fallbackAndroidDevices := by
  rw [extractVersions_eq L [] _ rfl]
  simp only [List.foldl_nil, topVersions_nil, topDevices_nil,
    mergeUnique_nil_fallbackMacVersions, mergeUnique_nil_fallbackLinuxDesktops,
    mergeDevices_nil_fallbackAndroidDevices, and_self]

/-- C32, as stated, fails: for the empty dataset (the loop body is never run,
so the regexps play no part) `extractVersions` returns empty Chrome, Firefox,
Safari, Edge, iOS, Android and Windows version pools; only the macOS versions,
the Linux desktops and the Android devices are filled, with the fallback
lists. -/
theorem extractVersions_empty_dataset :
    (GenerateData.extractVersions GenerateData.toyLib []).ChromeVersions = [] ∧
    (GenerateData.extractVersions GenerateData.toyLib []).FirefoxVersions = [] ∧
    (GenerateData.extractVersions GenerateData.toyLib []).SafariVersions = [] ∧
    (GenerateData.extractVersions GenerateData.toyLib []).EdgeVersions = [] ∧
    (GenerateData.extractVersions GenerateData.toyLib []).IOSVersions = [] ∧
    (GenerateData.extractVersions GenerateData.toyLib []).AndroidVersions = [] ∧
    (GenerateData.extractVersions GenerateData.toyLib []).WindowsVersions = [] ∧
    (GenerateData.extractVersions GenerateData.toyLib []).MacVersions
      = GenerateData.fallbackMacVersions ∧
    (GenerateData.extractVersions GenerateData.toyLib []).LinuxDesktops
      = GenerateData.fallbackLinuxDesktops ∧
    (GenerateData.extractVersions GenerateData.toyLib []).AndroidDevices
      = GenerateData.fallbackAndroidDevices :=
  extractVersions_nil Nat GenerateData.toyLib

/-- C32, amended: for every dataset and every behaviour of the regexps and of
the weight arithmetic, the macOS version, Linux desktop and Android device
pools returned by `extractVersions` are non-empty and contain every fallback
entry; each of the other seven pools is non-empty if and only if the dataset
has a user-agent from which the loop extracts a version for that pool. -/
theorem extractVersions_pools (W : Type) (L : GenerateData.Lib W)
    (agents : List (GenerateData.UserAgent W)) :
    (GenerateData.extractVersions L agents).MacVersions ≠ [] ∧
    (GenerateData.extractVersions L agents).LinuxDesktops ≠ [] ∧
    (GenerateData.extractVersions L agents).AndroidDevices ≠ [] ∧
    (∀ v ∈ GenerateData.fallbackMacVersions,
      v ∈ (GenerateData.extractVersions L agents).MacVersions) ∧
    (∀ v ∈ GenerateData.fallbackLinuxDesktops,
      v ∈ (GenerateData.extractVersions L agents).LinuxDesktops) ∧
    ((GenerateData.extractVersions L agents).ChromeVersions ≠ [] ↔
      ∃ ua ∈ agents, (Contains ua.UserAgent "Chrome/" ∧ ¬ Contains ua.UserAgent "Edg/" ∧
        ¬ Contains ua.UserAgent "OPR/" ∧ ¬ Contains ua.UserAgent "SamsungBrowser") ∧
        (L.chromeVersionRe ua.UserAgent).isSome = true) ∧
    ((GenerateData.extractVersions L agents).FirefoxVersions ≠ [] ↔
      ∃ ua ∈ agents, (L.firefoxVersionRe ua.UserAgent).isSome = true) ∧
    ((GenerateData.extractVersions L agents).SafariVersions ≠ [] ↔
      ∃ ua ∈ agents, (Contains ua.UserAgent "Safari/" ∧ ¬ Contains ua.UserAgent "Chrome/") ∧
        (L.safariVersionRe ua.UserAgent).isSome = true) ∧
    ((GenerateData.extractVersions L agents).EdgeVersions ≠ [] ↔
      ∃ ua ∈ agents, (L.edgeVersionRe ua.UserAgent).isSome = true) ∧
    ((GenerateData.extractVersions L agents).IOSVersions ≠ [] ↔
      ∃ ua ∈ agents, (L.iosVersionRe ua.UserAgent).isSome = true) ∧
    ((GenerateData.extractVersions L agents).AndroidVersions ≠ [] ↔
      ∃ ua ∈ agents, (L.androidVersionRe ua.UserAgent).isSome = true) ∧
    ((GenerateData.extractVersions L agents).WindowsVersions ≠ [] ↔
      ∃ ua ∈ agents, (L.windowsVersionRe ua.UserAgent).isSome = true) := by
  have hm : ∀ a b : List String, b ≠ [] → GenerateData.mergeUnique a b ≠ [] := by
    intro a b hb he
    cases b with
    | nil => exact hb rfl
    | cons v b =>
      have hv : v ∈ GenerateData.mergeUnique a (v :: b) := by
        rw [mergeUnique_eq, specMergeUnique, List.mem_append, mem_firstOccurrences,
          List.mem_filter]
        by_cases ha : v ∈ a
        · exact Or.inl ha
        · exact Or.inr ⟨List.mem_cons_self v b, by simpa using ha⟩
      rw [he] at hv
      exact absurd hv (List.not_mem_nil v)
  have hmem : ∀ (a b : List String) (v : String), v ∈ b → v ∈ GenerateData.mergeUnique a b := by
    intro a b v hv
    rw [mergeUnique_eq, specMergeUnique, List.mem_append, mem_firstOccurrences,
      List.mem_filter]
    by_cases ha : v ∈ a
    · exact Or.inl ha
    · exact Or.inr ⟨hv, by simpa using ha⟩
  have hfm : GenerateData.fallbackMacVersions ≠ [] := by decide
  have hfl : GenerateData.fallbackLinuxDesktops ≠ [] := by decide
  have hfd : GenerateData.fallbackAndroidDevices ≠ [] := by decide
  obtain ⟨ws, hws⟩ : ∃ ws : GenerateData.Weights W,
      ws = agents.foldl (GenerateData.extractStep L)
        { chromeWeights := [], firefoxWeights := [], safariWeights := [], edgeWeights := [],
          iosWeights := [], macWeights := [], androidWeights := [], windowsWeights := [],
          linuxWeights := [], deviceWeights := [] } := ⟨_, rfl⟩
  rw [extractVersions_eq L agents ws hws]
  dsimp only
  refine ⟨hm _ _ hfm, hm _ _ hfl, mergeDevices_ne_nil _ _ hfd,
    fun v hv => hmem _ _ v hv, fun v hv => hmem _ _ v hv, ?_, ?_, ?_, ?_, ?_, ?_, ?_⟩
  · rw [topVersions_ne_nil L _ _ (by decide), hws,
      foldl_ne_nil L (GenerateData.extractStep L) (fun ws => ws.chromeWeights) _
        (fun ua => ua.Weight) (fun ws ua => extractStep_chromeWeights L ws ua)]
    simp
  · rw [topVersions_ne_nil L _ _ (by decide), hws,
      foldl_ne_nil L (GenerateData.extractStep L) (fun ws => ws.firefoxWeights) _
        (fun ua => ua.Weight) (fun ws ua => extractStep_firefoxWeights L ws ua)]
    simp
  · rw [topVersions_ne_nil L _ _ (by decide), hws,
      foldl_ne_nil L (GenerateData.extractStep L) (fun ws => ws.safariWeights) _
        (fun ua => ua.Weight) (fun ws ua => extractStep_safariWeights L ws ua)]
    simp
  · rw [topVersions_ne_nil L _ _ (by decide), hws,
      foldl_ne_nil L (GenerateData.extractStep L) (fun ws => ws.edgeWeights) _
        (fun ua => ua.Weight) (fun ws ua => extractStep_edgeWeights L ws ua)]
    simp
  · rw [topVersions_ne_nil L _ _ (by decide), hws,
      foldl_ne_nil L (GenerateData.extractStep L) (fun ws => ws.iosWeights) _
        (fun ua => ua.Weight) (fun ws ua => extractStep_iosWeights L ws ua)]
    simp
  · rw [topVersions_ne_nil L _ _ (by decide), hws,
      foldl_ne_nil L (GenerateData.extractStep L) (fun ws => ws.androidWeights) _
        (fun ua => ua.Weight) (fun ws ua => extractStep_androidWeights L ws ua)]
    simp
  · rw [topVersions_ne_nil L _ _ (by decide), hws,
      foldl_ne_nil L (GenerateData.extractStep L) (fun ws => ws.windowsWeights) _
        (fun ua => ua.Weight) (fun ws ua => extractStep_windowsWeights L ws ua)]
    simp
end UA
